import Mathlib

/-!
# Oncologia website: helix particle renderers

A shallow embedding of `assets/js/dna-animation.js`.  JavaScript numbers are
modelled by an arbitrary linearly ordered field `α` (exact arithmetic; the
theorems about limits take `α = ℝ`).  Where the code divides by a value that
can be zero (the pointer repulsion of the floating particles) the result is a
`JSNumber`, which also has the values `NaN` and the two infinities.  The host
functions `Math.sin`, `Math.cos`, `Math.sqrt`, `Math.PI` and `Math.random` are
parameters, collected in `JSMath`; the canvas is modelled by the list of calls
issued to it, and its integer size attributes by `canvasDimension`.
-/

namespace Oncologia

/-! ## Host environment -/

/-- The members of the JavaScript `Math` object used by the renderers.
`random k` is the value returned by the `k`-th call of `Math.random()`. -/
structure JSMath (α : Type) where
  sin : α → α
  cos : α → α
  sqrt : α → α
  PI : α
  random : Nat → α

/-- What the language standard guarantees about the host functions:
sine and cosine lie in `[-1, 1]`, `Math.random()` lies in `[0, 1)`. -/
structure JSMath.Lawful {α : Type} [LinearOrderedField α] (M : JSMath α) : Prop where
  sin_ge : ∀ x, -1 ≤ M.sin x
  sin_le : ∀ x, M.sin x ≤ 1
  cos_ge : ∀ x, -1 ≤ M.cos x
  cos_le : ∀ x, M.cos x ≤ 1
  random_ge : ∀ k, 0 ≤ M.random k
  random_lt : ∀ k, M.random k < 1

/-- `Array.prototype.sort(compareFn)`: the host sort, which the language
standard requires to be stable; `a` is not moved after `b` when
`compareFn(a, b) <= 0`.  Modelled by the stable merge sort. -/
def jsSort {α β : Type} [LinearOrderedField α] (compareFn : β → β → α) (l : List β) : List β :=
  l.mergeSort (fun a b => decide (compareFn a b ≤ 0))

/-- The calls issued to the 2D drawing context (style assignments omitted). -/
inductive DrawOp (α : Type) where
  | clearRect (x y w h : α)
  | fillRect (x y w h : α)
  | createRadialGradient (x0 y0 r0 x1 y1 r1 : α)
  | createLinearGradient (x0 y0 x1 y1 : α)
  | beginPath
  | arc (x y r : α)
  | moveTo (x y : α)
  | lineTo (x y : α)
  | fill
  | stroke

/-- The rectangle of the container and the window properties read on resize. -/
structure Viewport (α : Type) where
  rectWidth : α
  rectHeight : α
  devicePixelRatio : α
  innerWidth : α

/-- The value returned by `getParticlePosition` / `getHelixPosition`. -/
structure Position (α : Type) where
  x : α
  y : α
  z : α
  scale : α

/-- The connector record `{ index1, index2, opacity }`. -/
structure Connection (α : Type) where
  index1 : Nat
  index2 : Nat
  opacity : α

/-- The expression `start + (end - start) * factor` of `lerp`. -/
def lerp {α : Type} [LinearOrderedField α] (start stop factor : α) : α :=
  start + (stop - start) * factor

/-- The expression `perspective / (perspective + z)` of the 3D projection. -/
def projectionScale {α : Type} [LinearOrderedField α] (perspective z : α) : α :=
  perspective / (perspective + z)

/-- The values taken by `i` in `for (let i = 0; i < n; i += step)`. -/
def steps (n step : Nat) : List Nat :=
  (List.range n).filter (fun i => i % step = 0)

/-- The value read back from `canvas.width` (or `canvas.height`) after the
assignment of the number `x`.  The attribute is an `unsigned long` limited to
non-negative numbers: `x` is truncated towards zero and reduced modulo `2^32`,
and a result above 2147483647 is replaced by the attribute's default (300 for
the width, 150 for the height). -/
def canvasDimension {α : Type} [LinearOrderedField α] [FloorRing α] (dflt : Nat) (x : α) : Int :=
  let n : Int := (if 0 ≤ x then Int.floor x else Int.ceil x) % 4294967296
  if n ≤ 2147483647 then n else dflt

/-- A JavaScript number that need not be finite: a division by zero yields
`NaN` (for `0 / 0`) or an infinity. -/
inductive JSNumber (α : Type) where
  | finite (a : α)
  | nan
  | posInf
  | negInf

namespace JSNumber

variable {α : Type} [LinearOrderedField α]

/-- The quotient `a / b` of two finite numbers, for a divisor that is not the
negative zero (here the divisor is a value of `Math.sqrt`). -/
def div (a b : α) : JSNumber α :=
  if b = 0 then (if a = 0 then nan else if 0 < a then posInf else negInf)
  else finite (a / b)

/-- The product `x * c` with a finite number `c`. -/
def mulFinite : JSNumber α → α → JSNumber α
  | finite a, c => finite (a * c)
  | nan, _ => nan
  | posInf, c => if 0 < c then posInf else if c < 0 then negInf else nan
  | negInf, c => if 0 < c then negInf else if c < 0 then posInf else nan

/-- The difference `a - x` with a finite number `a`. -/
def subFrom (a : α) : JSNumber α → JSNumber α
  | finite b => finite (a - b)
  | nan => nan
  | posInf => negInf
  | negInf => posInf

/-- The comparison `x < c` with a finite number `c`; false for `NaN`. -/
def lt : JSNumber α → α → Bool
  | finite a, c => decide (a < c)
  | negInf, _ => true
  | _, _ => false

/-- The comparison `x > c` with a finite number `c`; false for `NaN`. -/
def gt : JSNumber α → α → Bool
  | finite a, c => decide (c < a)
  | posInf, _ => true
  | _, _ => false

end JSNumber

/-! ## DNAVisualization -/

namespace DNAVisualization

structure Config (α : Type) where
  particleCount : Nat
  helixRadius : α
  helixHeight : α
  rotationSpeed : α
  waveAmplitude : α
  waveFrequency : α
  particleSizeMin : α
  particleSizeMax : α
  colorPrimary : String
  colorSecondary : String
  mouseInfluence : α
  glowIntensity : α

/-- The configuration literal of the constructor. -/
def defaultConfig {α : Type} [LinearOrderedField α] : Config α :=
  { particleCount := 60
    helixRadius := 80
    helixHeight := 400
    rotationSpeed := 8 / 1000
    waveAmplitude := 20
    waveFrequency := 5 / 100
    particleSizeMin := 2
    particleSizeMax := 6
    colorPrimary := "#00d4ff"
    colorSecondary := "#00ff88"
    mouseInfluence := 50
    glowIntensity := 15 }

structure Particle (α : Type) where
  baseAngle : α
  baseY : α
  strand : Nat
  size : α
  pulseOffset : α
  color : String

/-- The fields of a `DNAVisualization` instance; `rng` counts the calls of
`Math.random()` made so far. -/
structure State (α : Type) where
  config : Config α
  canvasWidth : α
  canvasHeight : α
  centerX : α
  centerY : α
  particles : List (Particle α)
  connections : List (Connection α)
  mouseX : α
  mouseY : α
  targetMouseX : α
  targetMouseY : α
  time : α
  isRunning : Bool
  rng : Nat

/-- An element of `sortedParticles`: `{ ...p, index: i, pos: ... }`. -/
structure Projected (α : Type) where
  particle : Particle α
  index : Nat
  pos : Position α

variable {α : Type} [LinearOrderedField α]

/-- The fields set by the constructor before `init()`. -/
def construct (cfg : Config α) : State α :=
  { config := cfg
    canvasWidth := 0
    canvasHeight := 0
    centerX := 0
    centerY := 0
    particles := []
    connections := []
    mouseX := 0
    mouseY := 0
    targetMouseX := 0
    targetMouseY := 0
    time := 0
    isRunning := true
    rng := 0 }

/-- The method `resize()`: the centre is computed from the values read back
from the canvas attributes, which are integers. -/
def resize [FloorRing α] (v : Viewport α) (s : State α) : State α :=
  let s := { s with canvasWidth := ((canvasDimension 300 v.rectWidth : Int) : α) }
  let s := { s with canvasHeight := ((canvasDimension 150 v.rectHeight : Int) : α) }
  let s := { s with centerX := s.canvasWidth / 2 }
  { s with centerY := s.canvasHeight / 2 }

def randomRange (M : JSMath α) (k : Nat) (min max : α) : α :=
  min + M.random k * (max - min)

/-- One iteration of the first loop of `createParticles`. -/
def pushPair (M : JSMath α) (s : State α) (i : Nat) : State α :=
  let progress : α := (i : α) / (s.config.particleCount : α)
  let angle := progress * M.PI * 6
  let y := (progress - 1 / 2) * s.config.helixHeight
  let first : Particle α :=
    { baseAngle := angle
      baseY := y
      strand := 0
      size := randomRange M s.rng s.config.particleSizeMin s.config.particleSizeMax
      pulseOffset := M.random (s.rng + 1) * M.PI * 2
      color := s.config.colorPrimary }
  let second : Particle α :=
    { baseAngle := angle + M.PI
      baseY := y
      strand := 1
      size := randomRange M (s.rng + 2) s.config.particleSizeMin s.config.particleSizeMax
      pulseOffset := M.random (s.rng + 3) * M.PI * 2
      color := s.config.colorSecondary }
  { s with particles := s.particles ++ [first, second], rng := s.rng + 4 }

/-- One iteration of the second loop of `createParticles`. -/
def pushConnection (M : JSMath α) (s : State α) (i : Nat) : State α :=
  { s with
    connections := s.connections ++
      [{ index1 := i * 2, index2 := i * 2 + 1, opacity := 3 / 10 + M.random s.rng * (4 / 10) }]
    rng := s.rng + 1 }

def createParticles (M : JSMath α) (s : State α) : State α :=
  let s0 := { s with particles := [] }
  let s1 := (List.range s0.config.particleCount).foldl (pushPair M) s0
  (steps s1.config.particleCount 3).foldl (pushConnection M) s1

def getParticlePosition (M : JSMath α) (s : State α) (particle : Particle α) : Position α :=
  let angle := particle.baseAngle + s.time
  let wave := M.sin (particle.baseY * s.config.waveFrequency + s.time * 2) * s.config.waveAmplitude
  let x := M.cos angle * (s.config.helixRadius + wave)
  let z := M.sin angle * (s.config.helixRadius + wave)
  let y := particle.baseY
  let distX := s.mouseX / 5
  let distY := s.mouseY / 5
  let x := x + distX * (1 - |y| / 200)
  let y := y + distY * (3 / 10)
  let perspective : α := 400
  let scale := projectionScale perspective z
  { x := s.centerX + x * scale
    y := s.centerY + y * scale
    z := z
    scale := scale }

/-- The array `sortedParticles` of `drawParticles`. -/
def sortedParticles (M : JSMath α) (s : State α) : List (Projected α) :=
  jsSort (fun a b => a.pos.z - b.pos.z)
    (s.particles.enum.map (fun ip =>
      { particle := ip.2, index := ip.1, pos := getParticlePosition M s ip.2 }))

/-- The body of the `forEach` of `drawParticles`. -/
def drawParticle (M : JSMath α) (s : State α) (particle : Projected α) : List (DrawOp α) :=
  let x := particle.pos.x
  let y := particle.pos.y
  let scale := particle.pos.scale
  let pulse := M.sin (s.time * 3 + particle.particle.pulseOffset) * (3 / 10) + 1
  let size := particle.particle.size * scale * pulse
  [ DrawOp.createRadialGradient x y 0 x y (size * 3),
    DrawOp.beginPath, DrawOp.arc x y (size * 3), DrawOp.fill,
    DrawOp.beginPath, DrawOp.arc x y size, DrawOp.fill ]

def drawParticles (M : JSMath α) (s : State α) : List (DrawOp α) :=
  (sortedParticles M s).flatMap (drawParticle M s)

/-- The body of the `forEach` of `drawConnections`. -/
def drawConnection (M : JSMath α) (s : State α) (conn : Connection α) : List (DrawOp α) :=
  match s.particles[conn.index1]?, s.particles[conn.index2]? with
  | some p1, some p2 =>
    let pos1 := getParticlePosition M s p1
    let pos2 := getParticlePosition M s p2
    if pos1.z < -100 ∨ pos2.z < -100 then []
    else
      [ DrawOp.createLinearGradient pos1.x pos1.y pos2.x pos2.y,
        DrawOp.beginPath, DrawOp.moveTo pos1.x pos1.y, DrawOp.lineTo pos2.x pos2.y,
        DrawOp.stroke ]
  | _, _ => []

def drawConnections (M : JSMath α) (s : State α) : List (DrawOp α) :=
  s.connections.flatMap (drawConnection M s)

def drawFloatingParticles (M : JSMath α) (s : State α) : List (DrawOp α) :=
  let count : Nat := 20
  (List.range count).flatMap (fun i =>
    let t := s.time * (1 / 2) + ((i : α) / (count : α)) * M.PI * 2
    let x := s.centerX + M.cos (t * (3 / 2) + i) * 150 + M.sin (t * (7 / 10)) * 50
    let y := s.centerY + M.sin (t + i * (1 / 2)) * 150 + M.cos (t * (1 / 2)) * 30
    let size := 1 + M.sin (t * 2 + i) * (1 / 2)
    [DrawOp.beginPath, DrawOp.arc x y size, DrawOp.fill])

def clear (s : State α) : List (DrawOp α) :=
  [DrawOp.clearRect 0 0 s.canvasWidth s.canvasHeight]

/-- One call of `animate()`: the new state and the canvas calls of the frame. -/
def animate (M : JSMath α) (s : State α) : State α × List (DrawOp α) :=
  if !s.isRunning then (s, [])
  else
    let s := { s with time := s.time + s.config.rotationSpeed }
    let s := { s with mouseX := lerp s.mouseX s.targetMouseX (1 / 10) }
    let s := { s with mouseY := lerp s.mouseY s.targetMouseY (1 / 10) }
    (s, clear s ++ drawConnections M s ++ drawParticles M s ++ drawFloatingParticles M s)

/-- The `resize` listener registered by `bindEvents`. -/
def onResize [FloorRing α] (v : Viewport α) (s : State α) : State α :=
  resize v s

/-- The `visibilitychange` listener registered by `bindEvents`. -/
def onVisibilityChange (hidden : Bool) (s : State α) : State α :=
  { s with isRunning := !hidden }

/-- The `mousemove` listener: `rectLeft`, `rectTop` are the container's offsets. -/
def onMouseMove (clientX clientY rectLeft rectTop : α) (s : State α) : State α :=
  { s with
    targetMouseX := clientX - rectLeft - s.centerX
    targetMouseY := clientY - rectTop - s.centerY }

def onMouseLeave (s : State α) : State α :=
  { s with targetMouseX := 0, targetMouseY := 0 }

/-- The state after `init()`: `createCanvas` (which resizes), `createParticles`,
`bindEvents` (no state change) and the first `animate()`. -/
def init [FloorRing α] (M : JSMath α) (v : Viewport α) (s : State α) : State α :=
  (animate M (createParticles M (resize v s))).1

end DNAVisualization

/-! ## HeroBackground3D -/

namespace HeroBackground3D

structure Config (α : Type) where
  helixParticleCount : Nat
  helixRadius : α
  helixHeight : α
  rotationSpeed : α
  waveAmplitude : α
  waveFrequency : α
  floatingCount : Nat
  connectionDistance : α
  mouseInfluence : α
  mouseLerp : α
  maxFPS : Nat
  reduceOnMobile : Bool

/-- The configuration literal of the constructor. -/
def defaultConfig {α : Type} [LinearOrderedField α] : Config α :=
  { helixParticleCount := 80
    helixRadius := 150
    helixHeight := 600
    rotationSpeed := 4 / 1000
    waveAmplitude := 30
    waveFrequency := 3 / 100
    floatingCount := 100
    connectionDistance := 120
    mouseInfluence := 8 / 100
    mouseLerp := 5 / 100
    maxFPS := 60
    reduceOnMobile := true }

structure Particle (α : Type) where
  baseAngle : α
  baseY : α
  strand : Nat
  size : α
  pulseOffset : α
  brightness : α

/-- A floating particle; `x` and `y` may hold a value that is not finite after
the repulsion step. -/
structure FloatingParticle (α : Type) where
  x : JSNumber α
  y : JSNumber α
  baseX : α
  baseY : α
  vx : α
  vy : α
  size : α
  opacity : α
  speed : α
  angle : α
  orbitRadius : α

/-- The object `this.mouse`. -/
structure Mouse (α : Type) where
  x : α
  y : α
  targetX : α
  targetY : α

/-- The fields of a `HeroBackground3D` instance; `rng` counts the calls of
`Math.random()` made so far. -/
structure State (α : Type) where
  config : Config α
  canvasWidth : α
  canvasHeight : α
  width : α
  height : α
  centerX : α
  centerY : α
  helixOffsetX : α
  helixOffsetY : α
  particles : List (Particle α)
  floatingParticles : List (FloatingParticle α)
  connections : List (Connection α)
  time : α
  isRunning : Bool
  mouse : Mouse α
  isMobile : Bool
  rng : Nat

/-- An element of `sortedParticles`: `{ ...p, index: i, pos: ... }`. -/
structure Projected (α : Type) where
  particle : Particle α
  index : Nat
  pos : Position α

variable {α : Type} [LinearOrderedField α]

/-- The fields set by the constructor before `init()`, the mobile reduction
included. -/
def construct (cfg : Config α) (v : Viewport α) : State α :=
  let isMobile : Bool := decide (v.innerWidth < 768)
  let cfg : Config α :=
    if isMobile && cfg.reduceOnMobile then
      { cfg with helixParticleCount := 40, floatingCount := 50 }
    else cfg
  { config := cfg
    canvasWidth := 0
    canvasHeight := 0
    width := 0
    height := 0
    centerX := 0
    centerY := 0
    helixOffsetX := 0
    helixOffsetY := 0
    particles := []
    floatingParticles := []
    connections := []
    time := 0
    isRunning := true
    mouse := { x := 0, y := 0, targetX := 0, targetY := 0 }
    isMobile := isMobile
    rng := 0 }

/-- The expression `Math.min(window.devicePixelRatio || 1, 2)`. -/
def dpr (v : Viewport α) : α :=
  min (if v.devicePixelRatio = 0 then 1 else v.devicePixelRatio) 2

def resize (v : Viewport α) (s : State α) : State α :=
  { s with
    canvasWidth := v.rectWidth * dpr v
    canvasHeight := v.rectHeight * dpr v
    width := v.rectWidth
    height := v.rectHeight
    centerX := v.rectWidth / 2
    centerY := v.rectHeight / 2
    helixOffsetX := v.rectWidth * (55 / 100)
    helixOffsetY := v.rectHeight * (1 / 2) }

/-- One iteration of the first loop of `createHelixParticles`. -/
def pushPair (M : JSMath α) (s : State α) (i : Nat) : State α :=
  let progress : α := (i : α) / (s.config.helixParticleCount : α)
  let angle := progress * M.PI * 8
  let y := (progress - 1 / 2) * s.config.helixHeight
  let first : Particle α :=
    { baseAngle := angle
      baseY := y
      strand := 0
      size := 2 + M.random s.rng * 3
      pulseOffset := M.random (s.rng + 1) * M.PI * 2
      brightness := 6 / 10 + M.random (s.rng + 2) * (4 / 10) }
  let second : Particle α :=
    { baseAngle := angle + M.PI
      baseY := y
      strand := 1
      size := 2 + M.random (s.rng + 3) * 3
      pulseOffset := M.random (s.rng + 4) * M.PI * 2
      brightness := 6 / 10 + M.random (s.rng + 5) * (4 / 10) }
  { s with particles := s.particles ++ [first, second], rng := s.rng + 6 }

/-- One iteration of the second loop of `createHelixParticles`. -/
def pushConnection (M : JSMath α) (s : State α) (i : Nat) : State α :=
  { s with
    connections := s.connections ++
      [{ index1 := i * 2, index2 := i * 2 + 1, opacity := 2 / 10 + M.random s.rng * (3 / 10) }]
    rng := s.rng + 1 }

def createHelixParticles (M : JSMath α) (s : State α) : State α :=
  let s0 := { s with particles := [] }
  let s1 := (List.range s0.config.helixParticleCount).foldl (pushPair M) s0
  (steps s1.config.helixParticleCount 4).foldl (pushConnection M) s1

/-- One iteration of the loop of `createFloatingParticles`. -/
def pushFloating (M : JSMath α) (s : State α) (_i : Nat) : State α :=
  let p : FloatingParticle α :=
    { x := JSNumber.finite (M.random s.rng * s.width)
      y := JSNumber.finite (M.random (s.rng + 1) * s.height)
      baseX := M.random (s.rng + 2) * s.width
      baseY := M.random (s.rng + 3) * s.height
      vx := (M.random (s.rng + 4) - 1 / 2) * (3 / 10)
      vy := (M.random (s.rng + 5) - 1 / 2) * (3 / 10)
      size := 1 + M.random (s.rng + 6) * 2
      opacity := 1 / 10 + M.random (s.rng + 7) * (4 / 10)
      speed := 1 / 2 + M.random (s.rng + 8) * 1
      angle := M.random (s.rng + 9) * M.PI * 2
      orbitRadius := 20 + M.random (s.rng + 10) * 60 }
  { s with floatingParticles := s.floatingParticles ++ [p], rng := s.rng + 11 }

def createFloatingParticles (M : JSMath α) (s : State α) : State α :=
  let s0 := { s with floatingParticles := [] }
  (List.range s0.config.floatingCount).foldl (pushFloating M) s0

def getHelixPosition (M : JSMath α) (s : State α) (particle : Particle α) : Position α :=
  let angle := particle.baseAngle + s.time
  let wave := M.sin (particle.baseY * s.config.waveFrequency + s.time * 2) * s.config.waveAmplitude
  let x := M.cos angle * (s.config.helixRadius + wave)
  let z := M.sin angle * (s.config.helixRadius + wave)
  let y := particle.baseY
  let mouseEffect := s.config.mouseInfluence * 100
  let x := x + s.mouse.x * mouseEffect * (1 - |y| / 300)
  let y := y + s.mouse.y * mouseEffect * (1 / 2)
  let perspective : α := 500
  let scale := projectionScale perspective z
  { x := s.helixOffsetX + x * scale
    y := s.helixOffsetY + y * scale
    z := z
    scale := scale }

/-- The array `sortedParticles` of `drawHelixParticles`. -/
def sortedParticles (M : JSMath α) (s : State α) : List (Projected α) :=
  jsSort (fun a b => a.pos.z - b.pos.z)
    (s.particles.enum.map (fun ip =>
      { particle := ip.2, index := ip.1, pos := getHelixPosition M s ip.2 }))

/-- The body of the `forEach` of `drawHelixParticles`. -/
def drawHelixParticle (M : JSMath α) (s : State α) (particle : Projected α) : List (DrawOp α) :=
  let x := particle.pos.x
  let y := particle.pos.y
  let scale := particle.pos.scale
  let pulse := M.sin (s.time * 4 + particle.particle.pulseOffset) * (3 / 10) + 1
  let size := particle.particle.size * scale * pulse
  let glowSize := size * 4
  [ DrawOp.createRadialGradient x y 0 x y glowSize,
    DrawOp.beginPath, DrawOp.arc x y glowSize, DrawOp.fill,
    DrawOp.beginPath, DrawOp.arc x y size, DrawOp.fill ]

def drawHelixParticles (M : JSMath α) (s : State α) : List (DrawOp α) :=
  (sortedParticles M s).flatMap (drawHelixParticle M s)

/-- The body of the `forEach` of `drawConnections`. -/
def drawConnection (M : JSMath α) (s : State α) (conn : Connection α) : List (DrawOp α) :=
  match s.particles[conn.index1]?, s.particles[conn.index2]? with
  | some p1, some p2 =>
    let pos1 := getHelixPosition M s p1
    let pos2 := getHelixPosition M s p2
    if pos1.z < -200 ∨ pos2.z < -200 then []
    else
      [ DrawOp.beginPath, DrawOp.moveTo pos1.x pos1.y, DrawOp.lineTo pos2.x pos2.y,
        DrawOp.stroke ]
  | _, _ => []

def drawConnections (M : JSMath α) (s : State α) : List (DrawOp α) :=
  s.connections.flatMap (drawConnection M s)

def clear (s : State α) : List (DrawOp α) :=
  [DrawOp.clearRect 0 0 s.width s.height]

def drawGlow (s : State α) : List (DrawOp α) :=
  [ DrawOp.createRadialGradient s.helixOffsetX s.helixOffsetY 0 s.helixOffsetX s.helixOffsetY 400,
    DrawOp.fillRect 0 0 s.width s.height ]

/-- The body of the `forEach` of `drawFloatingParticles`: the particle after
the update and the canvas calls drawing it.  In the repulsion block `dx` and
`dy` are divided by `dist` without a test for zero.  A call of `arc` with a
coordinate that is not finite adds nothing to the path and is left out of the
list. -/
def stepFloating (M : JSMath α) (s : State α) (i : Nat) (p : FloatingParticle α) :
    FloatingParticle α × List (DrawOp α) :=
  let p := { p with angle := p.angle + p.speed * (1 / 100) }
  let x := p.baseX + M.cos p.angle * p.orbitRadius + M.sin (s.time * p.speed) * 20
  let y := p.baseY + M.sin (p.angle * (7 / 10)) * p.orbitRadius
    + M.cos (s.time * p.speed * (1 / 2)) * 20
  let dx := (s.mouse.x * s.width / 2 + s.centerX) - x
  let dy := (s.mouse.y * s.height / 2 + s.centerY) - y
  let dist := M.sqrt (dx * dx + dy * dy)
  let p :=
    if dist < 150 then
      let force := (150 - dist) / 150
      { p with
        x := JSNumber.subFrom x
          (JSNumber.mulFinite (JSNumber.mulFinite (JSNumber.div dx dist) force) 2)
        y := JSNumber.subFrom y
          (JSNumber.mulFinite (JSNumber.mulFinite (JSNumber.div dy dist) force) 2) }
    else { p with x := JSNumber.finite x, y := JSNumber.finite y }
  let p := if JSNumber.lt p.x (-50) then { p with baseX := s.width + 50 } else p
  let p := if JSNumber.gt p.x (s.width + 50) then { p with baseX := -50 } else p
  let p := if JSNumber.lt p.y (-50) then { p with baseY := s.height + 50 } else p
  let p := if JSNumber.gt p.y (s.height + 50) then { p with baseY := -50 } else p
  let pulse := M.sin (s.time * 3 + i) * (2 / 10) + 1
  (p, match p.x, p.y with
    | JSNumber.finite a, JSNumber.finite b =>
      [DrawOp.beginPath, DrawOp.arc a b (p.size * pulse), DrawOp.fill]
    | _, _ => [DrawOp.beginPath, DrawOp.fill])

/-- The nested loops of `drawFloatingParticles` joining nearby particles.  When
a coordinate is not finite, `dist` is `NaN` or infinite and the comparison with
`connectionDistance` is false. -/
def drawFloatingLinks (M : JSMath α) (s : State α) : List (DrawOp α) :=
  (List.range s.floatingParticles.length).flatMap (fun i =>
    ((List.range s.floatingParticles.length).filter (fun j => i + 1 ≤ j)).flatMap (fun j =>
      match s.floatingParticles[i]?, s.floatingParticles[j]? with
      | some p1, some p2 =>
        match p1.x, p1.y, p2.x, p2.y with
        | JSNumber.finite x1, JSNumber.finite y1, JSNumber.finite x2, JSNumber.finite y2 =>
          let dx := x1 - x2
          let dy := y1 - y2
          let dist := M.sqrt (dx * dx + dy * dy)
          if dist < s.config.connectionDistance then
            [DrawOp.beginPath, DrawOp.moveTo x1 y1, DrawOp.lineTo x2 y2, DrawOp.stroke]
          else []
        | _, _, _, _ => []
      | _, _ => []))

def drawFloatingParticles (M : JSMath α) (s : State α) : State α × List (DrawOp α) :=
  let stepped := s.floatingParticles.enum.map (fun ip => stepFloating M s ip.1 ip.2)
  let s := { s with floatingParticles := stepped.map Prod.fst }
  (s, stepped.flatMap Prod.snd ++ drawFloatingLinks M s)

/-- One call of `animate()`: the new state and the canvas calls of the frame. -/
def animate (M : JSMath α) (s : State α) : State α × List (DrawOp α) :=
  if !s.isRunning then (s, [])
  else
    let s := { s with time := s.time + s.config.rotationSpeed }
    let s := { s with mouse := { s.mouse with x := lerp s.mouse.x s.mouse.targetX s.config.mouseLerp } }
    let s := { s with mouse := { s.mouse with y := lerp s.mouse.y s.mouse.targetY s.config.mouseLerp } }
    let floating := drawFloatingParticles M s
    let s := floating.1
    (s, clear s ++ drawGlow s ++ floating.2 ++ drawConnections M s ++ drawHelixParticles M s)

/-- The body of the timer set by the `resize` listener of `bindEvents`. -/
def onResize (M : JSMath α) (v : Viewport α) (s : State α) : State α :=
  createFloatingParticles M (resize v s)

/-- The `visibilitychange` listener registered by `bindEvents`. -/
def onVisibilityChange (hidden : Bool) (s : State α) : State α :=
  { s with isRunning := !hidden }

/-- The `mousemove` listener registered on the document. -/
def onMouseMove (clientX clientY innerWidth innerHeight : α) (s : State α) : State α :=
  { s with mouse := { s.mouse with
      targetX := (clientX / innerWidth - 1 / 2) * 2
      targetY := (clientY / innerHeight - 1 / 2) * 2 } }

/-- The state after `init()`: `createCanvas` (which resizes),
`createHelixParticles`, `createFloatingParticles`, `bindEvents` (no state
change) and the first `animate()`. -/
def init (M : JSMath α) (v : Viewport α) (s : State α) : State α :=
  (animate M (createFloatingParticles M (createHelixParticles M (resize v s)))).1

/-- An instance together with the number of frame callbacks registered by
`requestAnimationFrame` and not yet run. -/
structure Scheduled (α : Type) where
  state : State α
  pendingFrames : Nat

end HeroBackground3D

/-! ## MolecularVisualization -/

namespace MolecularVisualization

structure Config (α : Type) where
  helixParticleCount : Nat
  helixRadius : α
  helixHeight : α
  rotationSpeed : α
  floatingCount : Nat
  connectionDistance : α
  perspective : α
  mouseInfluence : α
  mouseLerp : α

/-- The configuration literal of the constructor. -/
def defaultConfig {α : Type} [LinearOrderedField α] : Config α :=
  { helixParticleCount := 50
    helixRadius := 60
    helixHeight := 500
    rotationSpeed := 6 / 1000
    floatingCount := 40
    connectionDistance := 80
    perspective := 400
    mouseInfluence := 1 / 10
    mouseLerp := 8 / 100 }

structure Particle (α : Type) where
  baseAngle : α
  baseY : α
  strand : Nat
  size : α
  pulseOffset : α
  brightness : α

structure FloatingParticle (α : Type) where
  x : α
  y : α
  baseX : α
  baseY : α
  size : α
  opacity : α
  speed : α
  angle : α
  orbitRadius : α

/-- The object `this.mouse`. -/
structure Mouse (α : Type) where
  x : α
  y : α
  targetX : α
  targetY : α

/-- The fields of a `MolecularVisualization` instance; `rng` counts the calls
of `Math.random()` made so far. -/
structure State (α : Type) where
  config : Config α
  canvasWidth : α
  canvasHeight : α
  width : α
  height : α
  centerX : α
  centerY : α
  particles : List (Particle α)
  floatingParticles : List (FloatingParticle α)
  connections : List (Connection α)
  mouse : Mouse α
  time : α
  isRunning : Bool
  isMobile : Bool
  rng : Nat

/-- An element of `sortedParticles`: `{ ...p, index: i, pos: ... }`. -/
structure Projected (α : Type) where
  particle : Particle α
  index : Nat
  pos : Position α

variable {α : Type} [LinearOrderedField α]

/-- The fields set by the constructor before `init()`, the mobile reduction
included. -/
def construct (cfg : Config α) (v : Viewport α) : State α :=
  let isMobile : Bool := decide (v.innerWidth < 768)
  let cfg : Config α :=
    if isMobile then { cfg with helixParticleCount := 30, floatingCount := 20 } else cfg
  { config := cfg
    canvasWidth := 0
    canvasHeight := 0
    width := 0
    height := 0
    centerX := 0
    centerY := 0
    particles := []
    floatingParticles := []
    connections := []
    mouse := { x := 0, y := 0, targetX := 0, targetY := 0 }
    time := 0
    isRunning := true
    isMobile := isMobile
    rng := 0 }

/-- The expression `Math.min(window.devicePixelRatio || 1, 2)`. -/
def dpr (v : Viewport α) : α :=
  min (if v.devicePixelRatio = 0 then 1 else v.devicePixelRatio) 2

def resize (v : Viewport α) (s : State α) : State α :=
  { s with
    canvasWidth := v.rectWidth * dpr v
    canvasHeight := v.rectHeight * dpr v
    width := v.rectWidth
    height := v.rectHeight
    centerX := v.rectWidth / 2
    centerY := v.rectHeight / 2 }

/-- One iteration of the first loop of `createHelixParticles`. -/
def pushPair (M : JSMath α) (s : State α) (i : Nat) : State α :=
  let progress : α := (i : α) / (s.config.helixParticleCount : α)
  let angle := progress * M.PI * 6
  let y := (progress - 1 / 2) * s.config.helixHeight
  let first : Particle α :=
    { baseAngle := angle
      baseY := y
      strand := 0
      size := 2 + M.random s.rng * 4
      pulseOffset := M.random (s.rng + 1) * M.PI * 2
      brightness := 1 / 2 + M.random (s.rng + 2) * (1 / 2) }
  let second : Particle α :=
    { baseAngle := angle + M.PI
      baseY := y
      strand := 1
      size := 2 + M.random (s.rng + 3) * 4
      pulseOffset := M.random (s.rng + 4) * M.PI * 2
      brightness := 1 / 2 + M.random (s.rng + 5) * (1 / 2) }
  { s with particles := s.particles ++ [first, second], rng := s.rng + 6 }

/-- One iteration of the second loop of `createHelixParticles`. -/
def pushConnection (M : JSMath α) (s : State α) (i : Nat) : State α :=
  { s with
    connections := s.connections ++
      [{ index1 := i * 2, index2 := i * 2 + 1, opacity := 2 / 10 + M.random s.rng * (3 / 10) }]
    rng := s.rng + 1 }

def createHelixParticles (M : JSMath α) (s : State α) : State α :=
  let s0 := { s with particles := [], connections := [] }
  let s1 := (List.range s0.config.helixParticleCount).foldl (pushPair M) s0
  (steps s1.config.helixParticleCount 3).foldl (pushConnection M) s1

/-- One iteration of the loop of `createFloatingParticles`. -/
def pushFloating (M : JSMath α) (s : State α) (_i : Nat) : State α :=
  let p : FloatingParticle α :=
    { x := M.random s.rng * s.width
      y := M.random (s.rng + 1) * s.height
      baseX := M.random (s.rng + 2) * s.width
      baseY := M.random (s.rng + 3) * s.height
      size := 1 + M.random (s.rng + 4) * (25 / 10)
      opacity := 1 / 10 + M.random (s.rng + 5) * (3 / 10)
      speed := 3 / 10 + M.random (s.rng + 6) * (7 / 10)
      angle := M.random (s.rng + 7) * M.PI * 2
      orbitRadius := 15 + M.random (s.rng + 8) * 40 }
  { s with floatingParticles := s.floatingParticles ++ [p], rng := s.rng + 9 }

def createFloatingParticles (M : JSMath α) (s : State α) : State α :=
  let s0 := { s with floatingParticles := [] }
  (List.range s0.config.floatingCount).foldl (pushFloating M) s0

def getHelixPosition (M : JSMath α) (s : State α) (particle : Particle α) : Position α :=
  let currentAngle := particle.baseAngle + s.time * s.config.rotationSpeed * 5
  let mouseOffsetX := s.mouse.x * s.config.mouseInfluence
  let mouseOffsetY := s.mouse.y * s.config.mouseInfluence
  let x := M.cos (currentAngle + mouseOffsetX) * s.config.helixRadius
  let z := M.sin (currentAngle + mouseOffsetX) * s.config.helixRadius
  let y := particle.baseY + mouseOffsetY * 30
  let scale := projectionScale s.config.perspective z
  let screenX := s.centerX + x * scale
  let screenY := s.centerY + y * scale
  { x := screenX, y := screenY, z := z, scale := scale }

/-- The array `sortedParticles` of `drawHelixParticles`. -/
def sortedParticles (M : JSMath α) (s : State α) : List (Projected α) :=
  jsSort (fun a b => a.pos.z - b.pos.z)
    (s.particles.enum.map (fun ip =>
      { particle := ip.2, index := ip.1, pos := getHelixPosition M s ip.2 }))

/-- The body of the `forEach` of `drawHelixParticles`. -/
def drawHelixParticle (M : JSMath α) (s : State α) (particle : Projected α) : List (DrawOp α) :=
  let pos := particle.pos
  if pos.z < -300 then []
  else
    let pulse := M.sin (s.time * 3 + particle.particle.pulseOffset) * (3 / 10) + 1
    let size := particle.particle.size * pos.scale * pulse
    [ DrawOp.createRadialGradient pos.x pos.y 0 pos.x pos.y (size * 3),
      DrawOp.fillRect (pos.x - size * 3) (pos.y - size * 3) (size * 6) (size * 6),
      DrawOp.beginPath, DrawOp.arc pos.x pos.y size, DrawOp.fill ]

def drawHelixParticles (M : JSMath α) (s : State α) : List (DrawOp α) :=
  (sortedParticles M s).flatMap (drawHelixParticle M s)

/-- The body of the `forEach` of `drawConnections`. -/
def drawConnection (M : JSMath α) (s : State α) (conn : Connection α) : List (DrawOp α) :=
  match s.particles[conn.index1]?, s.particles[conn.index2]? with
  | some p1, some p2 =>
    let pos1 := getHelixPosition M s p1
    let pos2 := getHelixPosition M s p2
    if pos1.z < -200 ∨ pos2.z < -200 then []
    else
      [ DrawOp.beginPath, DrawOp.moveTo pos1.x pos1.y, DrawOp.lineTo pos2.x pos2.y,
        DrawOp.stroke ]
  | _, _ => []

def drawConnections (M : JSMath α) (s : State α) : List (DrawOp α) :=
  s.connections.flatMap (drawConnection M s)

def drawGlow (s : State α) : List (DrawOp α) :=
  [ DrawOp.createRadialGradient s.centerX s.centerY 0 s.centerX s.centerY 200,
    DrawOp.fillRect 0 0 s.width s.height ]

/-- The body of the `forEach` of `drawFloatingParticles`: the particle after
the update and the canvas calls drawing it. -/
def stepFloating (M : JSMath α) (s : State α) (i : Nat) (p : FloatingParticle α) :
    FloatingParticle α × List (DrawOp α) :=
  let p := { p with angle := p.angle + p.speed * (1 / 100) }
  let p := { p with x := p.baseX + M.cos p.angle * p.orbitRadius + M.sin (s.time * p.speed) * 15 }
  let p := { p with
    y := p.baseY + M.sin (p.angle * (7 / 10)) * p.orbitRadius
      + M.cos (s.time * p.speed * (1 / 2)) * 15 }
  let p := if p.x < -20 then { p with baseX := s.width + 20 } else p
  let p := if p.x > s.width + 20 then { p with baseX := -20 } else p
  let p := if p.y < -20 then { p with baseY := s.height + 20 } else p
  let p := if p.y > s.height + 20 then { p with baseY := -20 } else p
  let pulse := M.sin (s.time * 2 + i) * (2 / 10) + 1
  (p, [DrawOp.beginPath, DrawOp.arc p.x p.y (p.size * pulse), DrawOp.fill])

/-- The nested loops of `drawFloatingParticles` joining nearby particles. -/
def drawFloatingLinks (M : JSMath α) (s : State α) : List (DrawOp α) :=
  (List.range s.floatingParticles.length).flatMap (fun i =>
    ((List.range s.floatingParticles.length).filter (fun j => i + 1 ≤ j)).flatMap (fun j =>
      match s.floatingParticles[i]?, s.floatingParticles[j]? with
      | some p1, some p2 =>
        let dx := p1.x - p2.x
        let dy := p1.y - p2.y
        let dist := M.sqrt (dx * dx + dy * dy)
        if dist < s.config.connectionDistance then
          [DrawOp.beginPath, DrawOp.moveTo p1.x p1.y, DrawOp.lineTo p2.x p2.y, DrawOp.stroke]
        else []
      | _, _ => []))

def drawFloatingParticles (M : JSMath α) (s : State α) : State α × List (DrawOp α) :=
  let stepped := s.floatingParticles.enum.map (fun ip => stepFloating M s ip.1 ip.2)
  let s := { s with floatingParticles := stepped.map Prod.fst }
  (s, stepped.flatMap Prod.snd ++ drawFloatingLinks M s)

/-- One call of `animate()`: the new state and the canvas calls of the frame. -/
def animate (M : JSMath α) (s : State α) : State α × List (DrawOp α) :=
  if !s.isRunning then (s, [])
  else
    let cleared := [DrawOp.clearRect 0 0 s.width s.height]
    let s := { s with mouse := { s.mouse with
      x := s.mouse.x + (s.mouse.targetX - s.mouse.x) * s.config.mouseLerp } }
    let s := { s with mouse := { s.mouse with
      y := s.mouse.y + (s.mouse.targetY - s.mouse.y) * s.config.mouseLerp } }
    let s := { s with time := s.time + 16 / 1000 }
    let glow := drawGlow s
    let helix := drawHelixParticles M s
    let conns := drawConnections M s
    let floating := drawFloatingParticles M s
    (floating.1, cleared ++ glow ++ helix ++ conns ++ floating.2)

/-- The `resize` listener registered by `bindEvents`. -/
def onResize (v : Viewport α) (s : State α) : State α :=
  resize v s

/-- The `mousemove` listener registered on the container. -/
def onMouseMove (clientX clientY rectLeft rectTop rectWidth rectHeight : α) (s : State α) :
    State α :=
  { s with mouse := { s.mouse with
      targetX := ((clientX - rectLeft) / rectWidth - 1 / 2) * 2
      targetY := ((clientY - rectTop) / rectHeight - 1 / 2) * 2 } }

def onMouseLeave (s : State α) : State α :=
  { s with mouse := { s.mouse with targetX := 0, targetY := 0 } }

/-- The `visibilitychange` listener registered by `bindEvents`: it sets the
flag and, when running, calls `animate()` itself. -/
def onVisibilityChange (M : JSMath α) (hidden : Bool) (s : State α) : State α × List (DrawOp α) :=
  let s := { s with isRunning := !hidden }
  if s.isRunning then animate M s else (s, [])

/-- The state after `init()`: `createCanvas` (which resizes),
`createHelixParticles`, `createFloatingParticles`, `bindEvents` (no state
change) and the first `animate()`. -/
def init (M : JSMath α) (v : Viewport α) (s : State α) : State α :=
  (animate M (createFloatingParticles M (createHelixParticles M (resize v s)))).1

/-- An instance together with the number of frame callbacks registered by
`requestAnimationFrame` and not yet run. -/
structure Scheduled (α : Type) where
  state : State α
  pendingFrames : Nat

/-- Whether a call of `animate()` reaches its final
`requestAnimationFrame(() => this.animate())`. -/
def requestsFrame (s : State α) : Bool :=
  s.isRunning

/-- A call of `animate()` with its effect on the pending frame callbacks. -/
def runAnimate (M : JSMath α) (l : Scheduled α) : Scheduled α :=
  { state := (animate M l.state).1
    pendingFrames := l.pendingFrames + (if requestsFrame l.state then 1 else 0) }

/-- The browser runs one pending frame callback, which calls `animate()`. -/
def frameCallback (M : JSMath α) (l : Scheduled α) : Scheduled α :=
  if l.pendingFrames = 0 then l
  else runAnimate M { l with pendingFrames := l.pendingFrames - 1 }

/-- The `visibilitychange` listener with its effect on the pending frame
callbacks. -/
def visibilityChange (M : JSMath α) (hidden : Bool) (l : Scheduled α) : Scheduled α :=
  let l := { l with state := { l.state with isRunning := !hidden } }
  if l.state.isRunning then runAnimate M l else l

/-- The instance after the constructor and `init()`, whose last statement is
the first `animate()`. -/
def start (M : JSMath α) (v : Viewport α) (cfg : Config α) : Scheduled α :=
  runAnimate M
    { state := createFloatingParticles M (createHelixParticles M (resize v (construct cfg v)))
      pendingFrames := 0 }

end MolecularVisualization

/-! ## DNAAnalysisBox -/

namespace DNAAnalysisBox

structure Particle (α : Type) where
  x : α
  y : α
  size : α
  speedX : α
  speedY : α
  opacity : α
  pulse : α

/-- The fields of a `DNAAnalysisBox` instance.  `hasCanvas` says that
`this.canvas` is an element (not `null`), `hasCtx` that `this.ctx` is a
context (not `null`); `width` and `height` stand at 0 while they are still
`undefined`; `rng` counts the calls of `Math.random()` made so far. -/
structure State (α : Type) where
  hasCanvas : Bool
  hasCtx : Bool
  canvasWidth : α
  canvasHeight : α
  width : α
  height : α
  particles : List (Particle α)
  time : α
  isRunning : Bool
  hasAnimated : Bool
  particleCount : Nat
  rng : Nat

variable {α : Type} [LinearOrderedField α]

/-- The fields set by the constructor before `init()`; `canvasFound` says
whether `container.querySelector('.analysis-particles-canvas')` found an
element. -/
def construct (canvasFound : Bool) : State α :=
  { hasCanvas := canvasFound
    hasCtx := false
    canvasWidth := 0
    canvasHeight := 0
    width := 0
    height := 0
    particles := []
    time := 0
    isRunning := true
    hasAnimated := false
    particleCount := 30
    rng := 0 }

/-- The method `resize()`; `none` stands for the `TypeError` raised when
`this.canvas` or `this.ctx` is `null`. -/
def resize (v : Viewport α) (s : State α) : Option (State α) :=
  if !s.hasCanvas then none
  else if !s.hasCtx then none
  else
    let dpr := min (if v.devicePixelRatio = 0 then 1 else v.devicePixelRatio) 2
    some { s with
      canvasWidth := v.rectWidth * dpr
      canvasHeight := v.rectHeight * dpr
      width := v.rectWidth
      height := v.rectHeight }

/-- One iteration of the loop of `createParticles`. -/
def pushParticle (M : JSMath α) (s : State α) (_i : Nat) : State α :=
  let p : Particle α :=
    { x := M.random s.rng * s.width
      y := M.random (s.rng + 1) * s.height
      size := 1 + M.random (s.rng + 2) * 2
      speedX := (M.random (s.rng + 3) - 1 / 2) * (1 / 2)
      speedY := (M.random (s.rng + 4) - 1 / 2) * (1 / 2)
      opacity := 1 / 10 + M.random (s.rng + 5) * (3 / 10)
      pulse := M.random (s.rng + 6) * M.PI * 2 }
  { s with particles := s.particles ++ [p], rng := s.rng + 7 }

def createParticles (M : JSMath α) (s : State α) : State α :=
  let s0 := { s with particles := [] }
  (List.range s0.particleCount).foldl (pushParticle M) s0

/-- The body of the `forEach` of `animate`: the particle after the move and
the canvas calls drawing it. -/
def stepParticle (M : JSMath α) (s : State α) (p : Particle α) : Particle α × List (DrawOp α) :=
  let p := { p with x := p.x + p.speedX }
  let p := { p with y := p.y + p.speedY }
  let p := if p.x < 0 then { p with x := s.width } else p
  let p := if p.x > s.width then { p with x := 0 } else p
  let p := if p.y < 0 then { p with y := s.height } else p
  let p := if p.y > s.height then { p with y := 0 } else p
  let pulse := M.sin (s.time * 2 + p.pulse) * (3 / 10) + 1
  let size := p.size * pulse
  (p, [DrawOp.beginPath, DrawOp.arc p.x p.y size, DrawOp.fill])

/-- The nested loops of `animate` joining nearby particles. -/
def drawLinks (M : JSMath α) (s : State α) : List (DrawOp α) :=
  (List.range s.particles.length).flatMap (fun i =>
    ((List.range s.particles.length).filter (fun j => i + 1 ≤ j)).flatMap (fun j =>
      match s.particles[i]?, s.particles[j]? with
      | some p1, some p2 =>
        let dx := p1.x - p2.x
        let dy := p1.y - p2.y
        let dist := M.sqrt (dx * dx + dy * dy)
        if dist < 80 then
          [DrawOp.beginPath, DrawOp.moveTo p1.x p1.y, DrawOp.lineTo p2.x p2.y, DrawOp.stroke]
        else []
      | _, _ => []))

/-- One call of `animate()`: the new state and the canvas calls of the frame. -/
def animate (M : JSMath α) (s : State α) : State α × List (DrawOp α) :=
  if !s.isRunning || !s.hasCtx then (s, [])
  else
    let cleared := [DrawOp.clearRect 0 0 s.width s.height]
    let s := { s with time := s.time + 16 / 1000 }
    let stepped := s.particles.map (stepParticle M s)
    let s := { s with particles := stepped.map Prod.fst }
    (s, cleared ++ stepped.flatMap Prod.snd ++ drawLinks M s)

/-- The method `init()`: the state after it and the canvas calls it issued, or
`none` when it raises.  `contextOk` says whether `getContext('2d')` returns a
context.  The observer set up afterwards and `bindEvents` change no field. -/
def init (M : JSMath α) (v : Viewport α) (contextOk : Bool) (s : State α) :
    Option (State α × List (DrawOp α)) :=
  if s.hasCanvas then
    match resize v { s with hasCtx := contextOk } with
    | none => none
    | some s => some (animate M (createParticles M s))
  else some (s, [])

/-- The `resize` listener registered by `bindEvents`. -/
def onResize (v : Viewport α) (s : State α) : Option (State α) :=
  if s.hasCanvas then resize v s else some s

/-- The `visibilitychange` listener registered by `bindEvents`. -/
def onVisibilityChange (M : JSMath α) (hidden : Bool) (s : State α) : State α × List (DrawOp α) :=
  let s := { s with isRunning := !hidden }
  if s.isRunning then animate M s else (s, [])

/-- An instance together with the number of frame callbacks registered by
`requestAnimationFrame` and not yet run. -/
structure Scheduled (α : Type) where
  state : State α
  pendingFrames : Nat

/-- Whether a call of `animate()` reaches its final
`requestAnimationFrame(() => this.animate())`. -/
def requestsFrame (s : State α) : Bool :=
  s.isRunning && s.hasCtx

/-- A call of `animate()` with its effect on the pending frame callbacks. -/
def runAnimate (M : JSMath α) (l : Scheduled α) : Scheduled α :=
  { state := (animate M l.state).1
    pendingFrames := l.pendingFrames + (if requestsFrame l.state then 1 else 0) }

/-- The browser runs one pending frame callback, which calls `animate()`. -/
def frameCallback (M : JSMath α) (l : Scheduled α) : Scheduled α :=
  if l.pendingFrames = 0 then l
  else runAnimate M { l with pendingFrames := l.pendingFrames - 1 }

/-- The `visibilitychange` listener with its effect on the pending frame
callbacks. -/
def visibilityChange (M : JSMath α) (hidden : Bool) (l : Scheduled α) : Scheduled α :=
  let l := { l with state := { l.state with isRunning := !hidden } }
  if l.state.isRunning then runAnimate M l else l

end DNAAnalysisBox

/-! ## AnimatedCounter (`assets/js/oncologia-core.js`) -/

namespace AnimatedCounter

/-- The numeric fields of an `AnimatedCounter` (the text decoration of the
output, `toFixed` with the configured prefix and suffix, is not modelled). -/
structure State (α : Type) where
  target : α
  duration : α
  decimals : Nat
  hasAnimated : Bool

variable {α : Type} [LinearOrderedField α]

/-- The constructor: `target` and `duration` are the parsed attributes, a
missing or unparsable attribute being 0; `x || d` replaces 0 by the default. -/
def construct (target duration : α) (decimals : Nat) : State α :=
  { target := if target = 0 then 0 else target
    duration := if duration = 0 then 2000 else duration
    decimals := decimals
    hasAnimated := false }

/-- The expression bound to `easeOutExpo` in `updateCounter`; `pow` is
`Math.pow`. -/
def easeOutExpo (pow : α → α → α) (progress : α) : α :=
  if progress = 1 then 1 else 1 - pow 2 (-10 * progress)

/-- The closure `updateCounter` of `animate()`: the value written to the
element and whether another frame is requested.  `pow` is `Math.pow`. -/
def updateCounter (pow : α → α → α) (c : State α) (startTime currentTime : α) : α × Bool :=
  let startValue : α := 0
  let elapsed := currentTime - startTime
  let progress := min (elapsed / c.duration) 1
  let currentValue := startValue + (c.target - startValue) * easeOutExpo pow progress
  (currentValue, decide (progress < 1))

end AnimatedCounter

/-! ## FormValidation (`assets/js/page-effects.js`) -/

namespace FormValidation

/-- The characters matched by `\s` in a regular expression, which are also
the ones removed by `String.prototype.trim`. -/
def isWhiteSpace (c : Char) : Bool :=
  c.toNat = 0x09 || c.toNat = 0x0A || c.toNat = 0x0B || c.toNat = 0x0C || c.toNat = 0x0D ||
  c.toNat = 0x20 || c.toNat = 0xA0 || c.toNat = 0x1680 ||
  (0x2000 ≤ c.toNat && c.toNat ≤ 0x200A) ||
  c.toNat = 0x2028 || c.toNat = 0x2029 || c.toNat = 0x202F || c.toNat = 0x205F ||
  c.toNat = 0x3000 || c.toNat = 0xFEFF

/-- The character class `[^\s@]`. -/
def isLocalChar (c : Char) : Bool :=
  !isWhiteSpace c && c != '@'

/-- The test `emailRegex.test(value)` for `/^[^\s@]+@[^\s@]+\.[^\s@]+$/`: a
non-empty run of `[^\s@]`, an `@`, and a run of `[^\s@]` holding a dot that is
neither its first nor its last character. -/
def emailRegexTest (value : List Char) : Bool :=
  let name := value.takeWhile isLocalChar
  match value.dropWhile isLocalChar with
  | '@' :: domain =>
    !name.isEmpty && domain.all isLocalChar && (domain.tail.dropLast).contains '.'
  | _ => false

/-- The properties of a form control read by `validateInput`; `wrapper` is
the position, among the wrappers of the form, of
`input.closest('.form-group') || input.parentElement`. -/
structure Input where
  required : Bool
  value : String
  type : String
  wrapper : Nat

/-- A wrapper element: its class list and the texts of its descendants that
match `.error-message`, in document order. -/
structure Wrapper where
  classList : List String
  errorMessages : List String

/-- The submit control: its class list and its `disabled` property. -/
structure Button where
  classList : List String
  disabled : Bool

structure State where
  inputs : List Input
  wrappers : List Wrapper
  submitBtn : Option Button
  defaultPrevented : Bool

/-- The method `classList.add(token)`. -/
def classListAdd (token : String) (classList : List String) : List String :=
  if token ∈ classList then classList else classList ++ [token]

/-- The method `classList.remove(token)`. -/
def classListRemove (token : String) (classList : List String) : List String :=
  classList.filter (fun c => c != token)

def showError (wrapper : Wrapper) (message : String) : Wrapper :=
  let classList := classListAdd "error" (classListRemove "success" wrapper.classList)
  match wrapper.errorMessages with
  | [] => { classList := classList, errorMessages := [message] }
  | _ :: rest => { classList := classList, errorMessages := message :: rest }

def showSuccess (wrapper : Wrapper) : Wrapper :=
  { classList := classListAdd "success" (classListRemove "error" wrapper.classList)
    errorMessages := wrapper.errorMessages.tail }

def clearError (wrapper : Wrapper) : Wrapper :=
  { classList := classListRemove "success" (classListRemove "error" wrapper.classList)
    errorMessages := wrapper.errorMessages.tail }

/-- The method `validateInput(input)`: the state after it and its result. -/
def validateInput (s : State) (input : Input) : State × Bool :=
  if input.required && input.value.toList.all isWhiteSpace then
    let wrappers := s.wrappers.modify (fun w => showError w "Este campo es requerido") input.wrapper
    ({ s with wrappers := wrappers }, false)
  else if input.type = "email" && !input.value.isEmpty && !emailRegexTest input.value.toList then
    let wrappers := s.wrappers.modify (fun w => showError w "Email inválido") input.wrapper
    ({ s with wrappers := wrappers }, false)
  else
    let wrappers := s.wrappers.modify showSuccess input.wrapper
    ({ s with wrappers := wrappers }, true)

/-- The method `handleSubmit(e)`: the state after it, or the `TypeError` it
raises when it reads a property of the `null` submit control.  The timer that
removes the `shake` class 500 ms later is not part of the call. -/
def handleSubmit (s : State) : Except String State :=
  let validated := s.inputs.foldl
    (fun (acc : State × Bool) input =>
      let r := validateInput acc.1 input
      (r.1, if !r.2 then false else acc.2))
    (s, true)
  let s := validated.1
  let isValid := validated.2
  if !isValid then
    let s := { s with defaultPrevented := true }
    match s.submitBtn with
    | none => Except.error "TypeError: Cannot read properties of null (reading 'classList')"
    | some btn =>
      Except.ok { s with submitBtn := some { btn with classList := classListAdd "shake" btn.classList } }
  else
    match s.submitBtn with
    | none => Except.error "TypeError: Cannot read properties of null (reading 'classList')"
    | some btn =>
      Except.ok { s with
        submitBtn := some { classList := classListAdd "loading" btn.classList, disabled := true } }

end FormValidation

/-! ## FAQAccordion (`assets/js/page-effects.js`) -/

namespace FAQAccordion

/-- The element `.faq-content` of an item: its `scrollHeight` and its inline
`style.maxHeight` (`none` while unset). -/
structure Content where
  scrollHeight : Nat
  maxHeight : Option String

/-- A `.faq-item`: whether its class list holds `active`, whether it has a
`.faq-trigger`, and its `.faq-content` if any. -/
structure Item where
  active : Bool
  hasTrigger : Bool
  content : Option Content

/-- The body of the inner `forEach` ("Close all others"). -/
def closeItem (other : Item) : Item :=
  { other with
    active := false
    content := other.content.map (fun c => { c with maxHeight := some "0" }) }

/-- The statements of the branch `if (!isOpen)` ("Toggle current"). -/
def openItem (item : Item) : Item :=
  { item with
    active := true
    content := item.content.map
      (fun c => { c with maxHeight := some (toString c.scrollHeight ++ "px") }) }

/-- Whether `init` registered a click listener for the item. -/
def isWired (item : Item) : Bool :=
  item.hasTrigger && item.content.isSome

/-- The click listener of the trigger of the item at position `k`; a click on
an item without listener changes nothing. -/
def onClick (items : List Item) (k : Nat) : List Item :=
  match items[k]? with
  | none => items
  | some item =>
    if !isWired item then items
    else
      let isOpen := item.active
      let items := items.map closeItem
      if !isOpen then items.modify openItem k else items

end FAQAccordion

/-! ## HeroTyping (`assets/js/page-effects.js`) -/

namespace HeroTyping

/-- The fields of a `HeroTyping` instance.  A text is the list of its UTF-16
code units; `textContent` is the text shown by the element and `delay` the
delay of the last `setTimeout`. -/
structure State where
  texts : List (List Char)
  currentIndex : Nat
  charIndex : Int
  isDeleting : Bool
  typeSpeed : Nat
  deleteSpeed : Nat
  pauseTime : Nat
  textContent : List Char
  delay : Nat

/-- The fields set by the constructor. -/
def construct (texts : List (List Char)) : State :=
  { texts := texts
    currentIndex := 0
    charIndex := 0
    isDeleting := false
    typeSpeed := 100
    deleteSpeed := 50
    pauseTime := 2000
    textContent := []
    delay := 0 }

/-- The call `text.substring(0, stop)`: a negative `stop` counts as 0. -/
def substring0 (text : List Char) (stop : Int) : List Char :=
  text.take stop.toNat

/-- The method `type()`; `none` stands for the `TypeError` raised when
`this.texts[this.currentIndex]` is `undefined`. -/
def type (s : State) : Option State :=
  match s.texts[s.currentIndex]? with
  | none => none
  | some currentText =>
    let s :=
      if s.isDeleting then
        { s with textContent := substring0 currentText (s.charIndex - 1), charIndex := s.charIndex - 1 }
      else
        { s with textContent := substring0 currentText (s.charIndex + 1), charIndex := s.charIndex + 1 }
    let delay := if s.isDeleting then s.deleteSpeed else s.typeSpeed
    if !s.isDeleting && decide (s.charIndex = (currentText.length : Int)) then
      some { s with delay := s.pauseTime, isDeleting := true }
    else if s.isDeleting && decide (s.charIndex = (0 : Int)) then
      some { s with
        isDeleting := false
        currentIndex := (s.currentIndex + 1) % s.texts.length
        delay := 500 }
    else some { s with delay := delay }

/-- The state after `n` successive calls of `type()`, each started by the
timer of the previous one. -/
def typeSteps : Nat → State → Option State
  | 0, s => some s
  | n + 1, s => (type s).bind (typeSteps n)

end HeroTyping

/-! ## Properties -/

section Bounds

variable {α : Type} [LinearOrderedField α]

theorem neg_le_mul_of_ge_neg_one {a r : α} (ha : -1 ≤ a) (hr : 0 ≤ r) : -r ≤ a * r := by
  nlinarith

theorem mul_le_of_le_one {a r : α} (ha : a ≤ 1) (hr : 0 ≤ r) : a * r ≤ r := by
  nlinarith

/-- The real functions satisfy the guarantees of `JSMath.Lawful`. -/
theorem real_lawful (rnd : Nat → ℝ) (h0 : ∀ k, 0 ≤ rnd k) (h1 : ∀ k, rnd k < 1) :
    (JSMath.mk Real.sin Real.cos Real.sqrt Real.pi rnd).Lawful :=
  { sin_ge := Real.neg_one_le_sin
    sin_le := Real.sin_le_one
    cos_ge := Real.neg_one_le_cos
    cos_le := Real.cos_le_one
    random_ge := h0
    random_lt := h1 }

theorem DNAVisualization.z_bounds_dna (M : JSMath α) (hM : M.Lawful) (s : DNAVisualization.State α)
    (p : DNAVisualization.Particle α) (hr : s.config.helixRadius = 80)
    (hw : s.config.waveAmplitude = 20) :
    -100 ≤ (DNAVisualization.getParticlePosition M s p).z ∧
      (DNAVisualization.getParticlePosition M s p).z ≤ 100 := by
  simp only [DNAVisualization.getParticlePosition, hr, hw]
  have h1 := hM.sin_ge (p.baseAngle + s.time)
  have h2 := hM.sin_le (p.baseAngle + s.time)
  have h3 := hM.sin_ge (p.baseY * s.config.waveFrequency + s.time * 2)
  have h4 := hM.sin_le (p.baseY * s.config.waveFrequency + s.time * 2)
  constructor <;> nlinarith

theorem HeroBackground3D.z_bounds_hero (M : JSMath α) (hM : M.Lawful) (s : HeroBackground3D.State α)
    (p : HeroBackground3D.Particle α) (hr : s.config.helixRadius = 150)
    (hw : s.config.waveAmplitude = 30) :
    -180 ≤ (HeroBackground3D.getHelixPosition M s p).z ∧
      (HeroBackground3D.getHelixPosition M s p).z ≤ 180 := by
  simp only [HeroBackground3D.getHelixPosition, hr, hw]
  have h1 := hM.sin_ge (p.baseAngle + s.time)
  have h2 := hM.sin_le (p.baseAngle + s.time)
  have h3 := hM.sin_ge (p.baseY * s.config.waveFrequency + s.time * 2)
  have h4 := hM.sin_le (p.baseY * s.config.waveFrequency + s.time * 2)
  constructor <;> nlinarith

theorem MolecularVisualization.z_bounds_molecular (M : JSMath α) (hM : M.Lawful)
    (s : MolecularVisualization.State α) (p : MolecularVisualization.Particle α)
    (hr : s.config.helixRadius = 60) :
    -60 ≤ (MolecularVisualization.getHelixPosition M s p).z ∧
      (MolecularVisualization.getHelixPosition M s p).z ≤ 60 := by
  simp only [MolecularVisualization.getHelixPosition, hr]
  have h1 := hM.sin_ge
    (p.baseAngle + s.time * s.config.rotationSpeed * 5 + s.mouse.x * s.config.mouseInfluence)
  have h2 := hM.sin_le
    (p.baseAngle + s.time * s.config.rotationSpeed * 5 + s.mouse.x * s.config.mouseInfluence)
  constructor <;> nlinarith

theorem DNAVisualization.scale_eq_dna (M : JSMath α) (s : DNAVisualization.State α)
    (p : DNAVisualization.Particle α) :
    (DNAVisualization.getParticlePosition M s p).scale =
      projectionScale 400 (DNAVisualization.getParticlePosition M s p).z := rfl

theorem HeroBackground3D.scale_eq_hero (M : JSMath α) (s : HeroBackground3D.State α)
    (p : HeroBackground3D.Particle α) :
    (HeroBackground3D.getHelixPosition M s p).scale =
      projectionScale 500 (HeroBackground3D.getHelixPosition M s p).z := rfl

theorem MolecularVisualization.scale_eq_molecular (M : JSMath α) (s : MolecularVisualization.State α)
    (p : MolecularVisualization.Particle α) :
    (MolecularVisualization.getHelixPosition M s p).scale =
      projectionScale s.config.perspective (MolecularVisualization.getHelixPosition M s p).z := rfl

theorem projectionScale_pos {P z : α} (hP : 0 < P) (hz : 0 < P + z) : 0 < projectionScale P z :=
  div_pos hP hz

end Bounds

section Smoothing

variable {α : Type} [LinearOrderedField α]

theorem lerp_sub_target (s t f : α) : lerp s t f - t = (s - t) * (1 - f) := by
  unfold lerp; ring

theorem lerp_iterate (s t f : α) (n : ℕ) :
    (fun x => lerp x t f)^[n] s = t + (s - t) * (1 - f) ^ n := by
  induction n with
  | zero => simp
  | succ k ih =>
    rw [Function.iterate_succ_apply', ih]
    unfold lerp; ring

theorem DNAVisualization.animate_running_dna (M : JSMath α) (s : DNAVisualization.State α)
    (h : s.isRunning = true) :
    (DNAVisualization.animate M s).1 =
      { s with
        time := s.time + s.config.rotationSpeed
        mouseX := lerp s.mouseX s.targetMouseX (1 / 10)
        mouseY := lerp s.mouseY s.targetMouseY (1 / 10) } := by
  simp [DNAVisualization.animate, h]

theorem DNAVisualization.animate_iterate_dna (M : JSMath α) (s : DNAVisualization.State α)
    (h : s.isRunning = true) (n : ℕ) :
    ((fun st => (DNAVisualization.animate M st).1)^[n] s).isRunning = true ∧
    ((fun st => (DNAVisualization.animate M st).1)^[n] s).targetMouseX = s.targetMouseX ∧
    ((fun st => (DNAVisualization.animate M st).1)^[n] s).targetMouseY = s.targetMouseY ∧
    ((fun st => (DNAVisualization.animate M st).1)^[n] s).mouseX =
      s.targetMouseX + (s.mouseX - s.targetMouseX) * (1 - 1 / 10) ^ n ∧
    ((fun st => (DNAVisualization.animate M st).1)^[n] s).mouseY =
      s.targetMouseY + (s.mouseY - s.targetMouseY) * (1 - 1 / 10) ^ n := by
  induction n with
  | zero => simp [h]
  | succ k ih =>
    obtain ⟨hr, hx, hy, hmx, hmy⟩ := ih
    rw [Function.iterate_succ_apply', DNAVisualization.animate_running_dna M _ hr]
    refine ⟨hr, hx, hy, ?_, ?_⟩
    · show lerp _ _ _ = _
      rw [hx, hmx]; unfold lerp; ring
    · show lerp _ _ _ = _
      rw [hy, hmy]; unfold lerp; ring

theorem HeroBackground3D.animate_running_hero (M : JSMath α) (s : HeroBackground3D.State α)
    (h : s.isRunning = true) :
    (HeroBackground3D.animate M s).1.isRunning = true ∧
    (HeroBackground3D.animate M s).1.config = s.config ∧
    (HeroBackground3D.animate M s).1.mouse.targetX = s.mouse.targetX ∧
    (HeroBackground3D.animate M s).1.mouse.targetY = s.mouse.targetY ∧
    (HeroBackground3D.animate M s).1.mouse.x = lerp s.mouse.x s.mouse.targetX s.config.mouseLerp ∧
    (HeroBackground3D.animate M s).1.mouse.y = lerp s.mouse.y s.mouse.targetY s.config.mouseLerp := by
  simp [HeroBackground3D.animate, HeroBackground3D.drawFloatingParticles, h]

theorem HeroBackground3D.animate_iterate_hero (M : JSMath α) (s : HeroBackground3D.State α)
    (h : s.isRunning = true) (n : ℕ) :
    ((fun st => (HeroBackground3D.animate M st).1)^[n] s).isRunning = true ∧
    ((fun st => (HeroBackground3D.animate M st).1)^[n] s).config = s.config ∧
    ((fun st => (HeroBackground3D.animate M st).1)^[n] s).mouse.targetX = s.mouse.targetX ∧
    ((fun st => (HeroBackground3D.animate M st).1)^[n] s).mouse.targetY = s.mouse.targetY ∧
    ((fun st => (HeroBackground3D.animate M st).1)^[n] s).mouse.x =
      s.mouse.targetX + (s.mouse.x - s.mouse.targetX) * (1 - s.config.mouseLerp) ^ n ∧
    ((fun st => (HeroBackground3D.animate M st).1)^[n] s).mouse.y =
      s.mouse.targetY + (s.mouse.y - s.mouse.targetY) * (1 - s.config.mouseLerp) ^ n := by
  induction n with
  | zero => simp [h]
  | succ k ih =>
    obtain ⟨hr, hc, hx, hy, hmx, hmy⟩ := ih
    obtain ⟨hr', hc', hx', hy', hmx', hmy'⟩ := HeroBackground3D.animate_running_hero M _ hr
    rw [Function.iterate_succ_apply']
    refine ⟨hr', hc'.trans hc, hx'.trans hx, hy'.trans hy, ?_, ?_⟩
    · rw [hmx', hx, hmx, hc]; unfold lerp; ring
    · rw [hmy', hy, hmy, hc]; unfold lerp; ring

theorem MolecularVisualization.animate_running_molecular (M : JSMath α)
    (s : MolecularVisualization.State α) (h : s.isRunning = true) :
    (MolecularVisualization.animate M s).1.mouse.x =
      lerp s.mouse.x s.mouse.targetX s.config.mouseLerp ∧
    (MolecularVisualization.animate M s).1.mouse.y =
      lerp s.mouse.y s.mouse.targetY s.config.mouseLerp := by
  simp [MolecularVisualization.animate, MolecularVisualization.drawFloatingParticles, h, lerp]

theorem pow_one_sub_tendsto_zero (f : ℝ) (h0 : 0 < f) (h1 : f < 1) :
    Filter.Tendsto (fun n : ℕ => (1 - f) ^ n) Filter.atTop (nhds 0) :=
  tendsto_pow_atTop_nhds_zero_of_lt_one (by linarith) (by linarith)

theorem lerp_iterate_tendsto (s t f : ℝ) (h0 : 0 < f) (h1 : f < 1) :
    Filter.Tendsto (fun n : ℕ => (fun x => lerp x t f)^[n] s) Filter.atTop (nhds t) := by
  have h := ((pow_one_sub_tendsto_zero f h0 h1).const_mul (s - t)).const_add t
  simp only [mul_zero, add_zero] at h
  exact h.congr (fun n => (lerp_iterate s t f n).symm)

end Smoothing

section Sorting

variable {α β : Type} [LinearOrderedField α]

theorem mergeSort_pairwise_stable (le : β → β → Bool)
    (trans : ∀ a b c : β, le a b → le b c → le a c)
    (total : ∀ a b : β, le a b || le b a) (idx : β → Nat) :
    ∀ l : List β, l.Pairwise (fun a b => idx a < idx b) →
      (l.mergeSort le).Pairwise (fun a b => le a b = true ∧ (le b a = true → idx a < idx b))
  | [], _ => by simp
  | a :: l, hl => by
    obtain ⟨l₁, l₂, h₁, h₂, h₃⟩ := List.mergeSort_cons trans total a l
    have ih := mergeSort_pairwise_stable le trans total idx l (List.Pairwise.of_cons hl)
    have hs := List.sorted_mergeSort trans total (a :: l)
    rw [h₁] at hs ⊢
    rw [h₂] at ih
    have hmem : ∀ c, c ∈ l₁ ++ l₂ → c ∈ l := fun c hc => by
      rw [← h₂] at hc
      exact List.mem_mergeSort.mp hc
    rw [List.pairwise_append] at ih hs ⊢
    obtain ⟨ih1, ih2, ih12⟩ := ih
    obtain ⟨-, hs2, hs12⟩ := hs
    refine ⟨ih1, List.pairwise_cons.mpr ⟨fun c hc => ⟨?_, fun _ => ?_⟩, ih2⟩, fun x hx y hy => ?_⟩
    · exact List.rel_of_pairwise_cons hs2 hc
    · exact List.rel_of_pairwise_cons hl (hmem c (List.mem_append_right _ hc))
    · rcases List.mem_cons.mp hy with rfl | hy
      · refine ⟨hs12 x hx _ (List.mem_cons_self _ _), fun h => ?_⟩
        have := h₃ x hx
        simp [h] at this
      · exact ih12 x hx y hy

theorem jsSort_perm (compareFn : β → β → α) (l : List β) : (jsSort compareFn l).Perm l :=
  List.mergeSort_perm _ _

theorem jsSort_sorted_stable (key : β → α) (idx : β → Nat) (l : List β)
    (hl : l.Pairwise (fun a b => idx a < idx b)) :
    (jsSort (fun a b => key a - key b) l).Pairwise
      (fun a b => key a ≤ key b ∧ (key a = key b → idx a < idx b)) := by
  have h := mergeSort_pairwise_stable (fun a b : β => decide (key a - key b ≤ 0))
    (fun a b c hab hbc => by
      simp only [decide_eq_true_eq] at hab hbc ⊢
      linarith)
    (fun a b => by
      simp only [Bool.or_eq_true, decide_eq_true_eq]
      rcases le_total (key a) (key b) with h | h
      · left; linarith
      · right; linarith) idx l hl
  refine h.imp (fun {a b} hab => ?_)
  simp only [decide_eq_true_eq] at hab
  exact ⟨by linarith [hab.1], fun he => hab.2 (by rw [he]; simp)⟩

theorem enum_map_pairwise_index {γ : Type} (l : List γ) (f : Nat × γ → β) (idx : β → Nat)
    (hf : ∀ ip, idx (f ip) = ip.1) :
    (l.enum.map f).Pairwise (fun a b => idx a < idx b) := by
  rw [List.pairwise_map]
  have h : (l.enum.map Prod.fst).Pairwise (· < ·) := by
    rw [List.enum_map_fst]; exact List.pairwise_lt_range _
  rw [List.pairwise_map] at h
  exact h.imp (fun {a b} hab => by rw [hf, hf]; exact hab)

theorem pair_sublist_of_pairwise {R : β → β → Prop} {a b : β} :
    ∀ {l : List β}, l.Pairwise R → a ∈ l → b ∈ l → a ≠ b → ¬ R b a → [a, b].Sublist l
  | [], _, ha, _, _, _ => absurd ha (List.not_mem_nil _)
  | x :: l, hl, ha, hb, hne, hnr => by
    rcases List.mem_cons.mp ha with rfl | ha'
    · rcases List.mem_cons.mp hb with rfl | hb'
      · exact absurd rfl hne
      · exact List.Sublist.cons₂ _ (List.singleton_sublist.mpr hb')
    · rcases List.mem_cons.mp hb with rfl | hb'
      · exact absurd (List.rel_of_pairwise_cons hl ha') hnr
      · exact List.Sublist.cons _
          (pair_sublist_of_pairwise (List.Pairwise.of_cons hl) ha' hb' hne hnr)

theorem projectionScale_antitone {P z₁ z₂ : α} (hP : 0 < P) (h1 : 0 < P + z₁) (h : z₁ ≤ z₂) :
    projectionScale P z₂ ≤ projectionScale P z₁ := by
  unfold projectionScale
  rw [div_le_div_iff_of_pos_left hP (by linarith) h1]
  linarith

theorem projectionScale_strictAnti {P z₁ z₂ : α} (hP : 0 < P) (h1 : 0 < P + z₁) (h : z₁ < z₂) :
    projectionScale P z₂ < projectionScale P z₁ := by
  unfold projectionScale
  rw [div_lt_div_iff_of_pos_left hP (by linarith) h1]
  linarith

theorem DNAVisualization.sortedParticles_spec_dna (M : JSMath α) (s : DNAVisualization.State α) :
    (∀ e ∈ DNAVisualization.sortedParticles M s,
      e.pos = DNAVisualization.getParticlePosition M s e.particle) ∧
    (DNAVisualization.sortedParticles M s).Pairwise (fun a b => a.pos.z ≤ b.pos.z) ∧
    (∀ i p, s.particles[i]? = some p →
      ({ particle := p, index := i, pos := DNAVisualization.getParticlePosition M s p } :
        DNAVisualization.Projected α) ∈ DNAVisualization.sortedParticles M s) := by
  have hperm := jsSort_perm (fun a b : DNAVisualization.Projected α => a.pos.z - b.pos.z)
    (s.particles.enum.map (fun ip =>
      ({ particle := ip.2, index := ip.1, pos := DNAVisualization.getParticlePosition M s ip.2 } :
        DNAVisualization.Projected α)))
  have hst := jsSort_sorted_stable (fun e : DNAVisualization.Projected α => e.pos.z)
    (fun e => e.index)
    (s.particles.enum.map (fun ip =>
      ({ particle := ip.2, index := ip.1, pos := DNAVisualization.getParticlePosition M s ip.2 } :
        DNAVisualization.Projected α)))
    (enum_map_pairwise_index _ _ _ (fun _ => rfl))
  refine ⟨fun e he => ?_, hst.imp (fun h => h.1), fun i p hp => ?_⟩
  · obtain ⟨ip, -, rfl⟩ := List.mem_map.mp (hperm.mem_iff.mp he)
    rfl
  · exact hperm.mem_iff.mpr (List.mem_map.mpr ⟨(i, p), List.mk_mem_enum_iff_getElem?.mpr hp, rfl⟩)

/-- Under the default radius and wave amplitude the draw order of
DNAVisualization runs from the largest projected scale to the smallest. -/
theorem DNAVisualization.sortedParticles_scale_antitone_dna (M : JSMath α) (hM : M.Lawful)
    (s : DNAVisualization.State α) (hr : s.config.helixRadius = 80)
    (hw : s.config.waveAmplitude = 20) :
    (DNAVisualization.sortedParticles M s).Pairwise
      (fun a b => b.pos.scale ≤ a.pos.scale ∧ (a.pos.z < b.pos.z → b.pos.scale < a.pos.scale)) := by
  obtain ⟨hpos, hsorted, -⟩ := DNAVisualization.sortedParticles_spec_dna M s
  refine hsorted.imp_of_mem (fun {a b} ha hb hab => ?_)
  have hza := (DNAVisualization.z_bounds_dna M hM s a.particle hr hw).1
  rw [← hpos a ha] at hza
  have ea : a.pos.scale = projectionScale 400 a.pos.z := by rw [hpos a ha]; rfl
  have eb : b.pos.scale = projectionScale 400 b.pos.z := by rw [hpos b hb]; rfl
  rw [ea, eb]
  exact ⟨projectionScale_antitone (by norm_num) (by linarith) hab,
    fun h => projectionScale_strictAnti (by norm_num) (by linarith) h⟩

/-- A `forEach` whose body returns early on `c` issues the calls of the
elements that do not satisfy `c`, in order. -/
theorem flatMap_skip {γ : Type} (c : β → Prop) [DecidablePred c] (f : β → List γ) (l : List β) :
    l.flatMap (fun e => if c e then [] else f e) =
      (l.filter (fun e => !decide (c e))).flatMap f := by
  induction l with
  | nil => rfl
  | cons a l ih =>
    rw [List.flatMap_cons, ih]
    by_cases h : c a
    · simp [h]
    · simp [h]

end Sorting

section Creation

variable {α β : Type} [LinearOrderedField α]

theorem flatMap_range_succ (F : Nat → List β) (n : Nat) :
    (List.range (n + 1)).flatMap F = (List.range n).flatMap F ++ F n := by
  rw [List.range_succ, List.flatMap_append]
  simp

theorem length_flatMap_pairs (F : Nat → List β) (hF : ∀ i, (F i).length = 2) (n : Nat) :
    ((List.range n).flatMap F).length = 2 * n := by
  induction n with
  | zero => simp
  | succ k ih => rw [flatMap_range_succ, List.length_append, ih, hF]; ring

theorem getElem?_flatMap_pairs (F : Nat → List β) (hF : ∀ i, (F i).length = 2) (n i : Nat)
    (hi : i < n) :
    ((List.range n).flatMap F)[2 * i]? = (F i)[0]? ∧
      ((List.range n).flatMap F)[2 * i + 1]? = (F i)[1]? := by
  induction n with
  | zero => omega
  | succ k ih =>
    rw [flatMap_range_succ]
    have hlen := length_flatMap_pairs F hF k
    rcases Nat.lt_succ_iff_lt_or_eq.mp hi with h | h
    · rw [List.getElem?_append_left (by omega), List.getElem?_append_left (by omega)]
      exact ih h
    · subst h
      rw [List.getElem?_append_right (by omega), List.getElem?_append_right (by omega), hlen]
      simp

theorem DNAVisualization.foldl_pushPair_dna (M : JSMath α) (s0 : DNAVisualization.State α) (k : Nat) :
    (List.range k).foldl (DNAVisualization.pushPair M) s0 =
      { s0 with
        particles := s0.particles ++ (List.range k).flatMap (fun i =>
          (DNAVisualization.pushPair M { s0 with particles := [], rng := s0.rng + 4 * i } i).particles)
        rng := s0.rng + 4 * k } := by
  induction k with
  | zero => simp
  | succ j ih =>
    rw [flatMap_range_succ, List.range_succ, List.foldl_append, ih]
    simp only [List.foldl_cons, List.foldl_nil, DNAVisualization.pushPair, List.nil_append,
      List.append_assoc]
    congr 1

theorem DNAVisualization.foldl_pushConnection_dna (M : JSMath α) (l : List Nat) (s : DNAVisualization.State α) :
    ∃ c r, l.foldl (DNAVisualization.pushConnection M) s = { s with connections := c, rng := r } := by
  induction l generalizing s with
  | nil => exact ⟨s.connections, s.rng, rfl⟩
  | cons i l ih =>
    obtain ⟨c, r, h⟩ := ih (DNAVisualization.pushConnection M s i)
    exact ⟨c, r, by rw [List.foldl_cons, h]; rfl⟩

theorem DNAVisualization.createParticles_eq_dna (M : JSMath α) (s : DNAVisualization.State α) :
    ∃ c r, DNAVisualization.createParticles M s =
      { s with
        particles := (List.range s.config.particleCount).flatMap (fun i =>
          (DNAVisualization.pushPair M { s with particles := [], rng := s.rng + 4 * i } i).particles)
        connections := c
        rng := r } := by
  unfold DNAVisualization.createParticles
  simp only [DNAVisualization.foldl_pushPair_dna]
  obtain ⟨c, r, h⟩ := DNAVisualization.foldl_pushConnection_dna M (steps s.config.particleCount 3)
    { s with
      particles := (List.range s.config.particleCount).flatMap (fun i =>
        (DNAVisualization.pushPair M { s with particles := [], rng := s.rng + 4 * i } i).particles)
      rng := s.rng + 4 * s.config.particleCount }
  exact ⟨c, r, by simpa using h⟩

theorem HeroBackground3D.foldl_pushPair_hero (M : JSMath α) (s0 : HeroBackground3D.State α) (k : Nat) :
    (List.range k).foldl (HeroBackground3D.pushPair M) s0 =
      { s0 with
        particles := s0.particles ++ (List.range k).flatMap (fun i =>
          (HeroBackground3D.pushPair M { s0 with particles := [], rng := s0.rng + 6 * i } i).particles)
        rng := s0.rng + 6 * k } := by
  induction k with
  | zero => simp
  | succ j ih =>
    rw [flatMap_range_succ, List.range_succ, List.foldl_append, ih]
    simp only [List.foldl_cons, List.foldl_nil, HeroBackground3D.pushPair, List.nil_append,
      List.append_assoc]
    congr 1

theorem HeroBackground3D.foldl_pushConnection_hero (M : JSMath α) (l : List Nat) (s : HeroBackground3D.State α) :
    ∃ c r, l.foldl (HeroBackground3D.pushConnection M) s = { s with connections := c, rng := r } := by
  induction l generalizing s with
  | nil => exact ⟨s.connections, s.rng, rfl⟩
  | cons i l ih =>
    obtain ⟨c, r, h⟩ := ih (HeroBackground3D.pushConnection M s i)
    exact ⟨c, r, by rw [List.foldl_cons, h]; rfl⟩

theorem HeroBackground3D.createHelixParticles_eq_hero (M : JSMath α) (s : HeroBackground3D.State α) :
    ∃ c r, HeroBackground3D.createHelixParticles M s =
      { s with
        particles := (List.range s.config.helixParticleCount).flatMap (fun i =>
          (HeroBackground3D.pushPair M { s with particles := [], rng := s.rng + 6 * i } i).particles)
        connections := c
        rng := r } := by
  unfold HeroBackground3D.createHelixParticles
  simp only [HeroBackground3D.foldl_pushPair_hero]
  obtain ⟨c, r, h⟩ := HeroBackground3D.foldl_pushConnection_hero M (steps s.config.helixParticleCount 4)
    { s with
      particles := (List.range s.config.helixParticleCount).flatMap (fun i =>
        (HeroBackground3D.pushPair M { s with particles := [], rng := s.rng + 6 * i } i).particles)
      rng := s.rng + 6 * s.config.helixParticleCount }
  exact ⟨c, r, by simpa using h⟩

theorem MolecularVisualization.foldl_pushPair_molecular (M : JSMath α) (s0 : MolecularVisualization.State α) (k : Nat) :
    (List.range k).foldl (MolecularVisualization.pushPair M) s0 =
      { s0 with
        particles := s0.particles ++ (List.range k).flatMap (fun i =>
          (MolecularVisualization.pushPair M { s0 with particles := [], rng := s0.rng + 6 * i } i).particles)
        rng := s0.rng + 6 * k } := by
  induction k with
  | zero => simp
  | succ j ih =>
    rw [flatMap_range_succ, List.range_succ, List.foldl_append, ih]
    simp only [List.foldl_cons, List.foldl_nil, MolecularVisualization.pushPair, List.nil_append,
      List.append_assoc]
    congr 1

theorem MolecularVisualization.foldl_pushConnection_molecular (M : JSMath α) (l : List Nat) (s : MolecularVisualization.State α) :
    ∃ c r, l.foldl (MolecularVisualization.pushConnection M) s = { s with connections := c, rng := r } := by
  induction l generalizing s with
  | nil => exact ⟨s.connections, s.rng, rfl⟩
  | cons i l ih =>
    obtain ⟨c, r, h⟩ := ih (MolecularVisualization.pushConnection M s i)
    exact ⟨c, r, by rw [List.foldl_cons, h]; rfl⟩

theorem MolecularVisualization.createHelixParticles_eq_molecular (M : JSMath α) (s : MolecularVisualization.State α) :
    ∃ c r, MolecularVisualization.createHelixParticles M s =
      { s with
        particles := (List.range s.config.helixParticleCount).flatMap (fun i =>
          (MolecularVisualization.pushPair M { s with particles := [], rng := s.rng + 6 * i } i).particles)
        connections := c
        rng := r } := by
  unfold MolecularVisualization.createHelixParticles
  simp only [MolecularVisualization.foldl_pushPair_molecular]
  obtain ⟨c, r, h⟩ := MolecularVisualization.foldl_pushConnection_molecular M (steps s.config.helixParticleCount 3)
    { s with
      particles := (List.range s.config.helixParticleCount).flatMap (fun i =>
        (MolecularVisualization.pushPair M { s with particles := [], rng := s.rng + 6 * i } i).particles)
      connections := []
      rng := s.rng + 6 * s.config.helixParticleCount }
  exact ⟨c, r, by simpa [MolecularVisualization.pushPair] using h⟩

theorem countP_flatMap_pairs (F : Nat → List β) (P : β → Bool) (hF : ∀ i, (F i).countP P = 1)
    (n : Nat) : ((List.range n).flatMap F).countP P = n := by
  induction n with
  | zero => simp
  | succ k ih => rw [flatMap_range_succ, List.countP_append, ih, hF]

theorem DNAVisualization.created_particles_dna (M : JSMath α) (s : DNAVisualization.State α) :
    (DNAVisualization.createParticles M s).particles =
      (List.range s.config.particleCount).flatMap (fun i =>
        (DNAVisualization.pushPair M { s with particles := [], rng := s.rng + 4 * i } i).particles) := by
  obtain ⟨c, r, h⟩ := DNAVisualization.createParticles_eq_dna M s
  rw [h]

theorem DNAVisualization.created_getElem_dna (M : JSMath α) (s : DNAVisualization.State α) (i : Nat)
    (hi : i < s.config.particleCount) :
    (DNAVisualization.createParticles M s).particles[2 * i]? = some
      { baseAngle := (i : α) / (s.config.particleCount : α) * M.PI * 6
        baseY := ((i : α) / (s.config.particleCount : α) - 1 / 2) * s.config.helixHeight
        strand := 0
        size := DNAVisualization.randomRange M (s.rng + 4 * i) s.config.particleSizeMin
          s.config.particleSizeMax
        pulseOffset := M.random (s.rng + 4 * i + 1) * M.PI * 2
        color := s.config.colorPrimary } ∧
    (DNAVisualization.createParticles M s).particles[2 * i + 1]? = some
      { baseAngle := (i : α) / (s.config.particleCount : α) * M.PI * 6 + M.PI
        baseY := ((i : α) / (s.config.particleCount : α) - 1 / 2) * s.config.helixHeight
        strand := 1
        size := DNAVisualization.randomRange M (s.rng + 4 * i + 2) s.config.particleSizeMin
          s.config.particleSizeMax
        pulseOffset := M.random (s.rng + 4 * i + 3) * M.PI * 2
        color := s.config.colorSecondary } := by
  rw [DNAVisualization.created_particles_dna]
  have h := getElem?_flatMap_pairs (fun i =>
    (DNAVisualization.pushPair M { s with particles := [], rng := s.rng + 4 * i } i).particles)
    (fun _ => rfl) s.config.particleCount i hi
  simpa [DNAVisualization.pushPair] using h

theorem HeroBackground3D.created_particles_hero (M : JSMath α) (s : HeroBackground3D.State α) :
    (HeroBackground3D.createHelixParticles M s).particles =
      (List.range s.config.helixParticleCount).flatMap (fun i =>
        (HeroBackground3D.pushPair M { s with particles := [], rng := s.rng + 6 * i } i).particles) := by
  obtain ⟨c, r, h⟩ := HeroBackground3D.createHelixParticles_eq_hero M s
  rw [h]

theorem HeroBackground3D.created_getElem_hero (M : JSMath α) (s : HeroBackground3D.State α) (i : Nat)
    (hi : i < s.config.helixParticleCount) :
    (HeroBackground3D.createHelixParticles M s).particles[2 * i]? = some
      { baseAngle := (i : α) / (s.config.helixParticleCount : α) * M.PI * 8
        baseY := ((i : α) / (s.config.helixParticleCount : α) - 1 / 2) * s.config.helixHeight
        strand := 0
        size := 2 + M.random (s.rng + 6 * i) * 3
        pulseOffset := M.random (s.rng + 6 * i + 1) * M.PI * 2
        brightness := 6 / 10 + M.random (s.rng + 6 * i + 2) * (4 / 10) } ∧
    (HeroBackground3D.createHelixParticles M s).particles[2 * i + 1]? = some
      { baseAngle := (i : α) / (s.config.helixParticleCount : α) * M.PI * 8 + M.PI
        baseY := ((i : α) / (s.config.helixParticleCount : α) - 1 / 2) * s.config.helixHeight
        strand := 1
        size := 2 + M.random (s.rng + 6 * i + 3) * 3
        pulseOffset := M.random (s.rng + 6 * i + 4) * M.PI * 2
        brightness := 6 / 10 + M.random (s.rng + 6 * i + 5) * (4 / 10) } := by
  rw [HeroBackground3D.created_particles_hero]
  have h := getElem?_flatMap_pairs (fun i =>
    (HeroBackground3D.pushPair M { s with particles := [], rng := s.rng + 6 * i } i).particles)
    (fun _ => rfl) s.config.helixParticleCount i hi
  simpa [HeroBackground3D.pushPair] using h

theorem MolecularVisualization.created_particles_molecular (M : JSMath α)
    (s : MolecularVisualization.State α) :
    (MolecularVisualization.createHelixParticles M s).particles =
      (List.range s.config.helixParticleCount).flatMap (fun i =>
        (MolecularVisualization.pushPair M
          { s with particles := [], rng := s.rng + 6 * i } i).particles) := by
  obtain ⟨c, r, h⟩ := MolecularVisualization.createHelixParticles_eq_molecular M s
  rw [h]

theorem MolecularVisualization.created_getElem_molecular (M : JSMath α)
    (s : MolecularVisualization.State α) (i : Nat) (hi : i < s.config.helixParticleCount) :
    (MolecularVisualization.createHelixParticles M s).particles[2 * i]? = some
      { baseAngle := (i : α) / (s.config.helixParticleCount : α) * M.PI * 6
        baseY := ((i : α) / (s.config.helixParticleCount : α) - 1 / 2) * s.config.helixHeight
        strand := 0
        size := 2 + M.random (s.rng + 6 * i) * 4
        pulseOffset := M.random (s.rng + 6 * i + 1) * M.PI * 2
        brightness := 1 / 2 + M.random (s.rng + 6 * i + 2) * (1 / 2) } ∧
    (MolecularVisualization.createHelixParticles M s).particles[2 * i + 1]? = some
      { baseAngle := (i : α) / (s.config.helixParticleCount : α) * M.PI * 6 + M.PI
        baseY := ((i : α) / (s.config.helixParticleCount : α) - 1 / 2) * s.config.helixHeight
        strand := 1
        size := 2 + M.random (s.rng + 6 * i + 3) * 4
        pulseOffset := M.random (s.rng + 6 * i + 4) * M.PI * 2
        brightness := 1 / 2 + M.random (s.rng + 6 * i + 5) * (1 / 2) } := by
  rw [MolecularVisualization.created_particles_molecular]
  have h := getElem?_flatMap_pairs (fun i =>
    (MolecularVisualization.pushPair M { s with particles := [], rng := s.rng + 6 * i } i).particles)
    (fun _ => rfl) s.config.helixParticleCount i hi
  simpa [MolecularVisualization.pushPair] using h

theorem DNAVisualization.foldl_pushConnection_rng_dna (M : JSMath α) (l : List Nat)
    (s : DNAVisualization.State α) :
    (l.foldl (DNAVisualization.pushConnection M) s).rng = s.rng + l.length := by
  induction l generalizing s with
  | nil => rfl
  | cons i l ih =>
    rw [List.foldl_cons, ih, List.length_cons]
    show s.rng + 1 + l.length = s.rng + (l.length + 1)
    omega

theorem DNAVisualization.createParticles_rng_dna (M : JSMath α) (s : DNAVisualization.State α) :
    (DNAVisualization.createParticles M s).rng =
      s.rng + 4 * s.config.particleCount + (steps s.config.particleCount 3).length := by
  unfold DNAVisualization.createParticles
  simp only [DNAVisualization.foldl_pushPair_dna, DNAVisualization.foldl_pushConnection_rng_dna]

theorem DNAVisualization.animate_preserves_dna (M : JSMath α) (s : DNAVisualization.State α) :
    (DNAVisualization.animate M s).1.particles = s.particles ∧
    (DNAVisualization.animate M s).1.connections = s.connections ∧
    (DNAVisualization.animate M s).1.config = s.config ∧
    (DNAVisualization.animate M s).1.rng = s.rng := by
  unfold DNAVisualization.animate
  split <;> exact ⟨rfl, rfl, rfl, rfl⟩

theorem HeroBackground3D.foldl_pushFloating_hero (M : JSMath α) (l : List Nat)
    (s : HeroBackground3D.State α) :
    ∃ f r, l.foldl (HeroBackground3D.pushFloating M) s =
        { s with floatingParticles := f, rng := r } ∧
      f.length = s.floatingParticles.length + l.length := by
  induction l generalizing s with
  | nil => exact ⟨s.floatingParticles, s.rng, rfl, rfl⟩
  | cons i l ih =>
    obtain ⟨f, r, h, hlen⟩ := ih (HeroBackground3D.pushFloating M s i)
    refine ⟨f, r, by rw [List.foldl_cons, h]; rfl, ?_⟩
    rw [hlen, List.length_cons]
    simp only [HeroBackground3D.pushFloating, List.length_append, List.length_singleton]
    omega

theorem HeroBackground3D.createFloatingParticles_spec_hero (M : JSMath α)
    (s : HeroBackground3D.State α) :
    (HeroBackground3D.createFloatingParticles M s).particles = s.particles ∧
    (HeroBackground3D.createFloatingParticles M s).connections = s.connections ∧
    (HeroBackground3D.createFloatingParticles M s).config = s.config ∧
    (HeroBackground3D.createFloatingParticles M s).width = s.width ∧
    (HeroBackground3D.createFloatingParticles M s).height = s.height ∧
    (HeroBackground3D.createFloatingParticles M s).floatingParticles.length
      = s.config.floatingCount := by
  obtain ⟨f, r, h, hlen⟩ := HeroBackground3D.foldl_pushFloating_hero M
    (List.range s.config.floatingCount) { s with floatingParticles := [] }
  have e : HeroBackground3D.createFloatingParticles M s =
      { s with floatingParticles := f, rng := r } := h
  rw [e]
  exact ⟨rfl, rfl, rfl, rfl, rfl, by simpa using hlen⟩

theorem DNAVisualization.resize_fields_dna [FloorRing α] (v : Viewport α)
    (s : DNAVisualization.State α) :
    (DNAVisualization.resize v s).particles = s.particles ∧
    (DNAVisualization.resize v s).config = s.config ∧
    (DNAVisualization.resize v s).rng = s.rng :=
  ⟨rfl, rfl, rfl⟩

/-- Reading back a canvas size that lies in `[0, 2^31)` gives its integer part. -/
theorem canvasDimension_of_range [FloorRing α] (dflt : Nat) (x : α) (h0 : 0 ≤ x)
    (h1 : x < 2147483648) : canvasDimension dflt x = Int.floor x := by
  have hf0 : 0 ≤ Int.floor x := Int.floor_nonneg.mpr h0
  have hf1 : Int.floor x < 2147483648 := by
    have : ((Int.floor x : Int) : α) < ((2147483648 : Int) : α) :=
      lt_of_le_of_lt (Int.floor_le x) (by push_cast; exact h1)
    exact_mod_cast this
  unfold canvasDimension
  simp only [h0, if_true]
  rw [Int.emod_eq_of_lt hf0 (by omega)]
  rw [if_pos (by omega)]

theorem steps_succ (n k : Nat) :
    steps (n + 1) k = steps n k ++ (if n % k = 0 then [n] else []) := by
  unfold steps
  rw [List.range_succ, List.filter_append]
  by_cases h : n % k = 0 <;> simp [h]

theorem length_steps_three (n : Nat) : (steps n 3).length = (n + 2) / 3 := by
  induction n with
  | zero => rfl
  | succ m ih =>
    rw [steps_succ, List.length_append, ih]
    by_cases h : m % 3 = 0
    · simp only [h, if_true, List.length_singleton]; omega
    · simp only [h, if_false, List.length_nil]; omega

theorem length_steps_four (n : Nat) : (steps n 4).length = (n + 3) / 4 := by
  induction n with
  | zero => rfl
  | succ m ih =>
    rw [steps_succ, List.length_append, ih]
    by_cases h : m % 4 = 0
    · simp only [h, if_true, List.length_singleton]; omega
    · simp only [h, if_false, List.length_nil]; omega

theorem mem_steps {n k i : Nat} (h : i ∈ steps n k) : i < n ∧ i % k = 0 := by
  unfold steps at h
  rw [List.mem_filter] at h
  exact ⟨List.mem_range.mp h.1, by simpa using h.2⟩

theorem DNAVisualization.foldl_pushConnection_indices_dna (M : JSMath α) (l : List Nat)
    (s : DNAVisualization.State α) :
    (l.foldl (DNAVisualization.pushConnection M) s).connections.map (fun c => (c.index1, c.index2)) =
      s.connections.map (fun c => (c.index1, c.index2)) ++ l.map (fun i => (i * 2, i * 2 + 1)) := by
  induction l generalizing s with
  | nil => simp
  | cons i l ih =>
    rw [List.foldl_cons, ih]
    simp [DNAVisualization.pushConnection]

theorem DNAVisualization.created_connections_dna (M : JSMath α) (s : DNAVisualization.State α)
    (h : s.connections = []) :
    (DNAVisualization.createParticles M s).connections.map (fun c => (c.index1, c.index2)) =
      (steps s.config.particleCount 3).map (fun i => (i * 2, i * 2 + 1)) := by
  unfold DNAVisualization.createParticles
  simp only [DNAVisualization.foldl_pushPair_dna, DNAVisualization.foldl_pushConnection_indices_dna, h]
  simp

theorem HeroBackground3D.foldl_pushConnection_indices_hero (M : JSMath α) (l : List Nat)
    (s : HeroBackground3D.State α) :
    (l.foldl (HeroBackground3D.pushConnection M) s).connections.map (fun c => (c.index1, c.index2)) =
      s.connections.map (fun c => (c.index1, c.index2)) ++ l.map (fun i => (i * 2, i * 2 + 1)) := by
  induction l generalizing s with
  | nil => simp
  | cons i l ih =>
    rw [List.foldl_cons, ih]
    simp [HeroBackground3D.pushConnection]

theorem HeroBackground3D.created_connections_hero (M : JSMath α) (s : HeroBackground3D.State α)
    (h : s.connections = []) :
    (HeroBackground3D.createHelixParticles M s).connections.map (fun c => (c.index1, c.index2)) =
      (steps s.config.helixParticleCount 4).map (fun i => (i * 2, i * 2 + 1)) := by
  unfold HeroBackground3D.createHelixParticles
  simp only [HeroBackground3D.foldl_pushPair_hero, HeroBackground3D.foldl_pushConnection_indices_hero, h]
  simp

theorem MolecularVisualization.foldl_pushConnection_indices_molecular (M : JSMath α) (l : List Nat)
    (s : MolecularVisualization.State α) :
    (l.foldl (MolecularVisualization.pushConnection M) s).connections.map (fun c => (c.index1, c.index2)) =
      s.connections.map (fun c => (c.index1, c.index2)) ++ l.map (fun i => (i * 2, i * 2 + 1)) := by
  induction l generalizing s with
  | nil => simp
  | cons i l ih =>
    rw [List.foldl_cons, ih]
    simp [MolecularVisualization.pushConnection]

theorem MolecularVisualization.created_connections_molecular (M : JSMath α) (s : MolecularVisualization.State α)
    :
    (MolecularVisualization.createHelixParticles M s).connections.map (fun c => (c.index1, c.index2)) =
      (steps s.config.helixParticleCount 3).map (fun i => (i * 2, i * 2 + 1)) := by
  unfold MolecularVisualization.createHelixParticles
  simp only [MolecularVisualization.foldl_pushPair_molecular, MolecularVisualization.foldl_pushConnection_indices_molecular]
  simp

theorem DNAVisualization.created_baseY_dna (M : JSMath α) (s : DNAVisualization.State α) (p : DNAVisualization.Particle α)
    (hp : p ∈ (DNAVisualization.createParticles M s).particles) :
    ∃ i, i < s.config.particleCount ∧
      p.baseY = ((i : α) / (s.config.particleCount : α) - 1 / 2) * s.config.helixHeight := by
  rw [DNAVisualization.created_particles_dna, List.mem_flatMap] at hp
  obtain ⟨i, hi, hpi⟩ := hp
  refine ⟨i, List.mem_range.mp hi, ?_⟩
  simp only [DNAVisualization.pushPair, List.nil_append, List.mem_cons, List.mem_singleton,
    List.not_mem_nil, or_false] at hpi
  rcases hpi with rfl | rfl <;> rfl

theorem HeroBackground3D.created_baseY_hero (M : JSMath α) (s : HeroBackground3D.State α) (p : HeroBackground3D.Particle α)
    (hp : p ∈ (HeroBackground3D.createHelixParticles M s).particles) :
    ∃ i, i < s.config.helixParticleCount ∧
      p.baseY = ((i : α) / (s.config.helixParticleCount : α) - 1 / 2) * s.config.helixHeight := by
  rw [HeroBackground3D.created_particles_hero, List.mem_flatMap] at hp
  obtain ⟨i, hi, hpi⟩ := hp
  refine ⟨i, List.mem_range.mp hi, ?_⟩
  simp only [HeroBackground3D.pushPair, List.nil_append, List.mem_cons, List.mem_singleton,
    List.not_mem_nil, or_false] at hpi
  rcases hpi with rfl | rfl <;> rfl

theorem MolecularVisualization.created_baseY_molecular (M : JSMath α) (s : MolecularVisualization.State α) (p : MolecularVisualization.Particle α)
    (hp : p ∈ (MolecularVisualization.createHelixParticles M s).particles) :
    ∃ i, i < s.config.helixParticleCount ∧
      p.baseY = ((i : α) / (s.config.helixParticleCount : α) - 1 / 2) * s.config.helixHeight := by
  rw [MolecularVisualization.created_particles_molecular, List.mem_flatMap] at hp
  obtain ⟨i, hi, hpi⟩ := hp
  refine ⟨i, List.mem_range.mp hi, ?_⟩
  simp only [MolecularVisualization.pushPair, List.nil_append, List.mem_cons, List.mem_singleton,
    List.not_mem_nil, or_false] at hpi
  rcases hpi with rfl | rfl <;> rfl

theorem abs_centered_le {H : α} (hH : 0 ≤ H) (i n : Nat) (hi : i < n) :
    |((i : α) / (n : α) - 1 / 2) * H| ≤ H / 2 := by
  have hn : (0 : α) < (n : α) := Nat.cast_pos.mpr (by omega)
  have h0 : (0 : α) ≤ (i : α) / (n : α) := div_nonneg (Nat.cast_nonneg _) hn.le
  have h1 : (i : α) / (n : α) ≤ 1 := by
    rw [div_le_one hn]
    exact Nat.cast_le.mpr hi.le
  rw [abs_le]
  constructor <;> nlinarith

theorem DNAVisualization.created_size_dna (M : JSMath α) (hM : M.Lawful) (s : DNAVisualization.State α)
    (hmin : s.config.particleSizeMin = 2) (hmax : s.config.particleSizeMax = 6) (p : DNAVisualization.Particle α)
    (hp : p ∈ (DNAVisualization.createParticles M s).particles) : 2 ≤ p.size := by
  rw [DNAVisualization.created_particles_dna, List.mem_flatMap] at hp
  obtain ⟨i, -, hpi⟩ := hp
  simp only [DNAVisualization.pushPair, List.nil_append, List.mem_cons, List.mem_singleton,
    List.not_mem_nil, or_false] at hpi
  rcases hpi with rfl | rfl
  · simp only [DNAVisualization.randomRange, hmin, hmax]
    have := hM.random_ge (s.rng + 4 * i)
    nlinarith
  · simp only [DNAVisualization.randomRange, hmin, hmax]
    have := hM.random_ge (s.rng + 4 * i + 2)
    nlinarith

theorem HeroBackground3D.created_size_hero (M : JSMath α) (hM : M.Lawful) (s : HeroBackground3D.State α)
     (p : HeroBackground3D.Particle α)
    (hp : p ∈ (HeroBackground3D.createHelixParticles M s).particles) : 2 ≤ p.size := by
  rw [HeroBackground3D.created_particles_hero, List.mem_flatMap] at hp
  obtain ⟨i, -, hpi⟩ := hp
  simp only [HeroBackground3D.pushPair, List.nil_append, List.mem_cons, List.mem_singleton,
    List.not_mem_nil, or_false] at hpi
  rcases hpi with rfl | rfl
  · simp only []
    have := hM.random_ge (s.rng + 6 * i)
    nlinarith
  · simp only []
    have := hM.random_ge (s.rng + 6 * i + 3)
    nlinarith

theorem MolecularVisualization.created_size_molecular (M : JSMath α) (hM : M.Lawful) (s : MolecularVisualization.State α)
     (p : MolecularVisualization.Particle α)
    (hp : p ∈ (MolecularVisualization.createHelixParticles M s).particles) : 2 ≤ p.size := by
  rw [MolecularVisualization.created_particles_molecular, List.mem_flatMap] at hp
  obtain ⟨i, -, hpi⟩ := hp
  simp only [MolecularVisualization.pushPair, List.nil_append, List.mem_cons, List.mem_singleton,
    List.not_mem_nil, or_false] at hpi
  rcases hpi with rfl | rfl
  · simp only []
    have := hM.random_ge (s.rng + 6 * i)
    nlinarith
  · simp only []
    have := hM.random_ge (s.rng + 6 * i + 3)
    nlinarith

/-- Both endpoints of every connector created by `createParticles` are in the
particle array. -/
theorem DNAVisualization.created_endpoints_dna (M : JSMath α) (s : DNAVisualization.State α)
    (hc : s.connections = []) (conn : Connection α)
    (hconn : conn ∈ (DNAVisualization.createParticles M s).connections) :
    ∃ p q, (DNAVisualization.createParticles M s).particles[conn.index1]? = some p ∧
      (DNAVisualization.createParticles M s).particles[conn.index2]? = some q := by
  have hmap := DNAVisualization.created_connections_dna M s hc
  have hm : (conn.index1, conn.index2) ∈
      (DNAVisualization.createParticles M s).connections.map (fun c => (c.index1, c.index2)) :=
    List.mem_map.mpr ⟨conn, hconn, rfl⟩
  rw [hmap] at hm
  obtain ⟨i, hi, he⟩ := List.mem_map.mp hm
  obtain ⟨hin, -⟩ := mem_steps hi
  have e1 : conn.index1 = 2 * i := by
    have := congrArg Prod.fst he
    simp only at this
    omega
  have e2 : conn.index2 = 2 * i + 1 := by
    have := congrArg Prod.snd he
    simp only at this
    omega
  obtain ⟨g1, g2⟩ := DNAVisualization.created_getElem_dna M s i hin
  exact ⟨_, _, by rw [e1]; exact g1, by rw [e2]; exact g2⟩

/-- Both endpoints of every connector created by `createHelixParticles` are in the
particle array. -/
theorem HeroBackground3D.created_endpoints_hero (M : JSMath α) (s : HeroBackground3D.State α)
    (hc : s.connections = []) (conn : Connection α)
    (hconn : conn ∈ (HeroBackground3D.createHelixParticles M s).connections) :
    ∃ p q, (HeroBackground3D.createHelixParticles M s).particles[conn.index1]? = some p ∧
      (HeroBackground3D.createHelixParticles M s).particles[conn.index2]? = some q := by
  have hmap := HeroBackground3D.created_connections_hero M s hc
  have hm : (conn.index1, conn.index2) ∈
      (HeroBackground3D.createHelixParticles M s).connections.map (fun c => (c.index1, c.index2)) :=
    List.mem_map.mpr ⟨conn, hconn, rfl⟩
  rw [hmap] at hm
  obtain ⟨i, hi, he⟩ := List.mem_map.mp hm
  obtain ⟨hin, -⟩ := mem_steps hi
  have e1 : conn.index1 = 2 * i := by
    have := congrArg Prod.fst he
    simp only at this
    omega
  have e2 : conn.index2 = 2 * i + 1 := by
    have := congrArg Prod.snd he
    simp only at this
    omega
  obtain ⟨g1, g2⟩ := HeroBackground3D.created_getElem_hero M s i hin
  exact ⟨_, _, by rw [e1]; exact g1, by rw [e2]; exact g2⟩

/-- Both endpoints of every connector created by `createHelixParticles` are in the
particle array. -/
theorem MolecularVisualization.created_endpoints_molecular (M : JSMath α) (s : MolecularVisualization.State α)
    (conn : Connection α)
    (hconn : conn ∈ (MolecularVisualization.createHelixParticles M s).connections) :
    ∃ p q, (MolecularVisualization.createHelixParticles M s).particles[conn.index1]? = some p ∧
      (MolecularVisualization.createHelixParticles M s).particles[conn.index2]? = some q := by
  have hmap := MolecularVisualization.created_connections_molecular M s
  have hm : (conn.index1, conn.index2) ∈
      (MolecularVisualization.createHelixParticles M s).connections.map (fun c => (c.index1, c.index2)) :=
    List.mem_map.mpr ⟨conn, hconn, rfl⟩
  rw [hmap] at hm
  obtain ⟨i, hi, he⟩ := List.mem_map.mp hm
  obtain ⟨hin, -⟩ := mem_steps hi
  have e1 : conn.index1 = 2 * i := by
    have := congrArg Prod.fst he
    simp only at this
    omega
  have e2 : conn.index2 = 2 * i + 1 := by
    have := congrArg Prod.snd he
    simp only at this
    omega
  obtain ⟨g1, g2⟩ := MolecularVisualization.created_getElem_molecular M s i hin
  exact ⟨_, _, by rw [e1]; exact g1, by rw [e2]; exact g2⟩

end Creation

section Limits

theorem projectionScale_tendsto_atTop (P : ℝ) (hP : 0 < P) :
    Filter.Tendsto (fun z : ℝ => projectionScale P z) (nhdsWithin (-P) (Set.Ioi (-P)))
      Filter.atTop := by
  have h1 : Filter.Tendsto (fun z : ℝ => P + z) (nhdsWithin (-P) (Set.Ioi (-P)))
      (nhdsWithin 0 (Set.Ioi 0)) := by
    apply tendsto_nhdsWithin_of_tendsto_nhds_of_eventually_within
    · have h : Filter.Tendsto (fun z : ℝ => P + z) (nhds (-P)) (nhds (P + -P)) :=
        (continuous_const.add continuous_id).tendsto _
      simpa using h.mono_left nhdsWithin_le_nhds
    · filter_upwards [self_mem_nhdsWithin] with z hz
      simp only [Set.mem_Ioi] at hz ⊢
      linarith
  have h2 := (tendsto_inv_zero_atTop.comp h1).const_mul_atTop hP
  refine h2.congr (fun z => ?_)
  simp [projectionScale, div_eq_mul_inv]

theorem projectionScale_tendsto_zero (P : ℝ) :
    Filter.Tendsto (fun z : ℝ => projectionScale P z) Filter.atTop (nhds 0) := by
  unfold projectionScale
  exact tendsto_const_nhds.div_atTop (Filter.tendsto_atTop_add_const_left _ _ Filter.tendsto_id)

end Limits

section Forms

theorem FormValidation.validateInput_submitBtn (s : FormValidation.State)
    (input : FormValidation.Input) :
    (FormValidation.validateInput s input).1.submitBtn = s.submitBtn := by
  unfold FormValidation.validateInput
  split
  · rfl
  · split <;> rfl

theorem FormValidation.foldl_validate_submitBtn (inputs : List FormValidation.Input)
    (acc : FormValidation.State × Bool) :
    (inputs.foldl
      (fun (acc : FormValidation.State × Bool) input =>
        ((FormValidation.validateInput acc.1 input).1,
          if !(FormValidation.validateInput acc.1 input).2 then false else acc.2))
      acc).1.submitBtn = acc.1.submitBtn := by
  induction inputs generalizing acc with
  | nil => rfl
  | cons i l ih =>
    rw [List.foldl_cons, ih]
    exact FormValidation.validateInput_submitBtn acc.1 i

/-- Without a submit control `handleSubmit` raises, whatever the inputs. -/
theorem FormValidation.handleSubmit_raises_of_no_button (s : FormValidation.State)
    (h : s.submitBtn = none) :
    FormValidation.handleSubmit s =
      Except.error "TypeError: Cannot read properties of null (reading 'classList')" := by
  have hb := FormValidation.foldl_validate_submitBtn s.inputs (s, true)
  rw [h] at hb
  unfold FormValidation.handleSubmit
  simp only []
  split <;> simp only [hb]

/-- With a submit control `handleSubmit` completes. -/
theorem FormValidation.handleSubmit_completes_of_button (s : FormValidation.State)
    (btn : FormValidation.Button) (h : s.submitBtn = some btn) :
    ∃ t, FormValidation.handleSubmit s = Except.ok t := by
  have hb := FormValidation.foldl_validate_submitBtn s.inputs (s, true)
  rw [h] at hb
  unfold FormValidation.handleSubmit
  simp only []
  split <;> simp only [hb] <;> exact ⟨_, rfl⟩

theorem FormValidation.mem_classListAdd (token : String) (l : List String) :
    token ∈ FormValidation.classListAdd token l := by
  unfold FormValidation.classListAdd
  split
  · assumption
  · simp

theorem FormValidation.not_mem_add_remove (token other : String) (l : List String)
    (h : other ≠ token) :
    other ∉ FormValidation.classListAdd token (FormValidation.classListRemove other l) := by
  unfold FormValidation.classListAdd FormValidation.classListRemove
  split <;> simp [List.mem_filter, h]

theorem FormValidation.validateInput_result (s : FormValidation.State)
    (input : FormValidation.Input) :
    ((FormValidation.validateInput s input).2 = false ↔
      (input.required = true ∧ input.value.toList.all FormValidation.isWhiteSpace = true) ∨
      (input.type = "email" ∧ input.value.isEmpty = false ∧
        FormValidation.emailRegexTest input.value.toList = false)) := by
  unfold FormValidation.validateInput
  by_cases hA : (input.required && input.value.toList.all FormValidation.isWhiteSpace) = true
  · rw [if_pos hA]
    simp only [true_iff]
    left
    simpa using hA
  · rw [if_neg hA]
    by_cases hB : (decide (input.type = "email") && !input.value.isEmpty &&
        !FormValidation.emailRegexTest input.value.toList) = true
    · rw [if_pos hB]
      simp only [true_iff]
      right
      simpa [and_assoc] using hB
    · rw [if_neg hB]
      simp only [Bool.true_eq_false, false_iff, not_or]
      constructor
      · intro h
        exact hA (by simpa using h)
      · intro h
        exact hB (by simpa [and_assoc] using h)

theorem FormValidation.validateInput_wrapper (s : FormValidation.State)
    (input : FormValidation.Input) (w : FormValidation.Wrapper)
    (hw : s.wrappers[input.wrapper]? = some w) :
    ((FormValidation.validateInput s input).2 = false →
      ∃ message, (FormValidation.validateInput s input).1.wrappers[input.wrapper]? =
        some (FormValidation.showError w message)) ∧
    ((FormValidation.validateInput s input).2 = true →
      (FormValidation.validateInput s input).1.wrappers[input.wrapper]? =
        some (FormValidation.showSuccess w)) := by
  unfold FormValidation.validateInput
  split
  · exact ⟨fun _ => ⟨"Este campo es requerido", by simp [hw]⟩, fun h => by simp at h⟩
  · split
    · exact ⟨fun _ => ⟨"Email inválido", by simp [hw]⟩, fun h => by simp at h⟩
    · exact ⟨fun h => by simp at h, fun _ => by simp [hw]⟩

end Forms

section Counter

theorem AnimatedCounter.ease_of_ne_one (p : ℝ) (hp : p ≠ 1) :
    AnimatedCounter.easeOutExpo (fun x y : ℝ => x ^ y) p = 1 - (2 : ℝ) ^ (-10 * p) := by
  unfold AnimatedCounter.easeOutExpo
  rw [if_neg hp]

theorem AnimatedCounter.ease_one :
    AnimatedCounter.easeOutExpo (fun x y : ℝ => x ^ y) 1 = 1 := by
  unfold AnimatedCounter.easeOutExpo
  rw [if_pos rfl]

theorem AnimatedCounter.ease_zero :
    AnimatedCounter.easeOutExpo (fun x y : ℝ => x ^ y) 0 = 0 := by
  rw [AnimatedCounter.ease_of_ne_one 0 (by norm_num)]
  norm_num

theorem AnimatedCounter.ease_bounds (p : ℝ) (h0 : 0 ≤ p) :
    0 ≤ AnimatedCounter.easeOutExpo (fun x y : ℝ => x ^ y) p ∧
      AnimatedCounter.easeOutExpo (fun x y : ℝ => x ^ y) p ≤ 1 := by
  by_cases hp : p = 1
  · rw [hp, AnimatedCounter.ease_one]; norm_num
  · rw [AnimatedCounter.ease_of_ne_one p hp]
    have h1 : (2 : ℝ) ^ (-10 * p) ≤ 1 :=
      Real.rpow_le_one_of_one_le_of_nonpos (by norm_num) (by linarith)
    have h2 : (0 : ℝ) < (2 : ℝ) ^ (-10 * p) := Real.rpow_pos_of_pos (by norm_num) _
    constructor <;> linarith

theorem AnimatedCounter.ease_mono (p q : ℝ) (h0 : 0 ≤ p) (hpq : p ≤ q) (hq : q ≤ 1) :
    AnimatedCounter.easeOutExpo (fun x y : ℝ => x ^ y) p ≤
      AnimatedCounter.easeOutExpo (fun x y : ℝ => x ^ y) q := by
  by_cases hq1 : q = 1
  · rw [hq1, AnimatedCounter.ease_one]
    exact (AnimatedCounter.ease_bounds p h0).2
  · have hp1 : p ≠ 1 := fun h => hq1 (le_antisymm hq (h ▸ hpq))
    rw [AnimatedCounter.ease_of_ne_one p hp1, AnimatedCounter.ease_of_ne_one q hq1]
    have h : (2 : ℝ) ^ (-10 * q) ≤ (2 : ℝ) ^ (-10 * p) :=
      Real.rpow_le_rpow_of_exponent_le (by norm_num) (by linarith)
    linarith

theorem AnimatedCounter.updateCounter_value (c : AnimatedCounter.State ℝ) (start e : ℝ) :
    (AnimatedCounter.updateCounter (fun x y : ℝ => x ^ y) c start (start + e)).1 =
      c.target * AnimatedCounter.easeOutExpo (fun x y : ℝ => x ^ y) (min (e / c.duration) 1) ∧
    ((AnimatedCounter.updateCounter (fun x y : ℝ => x ^ y) c start (start + e)).2 = true ↔
      min (e / c.duration) 1 < 1) := by
  unfold AnimatedCounter.updateCounter
  simp only [add_sub_cancel_left, zero_add, sub_zero, decide_eq_true_eq, and_self]

end Counter

section Accordion

theorem FAQAccordion.countP_closed (items : List FAQAccordion.Item) :
    (items.map FAQAccordion.closeItem).countP (fun it => it.active) = 0 := by
  rw [List.countP_eq_zero]
  intro it hit
  obtain ⟨a, -, rfl⟩ := List.mem_map.mp hit
  simp [FAQAccordion.closeItem]

theorem countP_le_of_sublist_zero {β : Type} (P : β → Bool) (l l' : List β) (h : l'.Sublist l)
    (h0 : l.countP P = 0) : l'.countP P = 0 :=
  Nat.le_zero.mp (h0 ▸ h.countP_le P)

theorem FAQAccordion.onClick_closed (items : List FAQAccordion.Item) (k : Nat)
    (item : FAQAccordion.Item) (hk : items[k]? = some item)
    (hw : FAQAccordion.isWired item = true) (ha : item.active = false) :
    FAQAccordion.onClick items k =
      (items.map FAQAccordion.closeItem).modify FAQAccordion.openItem k := by
  simp [FAQAccordion.onClick, hk, hw, ha]

theorem FAQAccordion.onClick_open (items : List FAQAccordion.Item) (k : Nat)
    (item : FAQAccordion.Item) (hk : items[k]? = some item)
    (hw : FAQAccordion.isWired item = true) (ha : item.active = true) :
    FAQAccordion.onClick items k = items.map FAQAccordion.closeItem := by
  simp [FAQAccordion.onClick, hk, hw, ha]

end Accordion

section Repulsion

variable {α : Type} [LinearOrderedField α]

/-- The repulsion block of `stepFloating` has no test for `dist = 0`: when the
position after the movement step is the pointer position, `dx = dy = 0` and
`dist = Math.sqrt(0) = 0 < 150`, the quotients are `0 / 0`, and the
coordinates written to the particle are `NaN`. -/
theorem HeroBackground3D.stepFloating_nan_of_coincide (M : JSMath α)
    (s : HeroBackground3D.State α) (i : Nat) (p : HeroBackground3D.FloatingParticle α)
    (h0 : M.sqrt 0 = 0)
    (hx : p.baseX + M.cos (p.angle + p.speed * (1 / 100)) * p.orbitRadius
      + M.sin (s.time * p.speed) * 20 = s.mouse.x * s.width / 2 + s.centerX)
    (hy : p.baseY + M.sin ((p.angle + p.speed * (1 / 100)) * (7 / 10)) * p.orbitRadius
      + M.cos (s.time * p.speed * (1 / 2)) * 20 = s.mouse.y * s.height / 2 + s.centerY) :
    (HeroBackground3D.stepFloating M s i p).1.x = JSNumber.nan ∧
    (HeroBackground3D.stepFloating M s i p).1.y = JSNumber.nan ∧
    (HeroBackground3D.stepFloating M s i p).2 = [DrawOp.beginPath, DrawOp.fill] := by
  simp only [HeroBackground3D.stepFloating, hx, hy, sub_self, mul_zero, add_zero, h0]
  simp [JSNumber.div, JSNumber.mulFinite, JSNumber.subFrom, JSNumber.lt, JSNumber.gt]

end Repulsion

section Scheduling

variable {α : Type} [LinearOrderedField α]

theorem MolecularVisualization.animate_isRunning_molecular (M : JSMath α)
    (s : MolecularVisualization.State α) :
    (MolecularVisualization.animate M s).1.isRunning = s.isRunning := by
  unfold MolecularVisualization.animate
  split <;> rfl

theorem MolecularVisualization.runAnimate_fields (M : JSMath α)
    (l : MolecularVisualization.Scheduled α) :
    (MolecularVisualization.runAnimate M l).pendingFrames =
      l.pendingFrames + (if l.state.isRunning then 1 else 0) ∧
    (MolecularVisualization.runAnimate M l).state.isRunning = l.state.isRunning :=
  ⟨rfl, MolecularVisualization.animate_isRunning_molecular M l.state⟩

theorem MolecularVisualization.visibilityChange_fields (M : JSMath α) (hidden : Bool)
    (l : MolecularVisualization.Scheduled α) :
    (MolecularVisualization.visibilityChange M hidden l).pendingFrames =
      l.pendingFrames + (if hidden then 0 else 1) ∧
    (MolecularVisualization.visibilityChange M hidden l).state.isRunning = !hidden := by
  cases hidden
  · simp only [MolecularVisualization.visibilityChange, Bool.not_false, if_true]
    exact ⟨rfl, MolecularVisualization.animate_isRunning_molecular M _⟩
  · exact ⟨rfl, rfl⟩

theorem MolecularVisualization.frameCallback_fields (M : JSMath α)
    (l : MolecularVisualization.Scheduled α) (h : 0 < l.pendingFrames) :
    (MolecularVisualization.frameCallback M l).pendingFrames =
      l.pendingFrames - 1 + (if l.state.isRunning then 1 else 0) ∧
    (MolecularVisualization.frameCallback M l).state.isRunning = l.state.isRunning := by
  unfold MolecularVisualization.frameCallback
  rw [if_neg (by omega)]
  exact MolecularVisualization.runAnimate_fields M _

/-- Hiding and showing the page while a frame callback is pending adds a
second pending callback, and running callbacks never reduces their number
while the instance is running. -/
theorem MolecularVisualization.hide_show_adds_loop (M : JSMath α)
    (l : MolecularVisualization.Scheduled α) :
    (MolecularVisualization.visibilityChange M true l).pendingFrames = l.pendingFrames ∧
    (MolecularVisualization.visibilityChange M false
      (MolecularVisualization.visibilityChange M true l)).pendingFrames = l.pendingFrames + 1 ∧
    (MolecularVisualization.frameCallback M
      (MolecularVisualization.visibilityChange M false
        (MolecularVisualization.visibilityChange M true l))).pendingFrames = l.pendingFrames + 1 ∧
    (MolecularVisualization.frameCallback M (MolecularVisualization.frameCallback M
      (MolecularVisualization.visibilityChange M false
        (MolecularVisualization.visibilityChange M true l)))).pendingFrames
      = l.pendingFrames + 1 := by
  have h1 := MolecularVisualization.visibilityChange_fields M true l
  have h2 := MolecularVisualization.visibilityChange_fields M false
    (MolecularVisualization.visibilityChange M true l)
  have h3 := MolecularVisualization.frameCallback_fields M
    (MolecularVisualization.visibilityChange M false
      (MolecularVisualization.visibilityChange M true l)) (by rw [h2.1]; simp)
  have h4 := MolecularVisualization.frameCallback_fields M
    (MolecularVisualization.frameCallback M (MolecularVisualization.visibilityChange M false
      (MolecularVisualization.visibilityChange M true l))) (by rw [h3.1, h2.2]; simp)
  simp only [if_true, Bool.false_eq_true, if_false, Bool.not_false, Bool.not_true, add_zero]
    at h1 h2
  rw [h2.2] at h3
  rw [h3.2] at h4
  simp only [if_true] at h3 h4
  obtain ⟨a1, -⟩ := h1
  obtain ⟨a2, -⟩ := h2
  obtain ⟨a3, -⟩ := h3
  obtain ⟨a4, -⟩ := h4
  refine ⟨a1, ?_, ?_, ?_⟩ <;> omega

theorem MolecularVisualization.foldl_pushFloating_molecular (M : JSMath α) (l : List Nat)
    (s : MolecularVisualization.State α) :
    (l.foldl (MolecularVisualization.pushFloating M) s).isRunning = s.isRunning := by
  induction l generalizing s with
  | nil => rfl
  | cons i l ih => rw [List.foldl_cons, ih]; rfl

theorem MolecularVisualization.start_fields (M : JSMath α) (v : Viewport α)
    (cfg : MolecularVisualization.Config α) :
    (MolecularVisualization.start M v cfg).pendingFrames = 1 ∧
    (MolecularVisualization.start M v cfg).state.isRunning = true := by
  have hrun : (MolecularVisualization.createFloatingParticles M
      (MolecularVisualization.createHelixParticles M
        (MolecularVisualization.resize v (MolecularVisualization.construct cfg v)))).isRunning
      = true := by
    unfold MolecularVisualization.createFloatingParticles
    rw [MolecularVisualization.foldl_pushFloating_molecular]
    obtain ⟨c, r, h⟩ := MolecularVisualization.createHelixParticles_eq_molecular M
      (MolecularVisualization.resize v (MolecularVisualization.construct cfg v))
    rw [h]
    rfl
  have h := MolecularVisualization.runAnimate_fields M
    { state := MolecularVisualization.createFloatingParticles M
        (MolecularVisualization.createHelixParticles M
          (MolecularVisualization.resize v (MolecularVisualization.construct cfg v)))
      pendingFrames := 0 }
  simp only [hrun, if_true, zero_add] at h
  exact h

theorem DNAAnalysisBox.animate_flags (M : JSMath α) (s : DNAAnalysisBox.State α) :
    (DNAAnalysisBox.animate M s).1.isRunning = s.isRunning ∧
    (DNAAnalysisBox.animate M s).1.hasCtx = s.hasCtx := by
  unfold DNAAnalysisBox.animate
  split <;> exact ⟨rfl, rfl⟩

/-- The same doubling in DNAAnalysisBox with a canvas. -/
theorem DNAAnalysisBox.hide_show_adds_loop_box (M : JSMath α)
    (l : DNAAnalysisBox.Scheduled α) (hc : l.state.hasCtx = true) :
    (DNAAnalysisBox.visibilityChange M false
      (DNAAnalysisBox.visibilityChange M true l)).pendingFrames = l.pendingFrames + 1 := by
  simp [DNAAnalysisBox.visibilityChange, DNAAnalysisBox.runAnimate, DNAAnalysisBox.requestsFrame,
    hc]

end Scheduling

section Typing

theorem HeroTyping.type_typing_more (s : HeroTyping.State) (t : List Char)
    (ht : s.texts[s.currentIndex]? = some t) (hd : s.isDeleting = false)
    (hne : s.charIndex + 1 ≠ (t.length : Int)) :
    HeroTyping.type s = some
      { s with
        textContent := HeroTyping.substring0 t (s.charIndex + 1)
        charIndex := s.charIndex + 1
        delay := s.typeSpeed } := by
  simp [HeroTyping.type, ht, hd, hne]

theorem HeroTyping.type_typing_last (s : HeroTyping.State) (t : List Char)
    (ht : s.texts[s.currentIndex]? = some t) (hd : s.isDeleting = false)
    (he : s.charIndex + 1 = (t.length : Int)) :
    HeroTyping.type s = some
      { s with
        textContent := HeroTyping.substring0 t (s.charIndex + 1)
        charIndex := s.charIndex + 1
        delay := s.pauseTime
        isDeleting := true } := by
  simp [HeroTyping.type, ht, hd, he]

theorem HeroTyping.type_deleting_more (s : HeroTyping.State) (t : List Char)
    (ht : s.texts[s.currentIndex]? = some t) (hd : s.isDeleting = true)
    (hne : s.charIndex - 1 ≠ 0) :
    HeroTyping.type s = some
      { s with
        textContent := HeroTyping.substring0 t (s.charIndex - 1)
        charIndex := s.charIndex - 1
        delay := s.deleteSpeed } := by
  simp [HeroTyping.type, ht, hd, hne]

theorem HeroTyping.type_deleting_last (s : HeroTyping.State) (t : List Char)
    (ht : s.texts[s.currentIndex]? = some t) (hd : s.isDeleting = true)
    (he : s.charIndex - 1 = 0) :
    HeroTyping.type s = some
      { s with
        textContent := HeroTyping.substring0 t (s.charIndex - 1)
        charIndex := s.charIndex - 1
        isDeleting := false
        currentIndex := (s.currentIndex + 1) % s.texts.length
        delay := 500 } := by
  simp [HeroTyping.type, ht, hd, he]

theorem HeroTyping.typeSteps_add (a b : Nat) (s : HeroTyping.State) :
    HeroTyping.typeSteps (a + b) s = (HeroTyping.typeSteps a s).bind (HeroTyping.typeSteps b) := by
  induction a generalizing s with
  | zero => simp [HeroTyping.typeSteps]
  | succ k ih =>
    rw [Nat.succ_add]
    simp only [HeroTyping.typeSteps]
    cases h : HeroTyping.type s with
    | none => rfl
    | some s1 => simp only [Option.bind_some, Option.some_bind]; exact ih s1

/-- On an empty text `type()` never starts deleting: the character index
grows by one at every call. -/
theorem HeroTyping.stuck_on_empty_text (n : Nat) (s : HeroTyping.State)
    (ht : s.texts[s.currentIndex]? = some []) (hd : s.isDeleting = false)
    (hc : 0 ≤ s.charIndex) :
    ∃ s', HeroTyping.typeSteps n s = some s' ∧ s'.texts = s.texts ∧
      s'.currentIndex = s.currentIndex ∧ s'.isDeleting = false ∧
      s'.charIndex = s.charIndex + n := by
  induction n generalizing s with
  | zero => exact ⟨s, rfl, rfl, rfl, hd, by simp⟩
  | succ k ih =>
    have h1 := HeroTyping.type_typing_more s [] ht hd (by simp; omega)
    obtain ⟨s', hs', e1, e2, e3, e4⟩ := ih
      { s with
        textContent := HeroTyping.substring0 [] (s.charIndex + 1)
        charIndex := s.charIndex + 1
        delay := s.typeSpeed } ht hd (by show 0 ≤ s.charIndex + 1; omega)
    refine ⟨s', ?_, e1, e2, e3, ?_⟩
    · simp only [HeroTyping.typeSteps, h1, Option.some_bind]
      exact hs'
    · rw [e4]
      show s.charIndex + 1 + (k : Int) = s.charIndex + ((k + 1 : Nat) : Int)
      push_cast
      ring

theorem HeroTyping.typing_phase (m : Nat) (s : HeroTyping.State) (t : List Char)
    (ht : s.texts[s.currentIndex]? = some t) (hd : s.isDeleting = false)
    (hc : 0 ≤ s.charIndex) (hL : s.charIndex + ((m + 1 : Nat) : Int) = (t.length : Int)) :
    HeroTyping.typeSteps (m + 1) s = some
      { s with
        textContent := t
        charIndex := (t.length : Int)
        delay := s.pauseTime
        isDeleting := true } := by
  induction m generalizing s with
  | zero =>
    have he : s.charIndex + 1 = (t.length : Int) := by simpa using hL
    simp only [HeroTyping.typeSteps, HeroTyping.type_typing_last s t ht hd he,
      Option.some_bind, HeroTyping.substring0, he]
    simp
  | succ k ih =>
    have hne : s.charIndex + 1 ≠ (t.length : Int) := by
      push_cast at hL
      omega
    have h1 := HeroTyping.type_typing_more s t ht hd hne
    have h2 := ih
      { s with
        textContent := HeroTyping.substring0 t (s.charIndex + 1)
        charIndex := s.charIndex + 1
        delay := s.typeSpeed } ht hd (by show 0 ≤ s.charIndex + 1; omega)
      (by show s.charIndex + 1 + ((k + 1 : Nat) : Int) = _; push_cast at hL ⊢; omega)
    rw [HeroTyping.typeSteps, h1, Option.some_bind, h2]

theorem HeroTyping.deleting_phase (m : Nat) (s : HeroTyping.State) (t : List Char)
    (ht : s.texts[s.currentIndex]? = some t) (hd : s.isDeleting = true)
    (hc : s.charIndex = ((m + 1 : Nat) : Int)) :
    HeroTyping.typeSteps (m + 1) s = some
      { s with
        textContent := []
        charIndex := 0
        isDeleting := false
        currentIndex := (s.currentIndex + 1) % s.texts.length
        delay := 500 } := by
  induction m generalizing s with
  | zero =>
    have he : s.charIndex - 1 = 0 := by rw [hc]; simp
    simp only [HeroTyping.typeSteps, HeroTyping.type_deleting_last s t ht hd he,
      Option.some_bind, HeroTyping.substring0, he]
    simp
  | succ k ih =>
    have hne : s.charIndex - 1 ≠ 0 := by
      rw [hc]; push_cast; omega
    have h1 := HeroTyping.type_deleting_more s t ht hd hne
    have h2 := ih
      { s with
        textContent := HeroTyping.substring0 t (s.charIndex - 1)
        charIndex := s.charIndex - 1
        delay := s.deleteSpeed } ht hd
      (by show s.charIndex - 1 = _; rw [hc]; push_cast; ring)
    rw [HeroTyping.typeSteps, h1, Option.some_bind, h2]

end Typing

section Claims

variable {α : Type} [LinearOrderedField α]

/-- C1: under the default radius, wave amplitude and perspective of each helix
renderer, for every particle, time value and pointer state, the projection
denominator `perspective + z` is non-zero and the projected scale
`perspective / (perspective + z)` is strictly positive. -/
theorem projection_denominator_ne_zero_and_scale_pos (M : JSMath α) (hM : M.Lawful) :
    (∀ (s : DNAVisualization.State α) (p : DNAVisualization.Particle α),
        s.config.helixRadius = 80 → s.config.waveAmplitude = 20 →
        400 + (DNAVisualization.getParticlePosition M s p).z ≠ 0 ∧
        (DNAVisualization.getParticlePosition M s p).scale =
          400 / (400 + (DNAVisualization.getParticlePosition M s p).z) ∧
        0 < (DNAVisualization.getParticlePosition M s p).scale) ∧
    (∀ (s : HeroBackground3D.State α) (p : HeroBackground3D.Particle α),
        s.config.helixRadius = 150 → s.config.waveAmplitude = 30 →
        500 + (HeroBackground3D.getHelixPosition M s p).z ≠ 0 ∧
        (HeroBackground3D.getHelixPosition M s p).scale =
          500 / (500 + (HeroBackground3D.getHelixPosition M s p).z) ∧
        0 < (HeroBackground3D.getHelixPosition M s p).scale) ∧
    (∀ (s : MolecularVisualization.State α) (p : MolecularVisualization.Particle α),
        s.config.helixRadius = 60 → s.config.perspective = 400 →
        s.config.perspective + (MolecularVisualization.getHelixPosition M s p).z ≠ 0 ∧
        (MolecularVisualization.getHelixPosition M s p).scale =
          s.config.perspective /
            (s.config.perspective + (MolecularVisualization.getHelixPosition M s p).z) ∧
        0 < (MolecularVisualization.getHelixPosition M s p).scale) := by
  refine ⟨fun s p hr hw => ?_, fun s p hr hw => ?_, fun s p hr hP => ?_⟩
  · have hz := DNAVisualization.z_bounds_dna M hM s p hr hw
    have hd : (0 : α) < 400 + (DNAVisualization.getParticlePosition M s p).z := by linarith [hz.1]
    exact ⟨ne_of_gt hd, rfl, by
      rw [DNAVisualization.scale_eq_dna]; exact projectionScale_pos (by norm_num) hd⟩
  · have hz := HeroBackground3D.z_bounds_hero M hM s p hr hw
    have hd : (0 : α) < 500 + (HeroBackground3D.getHelixPosition M s p).z := by linarith [hz.1]
    exact ⟨ne_of_gt hd, rfl, by
      rw [HeroBackground3D.scale_eq_hero]; exact projectionScale_pos (by norm_num) hd⟩
  · have hz := MolecularVisualization.z_bounds_molecular M hM s p hr
    have hd : (0 : α) < s.config.perspective + (MolecularVisualization.getHelixPosition M s p).z := by
      rw [hP]; linarith [hz.1]
    exact ⟨ne_of_gt hd, rfl, by
      rw [MolecularVisualization.scale_eq_molecular]
      exact projectionScale_pos (by rw [hP]; norm_num) hd⟩

/-- A witness of C1: the default DNAVisualization state with the real sine and
cosine and a particle at base angle 0 and height 0. -/
theorem projection_denominator_ne_zero_and_scale_pos_witness :
    0 < (DNAVisualization.getParticlePosition
          (JSMath.mk Real.sin Real.cos Real.sqrt Real.pi (fun _ => 0))
          (DNAVisualization.construct DNAVisualization.defaultConfig)
          { baseAngle := 0, baseY := 0, strand := 0, size := 2, pulseOffset := 0,
            color := "#00d4ff" }).scale :=
  ((projection_denominator_ne_zero_and_scale_pos
      (JSMath.mk Real.sin Real.cos Real.sqrt Real.pi (fun _ => 0))
      (real_lawful _ (fun _ => le_refl 0) (fun _ => zero_lt_one))).1
    (DNAVisualization.construct DNAVisualization.defaultConfig) _ rfl rfl).2.2

/-- C2 (as stated, refuted): the projected scale `perspective / (perspective + z)`
does not approach zero as `z` approaches the negative of the perspective
constant from the in-range side; at `z = -399` it is already 400. -/
theorem scale_not_tendsto_zero_at_neg_perspective :
    projectionScale (400 : ℝ) (-399) = 400 ∧
    ¬ Filter.Tendsto (fun z : ℝ => projectionScale 400 z)
        (nhdsWithin (-400) (Set.Ioi (-400))) (nhds 0) :=
  ⟨by norm_num [projectionScale],
    not_tendsto_nhds_of_tendsto_atTop (projectionScale_tendsto_atTop 400 (by norm_num)) 0⟩

/-- C2 (amended): the renderer's scale is `perspective / (perspective + z)`;
for a positive perspective constant it grows without bound as `z` approaches
the negative of the perspective constant from the in-range side, and it
approaches zero as `z` grows to infinity. -/
theorem scale_unbounded_near_neg_perspective (P : ℝ) (hP : 0 < P) :
    (∀ (M : JSMath ℝ) (s : DNAVisualization.State ℝ) (p : DNAVisualization.Particle ℝ),
      (DNAVisualization.getParticlePosition M s p).scale =
        projectionScale 400 (DNAVisualization.getParticlePosition M s p).z) ∧
    (∀ z : ℝ, projectionScale P z = P / (P + z)) ∧
    Filter.Tendsto (fun z : ℝ => projectionScale P z) (nhdsWithin (-P) (Set.Ioi (-P)))
      Filter.atTop ∧
    Filter.Tendsto (fun z : ℝ => projectionScale P z) Filter.atTop (nhds 0) :=
  ⟨fun _ _ _ => rfl, fun _ => rfl, projectionScale_tendsto_atTop P hP,
    projectionScale_tendsto_zero P⟩

/-- A witness of the amended C2 at the perspective constant 400. -/
theorem scale_unbounded_near_neg_perspective_witness :
    Filter.Tendsto (fun z : ℝ => projectionScale 400 z) (nhdsWithin (-400) (Set.Ioi (-400)))
      Filter.atTop :=
  (scale_unbounded_near_neg_perspective 400 (by norm_num)).2.2.1

/-- C5: for a smoothing factor in `[0, 1]` the value `lerp s t f` lies between
`s` and `t`, is no farther from `t` than `s` was and is on the same side of
`t`; the three renderers update the smoothed pointer by exactly this
expression, with factors 0.1, `mouseLerp` (0.05) and `mouseLerp` (0.08). -/
theorem lerp_no_overshoot (s t f : α) (h0 : 0 ≤ f) (h1 : f ≤ 1) :
    (lerp s t f = s + (t - s) * f) ∧
    (min s t ≤ lerp s t f ∧ lerp s t f ≤ max s t) ∧
    |lerp s t f - t| ≤ |s - t| ∧
    (s ≤ t → s ≤ lerp s t f ∧ lerp s t f ≤ t) ∧
    (t ≤ s → t ≤ lerp s t f ∧ lerp s t f ≤ s) ∧
    (∀ (M : JSMath α) (st : DNAVisualization.State α), st.isRunning = true →
      (DNAVisualization.animate M st).1.mouseX = lerp st.mouseX st.targetMouseX (1 / 10) ∧
      (DNAVisualization.animate M st).1.mouseY = lerp st.mouseY st.targetMouseY (1 / 10)) ∧
    (∀ (M : JSMath α) (st : HeroBackground3D.State α), st.isRunning = true →
      (HeroBackground3D.animate M st).1.mouse.x =
        lerp st.mouse.x st.mouse.targetX st.config.mouseLerp ∧
      (HeroBackground3D.animate M st).1.mouse.y =
        lerp st.mouse.y st.mouse.targetY st.config.mouseLerp) ∧
    (∀ (M : JSMath α) (st : MolecularVisualization.State α), st.isRunning = true →
      (MolecularVisualization.animate M st).1.mouse.x =
        lerp st.mouse.x st.mouse.targetX st.config.mouseLerp ∧
      (MolecularVisualization.animate M st).1.mouse.y =
        lerp st.mouse.y st.mouse.targetY st.config.mouseLerp) ∧
    (HeroBackground3D.defaultConfig.mouseLerp = (5 / 100 : α) ∧
      MolecularVisualization.defaultConfig.mouseLerp = (8 / 100 : α)) := by
  have hup : s ≤ t → s ≤ lerp s t f ∧ lerp s t f ≤ t := by
    intro hst
    have h2 : 0 ≤ (t - s) * f := mul_nonneg (by linarith) h0
    have h3 : (t - s) * f ≤ t - s := by nlinarith
    unfold lerp
    constructor <;> linarith
  have hdown : t ≤ s → t ≤ lerp s t f ∧ lerp s t f ≤ s := by
    intro hst
    have h2 : 0 ≤ (s - t) * f := mul_nonneg (by linarith) h0
    have h3 : (s - t) * f ≤ s - t := by nlinarith
    unfold lerp
    constructor <;> linarith
  refine ⟨rfl, ?_, ?_, hup, hdown, ?_, ?_, ?_, ⟨rfl, rfl⟩⟩
  · rcases le_total s t with hst | hst
    · rw [min_eq_left hst, max_eq_right hst]; exact hup hst
    · rw [min_eq_right hst, max_eq_left hst]; exact hdown hst
  · rw [lerp_sub_target, abs_mul]
    have h4 : |1 - f| ≤ 1 := by rw [abs_le]; constructor <;> linarith
    exact mul_le_of_le_one_right (abs_nonneg _) h4
  · intro M st hr
    rw [DNAVisualization.animate_running_dna M st hr]
    exact ⟨rfl, rfl⟩
  · intro M st hr
    exact ⟨(HeroBackground3D.animate_running_hero M st hr).2.2.2.2.1,
      (HeroBackground3D.animate_running_hero M st hr).2.2.2.2.2⟩
  · intro M st hr
    exact MolecularVisualization.animate_running_molecular M st hr

/-- A witness of C5: from 100 toward 0 with factor 0.1 the next value, 90, lies
between 0 and 100. -/
theorem lerp_no_overshoot_witness :
    min (100 : ℚ) 0 ≤ lerp 100 0 (1 / 10) ∧ lerp (100 : ℚ) 0 (1 / 10) ≤ max 100 0 :=
  (lerp_no_overshoot (100 : ℚ) 0 (1 / 10) (by norm_num) (by norm_num)).2.1

/-- C6: with a constant target `t` and factor `f`, `n` smoothing steps from `s`
give exactly `t + (s - t) * (1 - f)^n`; `n` running frames of the
DNAVisualization (factor 0.1) do so on both pointer axes; from (100, 100) with
target (0, 0) one frame gives (90, 90); and for `0 < f < 1` the smoothed value
converges to `t`. -/
theorem smoothing_closed_form (M : JSMath ℝ) (st : DNAVisualization.State ℝ)
    (hrun : st.isRunning = true) (s t f : ℝ) (h0 : 0 < f) (h1 : f < 1) (n : ℕ) :
    ((fun x => lerp x t f)^[n] s = t + (s - t) * (1 - f) ^ n) ∧
    (((fun st => (DNAVisualization.animate M st).1)^[n] st).mouseX =
        st.targetMouseX + (st.mouseX - st.targetMouseX) * (1 - 1 / 10) ^ n ∧
      ((fun st => (DNAVisualization.animate M st).1)^[n] st).mouseY =
        st.targetMouseY + (st.mouseY - st.targetMouseY) * (1 - 1 / 10) ^ n) ∧
    (st.mouseX = 100 → st.mouseY = 100 → st.targetMouseX = 0 → st.targetMouseY = 0 →
      (DNAVisualization.animate M st).1.mouseX = 90 ∧
      (DNAVisualization.animate M st).1.mouseY = 90) ∧
    Filter.Tendsto (fun k : ℕ => (fun x => lerp x t f)^[k] s) Filter.atTop (nhds t) ∧
    Filter.Tendsto (fun k : ℕ => ((fun st => (DNAVisualization.animate M st).1)^[k] st).mouseX)
      Filter.atTop (nhds st.targetMouseX) ∧
    Filter.Tendsto (fun k : ℕ => ((fun st => (DNAVisualization.animate M st).1)^[k] st).mouseY)
      Filter.atTop (nhds st.targetMouseY) := by
  have hpow := pow_one_sub_tendsto_zero (1 / 10) (by norm_num) (by norm_num)
  refine ⟨lerp_iterate s t f n, ⟨(DNAVisualization.animate_iterate_dna M st hrun n).2.2.2.1,
    (DNAVisualization.animate_iterate_dna M st hrun n).2.2.2.2⟩, ?_, lerp_iterate_tendsto s t f h0 h1,
    ?_, ?_⟩
  · intro hx hy htx hty
    rw [DNAVisualization.animate_running_dna M st hrun]
    simp only [hx, hy, htx, hty, lerp]
    constructor <;> norm_num
  · have h := ((hpow.const_mul (st.mouseX - st.targetMouseX)).const_add st.targetMouseX)
    simp only [mul_zero, add_zero] at h
    exact h.congr (fun k => (DNAVisualization.animate_iterate_dna M st hrun k).2.2.2.1.symm)
  · have h := ((hpow.const_mul (st.mouseY - st.targetMouseY)).const_add st.targetMouseY)
    simp only [mul_zero, add_zero] at h
    exact h.congr (fun k => (DNAVisualization.animate_iterate_dna M st hrun k).2.2.2.2.symm)

/-- A witness of C6: the freshly constructed DNAVisualization with the smoothed
pointer at (100, 100) and target (0, 0) is at (90, 90) after one frame. -/
theorem smoothing_closed_form_witness :
    (DNAVisualization.animate (JSMath.mk Real.sin Real.cos Real.sqrt Real.pi (fun _ => 0))
      { DNAVisualization.construct DNAVisualization.defaultConfig with
        mouseX := 100, mouseY := 100 }).1.mouseX = 90 ∧
    (DNAVisualization.animate (JSMath.mk Real.sin Real.cos Real.sqrt Real.pi (fun _ => 0))
      { DNAVisualization.construct DNAVisualization.defaultConfig with
        mouseX := 100, mouseY := 100 }).1.mouseY = 90 :=
  (smoothing_closed_form (JSMath.mk Real.sin Real.cos Real.sqrt Real.pi (fun _ => 0))
    { DNAVisualization.construct DNAVisualization.defaultConfig with mouseX := 100, mouseY := 100 }
    rfl 100 0 (1 / 10) (by norm_num) (by norm_num) 1).2.2.1 rfl rfl rfl rfl

/-- C7: under exact arithmetic, for a factor `0 < f < 1` and a start different
from the constant target, the smoothed value differs from the target after
every finite number of steps; so does the smoothed pointer of a running
HeroBackground3D on each axis. -/
theorem smoothing_never_reaches_target (s t f : α) (_h0 : 0 < f) (h1 : f < 1) (hst : s ≠ t)
    (n : ℕ) :
    (fun x => lerp x t f)^[n] s ≠ t ∧
    (∀ (M : JSMath α) (st : HeroBackground3D.State α), st.isRunning = true →
      st.config.mouseLerp = f →
      (st.mouse.x ≠ st.mouse.targetX →
        ((fun st => (HeroBackground3D.animate M st).1)^[n] st).mouse.x ≠ st.mouse.targetX) ∧
      (st.mouse.y ≠ st.mouse.targetY →
        ((fun st => (HeroBackground3D.animate M st).1)^[n] st).mouse.y ≠ st.mouse.targetY)) := by
  have hne : ∀ a b : α, a ≠ b → b + (a - b) * (1 - f) ^ n ≠ b := by
    intro a b hab h
    have h2 : (a - b) * (1 - f) ^ n = 0 := by linarith
    rcases mul_eq_zero.mp h2 with h3 | h3
    · exact hab (sub_eq_zero.mp h3)
    · exact pow_ne_zero n (ne_of_gt (by linarith : (0 : α) < 1 - f)) h3
  refine ⟨by rw [lerp_iterate]; exact hne s t hst, fun M st hr hf => ⟨fun hx => ?_, fun hy => ?_⟩⟩
  · rw [(HeroBackground3D.animate_iterate_hero M st hr n).2.2.2.2.1, hf]
    exact hne _ _ hx
  · rw [(HeroBackground3D.animate_iterate_hero M st hr n).2.2.2.2.2, hf]
    exact hne _ _ hy

/-- A witness of C7: from 100 toward 0 with factor 0.05 the value after 3
steps is not 0. -/
theorem smoothing_never_reaches_target_witness :
    (fun x => lerp x (0 : ℚ) (5 / 100))^[3] 100 ≠ 0 :=
  (smoothing_never_reaches_target (100 : ℚ) 0 (5 / 100) (by norm_num) (by norm_num)
    (by norm_num) 3).1

/-- C9: for every particle count `n > 0`, helix particle creation yields
exactly `2n` particles, `n` per strand; for each `i < n` the particle at index
`2i` has strand 0, base angle `(i/n) * T` and base height
`(i/n - 0.5) * helixHeight`, the particle at index `2i+1` has strand 1, base
angle `(i/n) * T + pi` and the same base height, with `T = 6 pi` in
DNAVisualization and MolecularVisualization and `T = 8 pi` in HeroBackground3D;
consecutive base angles on a strand differ by `T/n`. -/
theorem helix_creation_layout (M : JSMath α) (n : Nat) (hn : 0 < n) :
    (∀ s : DNAVisualization.State α, s.config.particleCount = n →
      (DNAVisualization.createParticles M s).particles.length = 2 * n ∧
      (DNAVisualization.createParticles M s).particles.countP (fun p => p.strand = 0) = n ∧
      (DNAVisualization.createParticles M s).particles.countP (fun p => p.strand = 1) = n ∧
      (∀ i, i < n → ∃ p q,
        (DNAVisualization.createParticles M s).particles[2 * i]? = some p ∧
        (DNAVisualization.createParticles M s).particles[2 * i + 1]? = some q ∧
        p.strand = 0 ∧ p.baseAngle = ((i : α) / (n : α)) * (6 * M.PI) ∧
        p.baseY = ((i : α) / (n : α) - 1 / 2) * s.config.helixHeight ∧
        q.strand = 1 ∧ q.baseAngle = ((i : α) / (n : α)) * (6 * M.PI) + M.PI ∧
        q.baseY = p.baseY) ∧
      (∀ i, i + 1 < n → ∃ p p' q q',
        (DNAVisualization.createParticles M s).particles[2 * i]? = some p ∧
        (DNAVisualization.createParticles M s).particles[2 * (i + 1)]? = some p' ∧
        (DNAVisualization.createParticles M s).particles[2 * i + 1]? = some q ∧
        (DNAVisualization.createParticles M s).particles[2 * (i + 1) + 1]? = some q' ∧
        p'.baseAngle - p.baseAngle = 6 * M.PI / (n : α) ∧
        q'.baseAngle - q.baseAngle = 6 * M.PI / (n : α))) ∧
    (∀ s : HeroBackground3D.State α, s.config.helixParticleCount = n →
      (HeroBackground3D.createHelixParticles M s).particles.length = 2 * n ∧
      (HeroBackground3D.createHelixParticles M s).particles.countP (fun p => p.strand = 0) = n ∧
      (HeroBackground3D.createHelixParticles M s).particles.countP (fun p => p.strand = 1) = n ∧
      (∀ i, i < n → ∃ p q,
        (HeroBackground3D.createHelixParticles M s).particles[2 * i]? = some p ∧
        (HeroBackground3D.createHelixParticles M s).particles[2 * i + 1]? = some q ∧
        p.strand = 0 ∧ p.baseAngle = ((i : α) / (n : α)) * (8 * M.PI) ∧
        p.baseY = ((i : α) / (n : α) - 1 / 2) * s.config.helixHeight ∧
        q.strand = 1 ∧ q.baseAngle = ((i : α) / (n : α)) * (8 * M.PI) + M.PI ∧
        q.baseY = p.baseY) ∧
      (∀ i, i + 1 < n → ∃ p p' q q',
        (HeroBackground3D.createHelixParticles M s).particles[2 * i]? = some p ∧
        (HeroBackground3D.createHelixParticles M s).particles[2 * (i + 1)]? = some p' ∧
        (HeroBackground3D.createHelixParticles M s).particles[2 * i + 1]? = some q ∧
        (HeroBackground3D.createHelixParticles M s).particles[2 * (i + 1) + 1]? = some q' ∧
        p'.baseAngle - p.baseAngle = 8 * M.PI / (n : α) ∧
        q'.baseAngle - q.baseAngle = 8 * M.PI / (n : α))) ∧
    (∀ s : MolecularVisualization.State α, s.config.helixParticleCount = n →
      (MolecularVisualization.createHelixParticles M s).particles.length = 2 * n ∧
      (MolecularVisualization.createHelixParticles M s).particles.countP (fun p => p.strand = 0) = n ∧
      (MolecularVisualization.createHelixParticles M s).particles.countP (fun p => p.strand = 1) = n ∧
      (∀ i, i < n → ∃ p q,
        (MolecularVisualization.createHelixParticles M s).particles[2 * i]? = some p ∧
        (MolecularVisualization.createHelixParticles M s).particles[2 * i + 1]? = some q ∧
        p.strand = 0 ∧ p.baseAngle = ((i : α) / (n : α)) * (6 * M.PI) ∧
        p.baseY = ((i : α) / (n : α) - 1 / 2) * s.config.helixHeight ∧
        q.strand = 1 ∧ q.baseAngle = ((i : α) / (n : α)) * (6 * M.PI) + M.PI ∧
        q.baseY = p.baseY) ∧
      (∀ i, i + 1 < n → ∃ p p' q q',
        (MolecularVisualization.createHelixParticles M s).particles[2 * i]? = some p ∧
        (MolecularVisualization.createHelixParticles M s).particles[2 * (i + 1)]? = some p' ∧
        (MolecularVisualization.createHelixParticles M s).particles[2 * i + 1]? = some q ∧
        (MolecularVisualization.createHelixParticles M s).particles[2 * (i + 1) + 1]? = some q' ∧
        p'.baseAngle - p.baseAngle = 6 * M.PI / (n : α) ∧
        q'.baseAngle - q.baseAngle = 6 * M.PI / (n : α))) := by
  refine ⟨?_, ?_, ?_⟩
  · intro s hs
    subst hs
    have hn0 : (s.config.particleCount : α) ≠ 0 := Nat.cast_ne_zero.mpr (by omega)
    refine ⟨?_, ?_, ?_, fun i hi => ?_, fun i hi => ?_⟩
    · rw [DNAVisualization.created_particles_dna]
      exact length_flatMap_pairs _ (fun _ => by rfl) _
    · rw [DNAVisualization.created_particles_dna]
      exact countP_flatMap_pairs _ _ (fun i => by simp [DNAVisualization.pushPair]) _
    · rw [DNAVisualization.created_particles_dna]
      exact countP_flatMap_pairs _ _ (fun i => by simp [DNAVisualization.pushPair]) _
    · obtain ⟨h1, h2⟩ := DNAVisualization.created_getElem_dna M s i hi
      exact ⟨_, _, h1, h2, rfl, by ring, rfl, rfl, by ring, rfl⟩
    · obtain ⟨h1, h2⟩ := DNAVisualization.created_getElem_dna M s i (by omega)
      obtain ⟨h3, h4⟩ := DNAVisualization.created_getElem_dna M s (i + 1) hi
      refine ⟨_, _, _, _, h1, h3, h2, h4, ?_, ?_⟩
      · push_cast; field_simp; ring
      · push_cast; field_simp; ring
  · intro s hs
    subst hs
    have hn0 : (s.config.helixParticleCount : α) ≠ 0 := Nat.cast_ne_zero.mpr (by omega)
    refine ⟨?_, ?_, ?_, fun i hi => ?_, fun i hi => ?_⟩
    · rw [HeroBackground3D.created_particles_hero]
      exact length_flatMap_pairs _ (fun _ => by rfl) _
    · rw [HeroBackground3D.created_particles_hero]
      exact countP_flatMap_pairs _ _ (fun i => by simp [HeroBackground3D.pushPair]) _
    · rw [HeroBackground3D.created_particles_hero]
      exact countP_flatMap_pairs _ _ (fun i => by simp [HeroBackground3D.pushPair]) _
    · obtain ⟨h1, h2⟩ := HeroBackground3D.created_getElem_hero M s i hi
      exact ⟨_, _, h1, h2, rfl, by ring, rfl, rfl, by ring, rfl⟩
    · obtain ⟨h1, h2⟩ := HeroBackground3D.created_getElem_hero M s i (by omega)
      obtain ⟨h3, h4⟩ := HeroBackground3D.created_getElem_hero M s (i + 1) hi
      refine ⟨_, _, _, _, h1, h3, h2, h4, ?_, ?_⟩
      · push_cast; field_simp; ring
      · push_cast; field_simp; ring
  · intro s hs
    subst hs
    have hn0 : (s.config.helixParticleCount : α) ≠ 0 := Nat.cast_ne_zero.mpr (by omega)
    refine ⟨?_, ?_, ?_, fun i hi => ?_, fun i hi => ?_⟩
    · rw [MolecularVisualization.created_particles_molecular]
      exact length_flatMap_pairs _ (fun _ => by rfl) _
    · rw [MolecularVisualization.created_particles_molecular]
      exact countP_flatMap_pairs _ _ (fun i => by simp [MolecularVisualization.pushPair]) _
    · rw [MolecularVisualization.created_particles_molecular]
      exact countP_flatMap_pairs _ _ (fun i => by simp [MolecularVisualization.pushPair]) _
    · obtain ⟨h1, h2⟩ := MolecularVisualization.created_getElem_molecular M s i hi
      exact ⟨_, _, h1, h2, rfl, by ring, rfl, rfl, by ring, rfl⟩
    · obtain ⟨h1, h2⟩ := MolecularVisualization.created_getElem_molecular M s i (by omega)
      obtain ⟨h3, h4⟩ := MolecularVisualization.created_getElem_molecular M s (i + 1) hi
      refine ⟨_, _, _, _, h1, h3, h2, h4, ?_, ?_⟩
      · push_cast; field_simp; ring
      · push_cast; field_simp; ring

/-- A witness of C9: DNAVisualization with its default count of 60 creates 120
particles. -/
theorem helix_creation_layout_witness :
    (DNAVisualization.createParticles (JSMath.mk Real.sin Real.cos Real.sqrt Real.pi (fun _ => 0))
      (DNAVisualization.construct DNAVisualization.defaultConfig)).particles.length = 2 * 60 :=
  ((helix_creation_layout (JSMath.mk Real.sin Real.cos Real.sqrt Real.pi (fun _ => 0)) 60
    (by decide)).1 (DNAVisualization.construct DNAVisualization.defaultConfig) rfl).1

theorem strands_and_angles_of_count_four (M : JSMath α) (h : HeroBackground3D.State α)
    (d : DNAVisualization.State α) (hh : h.config.helixParticleCount = 4)
    (hd : d.config.particleCount = 4) :
    ((HeroBackground3D.createHelixParticles M h).particles.map (fun p => (p.strand, p.baseAngle))
      = [(0, 0), (1, 0 + M.PI), (0, 2 * M.PI), (1, 2 * M.PI + M.PI),
         (0, 4 * M.PI), (1, 4 * M.PI + M.PI), (0, 6 * M.PI), (1, 6 * M.PI + M.PI)]) ∧
    ((DNAVisualization.createParticles M d).particles.map (fun p => (p.strand, p.baseAngle))
      = [(0, 0), (1, 0 + M.PI), (0, 3 * M.PI / 2), (1, 3 * M.PI / 2 + M.PI),
         (0, 3 * M.PI), (1, 3 * M.PI + M.PI), (0, 9 * M.PI / 2), (1, 9 * M.PI / 2 + M.PI)]) := by
  rw [HeroBackground3D.created_particles_hero, DNAVisualization.created_particles_dna, hh, hd]
  simp only [List.range_succ, List.range_zero, List.nil_append, List.flatMap_append,
    List.flatMap_cons, List.flatMap_nil, HeroBackground3D.pushPair, DNAVisualization.pushPair,
    List.append_nil, List.cons_append, List.map_cons, List.map_nil, hh, hd]
  simp only [Nat.cast_ofNat, Nat.cast_zero, Nat.cast_one,
    List.cons.injEq, Prod.mk.injEq, and_true, true_and]
  norm_num
  refine ⟨⟨?_, ?_, ?_⟩, ?_, ?_, ?_⟩ <;> ring

theorem base_angles_of_count_four (M : JSMath α) (h : HeroBackground3D.State α)
    (d : DNAVisualization.State α) (hh : h.config.helixParticleCount = 4)
    (hd : d.config.particleCount = 4) :
    (((HeroBackground3D.createHelixParticles M h).particles.filter
        (fun p => p.strand = 0)).map (fun p => p.baseAngle)
      = [0, 2 * M.PI, 4 * M.PI, 6 * M.PI]) ∧
    (((HeroBackground3D.createHelixParticles M h).particles.filter
        (fun p => p.strand = 1)).map (fun p => p.baseAngle)
      = [0 + M.PI, 2 * M.PI + M.PI, 4 * M.PI + M.PI, 6 * M.PI + M.PI]) ∧
    (((DNAVisualization.createParticles M d).particles.filter
        (fun p => p.strand = 0)).map (fun p => p.baseAngle)
      = [0, 3 * M.PI / 2, 3 * M.PI, 9 * M.PI / 2]) ∧
    (((DNAVisualization.createParticles M d).particles.filter
        (fun p => p.strand = 1)).map (fun p => p.baseAngle)
      = [0 + M.PI, 3 * M.PI / 2 + M.PI, 3 * M.PI + M.PI, 9 * M.PI / 2 + M.PI]) := by
  rw [HeroBackground3D.created_particles_hero, DNAVisualization.created_particles_dna, hh, hd]
  simp only [List.range_succ, List.range_zero, List.nil_append, List.flatMap_append,
    List.flatMap_cons, List.flatMap_nil, HeroBackground3D.pushPair, DNAVisualization.pushPair,
    List.append_nil, List.cons_append, List.filter_cons, List.filter_nil, hh, hd]
  simp only [decide_True, decide_False, if_true, if_false, List.map_cons, List.map_nil,
    zero_ne_one, one_ne_zero, Nat.cast_ofNat, Nat.cast_zero, Nat.cast_one,
    List.cons.injEq, and_true, true_and]
  norm_num
  refine ⟨⟨?_, ?_, ?_⟩, ?_, ?_, ?_⟩ <;> ring

/-- C10 (amended): with a particle count of 4, whatever the rest of the state,
creation produces an array of 8 particles in which the strand-0 particles are
at the array indices 0, 2, 4, 6 and have base angles 0, 2 pi, 4 pi, 6 pi in
HeroBackground3D (4 turns, fixed in the code) and 0, 3 pi / 2, 3 pi, 9 pi / 2
in DNAVisualization (3 turns, fixed in the code), and the partner-strand
particles are at the array indices 1, 3, 5, 7 and have those same angles plus
pi.  The strand-0 angles are the angles 0, pi, 2 pi, 3 pi of a helix of two
turns multiplied by 2, respectively 3 / 2 (the fixed number of turns over 2);
no state produces the angles 0, pi, 2 pi, 3 pi themselves. -/
theorem four_particles_base_angles (M : JSMath α) (h : HeroBackground3D.State α)
    (d : DNAVisualization.State α) (hh : h.config.helixParticleCount = 4)
    (hd : d.config.particleCount = 4) :
    ((HeroBackground3D.createHelixParticles M h).particles.map (fun p => (p.strand, p.baseAngle))
      = [(0, 0), (1, 0 + M.PI), (0, 2 * M.PI), (1, 2 * M.PI + M.PI),
         (0, 4 * M.PI), (1, 4 * M.PI + M.PI), (0, 6 * M.PI), (1, 6 * M.PI + M.PI)]) ∧
    ((DNAVisualization.createParticles M d).particles.map (fun p => (p.strand, p.baseAngle))
      = [(0, 0), (1, 0 + M.PI), (0, 3 * M.PI / 2), (1, 3 * M.PI / 2 + M.PI),
         (0, 3 * M.PI), (1, 3 * M.PI + M.PI), (0, 9 * M.PI / 2), (1, 9 * M.PI / 2 + M.PI)]) ∧
    (((HeroBackground3D.createHelixParticles M h).particles.filter
        (fun p => p.strand = 0)).map (fun p => p.baseAngle)
      = [0, 2 * M.PI, 4 * M.PI, 6 * M.PI]) ∧
    (((HeroBackground3D.createHelixParticles M h).particles.filter
        (fun p => p.strand = 1)).map (fun p => p.baseAngle)
      = [0 + M.PI, 2 * M.PI + M.PI, 4 * M.PI + M.PI, 6 * M.PI + M.PI]) ∧
    (((DNAVisualization.createParticles M d).particles.filter
        (fun p => p.strand = 0)).map (fun p => p.baseAngle)
      = [0, 3 * M.PI / 2, 3 * M.PI, 9 * M.PI / 2]) ∧
    (((DNAVisualization.createParticles M d).particles.filter
        (fun p => p.strand = 1)).map (fun p => p.baseAngle)
      = [0 + M.PI, 3 * M.PI / 2 + M.PI, 3 * M.PI + M.PI, 9 * M.PI / 2 + M.PI]) ∧
    (((HeroBackground3D.createHelixParticles M h).particles.filter
        (fun p => p.strand = 0)).map (fun p => p.baseAngle)
      = [0, M.PI, 2 * M.PI, 3 * M.PI].map (fun a => a * 2)) ∧
    (((DNAVisualization.createParticles M d).particles.filter
        (fun p => p.strand = 0)).map (fun p => p.baseAngle)
      = [0, M.PI, 2 * M.PI, 3 * M.PI].map (fun a => a * (3 / 2))) ∧
    (M.PI ≠ 0 →
      (((HeroBackground3D.createHelixParticles M h).particles.filter
          (fun p => p.strand = 0)).map (fun p => p.baseAngle)
        ≠ [0, M.PI, 2 * M.PI, 3 * M.PI]) ∧
      (((DNAVisualization.createParticles M d).particles.filter
          (fun p => p.strand = 0)).map (fun p => p.baseAngle)
        ≠ [0, M.PI, 2 * M.PI, 3 * M.PI])) := by
  obtain ⟨a1, a2⟩ := strands_and_angles_of_count_four M h d hh hd
  obtain ⟨f1, f2, f3, f4⟩ := base_angles_of_count_four M h d hh hd
  refine ⟨a1, a2, f1, f2, f3, f4, ?_, ?_, fun hpi => ⟨?_, ?_⟩⟩
  · rw [f1]
    simp only [List.map_cons, List.map_nil, List.cons.injEq, and_true]
    refine ⟨by ring, by ring, by ring, by ring⟩
  · rw [f3]
    simp only [List.map_cons, List.map_nil, List.cons.injEq, and_true]
    refine ⟨by ring, by ring, by ring, by ring⟩
  · rw [f1]
    intro e
    simp only [List.cons.injEq, true_and] at e
    have e1 : 2 * M.PI = M.PI := e.1
    exact hpi (by linarith)
  · rw [f3]
    intro e
    simp only [List.cons.injEq, true_and] at e
    have e1 : 3 * M.PI / 2 = M.PI := e.1
    exact hpi (by linarith)

/-- A witness of the amended C10: HeroBackground3D constructed with a particle
count of 4 over the reals. -/
theorem four_particles_base_angles_witness :
    (HeroBackground3D.createHelixParticles
        (JSMath.mk Real.sin Real.cos Real.sqrt Real.pi (fun _ => 0))
        (HeroBackground3D.construct
          { HeroBackground3D.defaultConfig with helixParticleCount := 4 }
          { rectWidth := 1280, rectHeight := 720, devicePixelRatio := 1,
            innerWidth := 1280 })).particles.map (fun p => (p.strand, p.baseAngle))
      = [(0, 0), (1, 0 + Real.pi), (0, 2 * Real.pi), (1, 2 * Real.pi + Real.pi),
         (0, 4 * Real.pi), (1, 4 * Real.pi + Real.pi), (0, 6 * Real.pi),
         (1, 6 * Real.pi + Real.pi)] :=
  (four_particles_base_angles (JSMath.mk Real.sin Real.cos Real.sqrt Real.pi (fun _ => 0))
    (HeroBackground3D.construct { HeroBackground3D.defaultConfig with helixParticleCount := 4 }
      { rectWidth := 1280, rectHeight := 720, devicePixelRatio := 1, innerWidth := 1280 })
    (DNAVisualization.construct { DNAVisualization.defaultConfig with particleCount := 4 })
    (by norm_num [HeroBackground3D.construct]) rfl).1

/-- C10 (as stated, refuted): the code has no setting for the number of turns:
for every state with a particle count of 4 the strand-0 base angles are
0, 2 pi, 4 pi, 6 pi in HeroBackground3D (a span of 8 pi) and
0, 3 pi / 2, 3 pi, 9 pi / 2 in DNAVisualization (a span of 6 pi).  So no state
with a particle count of 4 is a helix of two turns (a span of 4 pi), and none
produces the strand-0 base angles 0, pi, 2 pi, 3 pi; in the state constructed
with the count set to 4 the particle at array index 1 is on strand 1. -/
theorem four_particles_two_turns_refuted :
    (∀ h : HeroBackground3D.State ℝ, h.config.helixParticleCount = 4 →
      ((HeroBackground3D.createHelixParticles (JSMath.mk Real.sin Real.cos Real.sqrt Real.pi (fun _ => 0)) h).particles.filter
          (fun p => p.strand = 0)).map (fun p => p.baseAngle)
        = [0, 2 * Real.pi, 4 * Real.pi, 6 * Real.pi] ∧
      ((HeroBackground3D.createHelixParticles (JSMath.mk Real.sin Real.cos Real.sqrt Real.pi (fun _ => 0)) h).particles.filter
          (fun p => p.strand = 0)).map (fun p => p.baseAngle)
        ≠ [0, Real.pi, 2 * Real.pi, 3 * Real.pi]) ∧
    (∀ d : DNAVisualization.State ℝ, d.config.particleCount = 4 →
      ((DNAVisualization.createParticles (JSMath.mk Real.sin Real.cos Real.sqrt Real.pi (fun _ => 0)) d).particles.filter
          (fun p => p.strand = 0)).map (fun p => p.baseAngle)
        = [0, 3 * Real.pi / 2, 3 * Real.pi, 9 * Real.pi / 2] ∧
      ((DNAVisualization.createParticles (JSMath.mk Real.sin Real.cos Real.sqrt Real.pi (fun _ => 0)) d).particles.filter
          (fun p => p.strand = 0)).map (fun p => p.baseAngle)
        ≠ [0, Real.pi, 2 * Real.pi, 3 * Real.pi]) ∧
    ((HeroBackground3D.createHelixParticles (JSMath.mk Real.sin Real.cos Real.sqrt Real.pi (fun _ => 0))
        (HeroBackground3D.construct
          { HeroBackground3D.defaultConfig with helixParticleCount := 4 }
          { rectWidth := 1280, rectHeight := 720, devicePixelRatio := 1,
            innerWidth := 1280 })).particles.map (fun p => p.strand))[1]? = some 1 := by
  have hpi := Real.pi_pos
  refine ⟨fun h hh => ?_, fun d hd => ?_, ?_⟩
  · have key := (base_angles_of_count_four (JSMath.mk Real.sin Real.cos Real.sqrt Real.pi (fun _ => 0)) h
      (DNAVisualization.construct { DNAVisualization.defaultConfig with particleCount := 4 })
      hh rfl).1
    refine ⟨key, ?_⟩
    rw [key]
    intro e
    simp only [List.cons.injEq, true_and] at e
    linarith [e.1]
  · have key := (base_angles_of_count_four (JSMath.mk Real.sin Real.cos Real.sqrt Real.pi (fun _ => 0))
      (HeroBackground3D.construct { HeroBackground3D.defaultConfig with helixParticleCount := 4 }
        { rectWidth := 1280, rectHeight := 720, devicePixelRatio := 1, innerWidth := 1280 })
      d (by norm_num [HeroBackground3D.construct]) hd).2.2.1
    refine ⟨key, ?_⟩
    rw [key]
    intro e
    simp only [List.cons.injEq, true_and] at e
    linarith [e.1]
  · have key := (strands_and_angles_of_count_four (JSMath.mk Real.sin Real.cos Real.sqrt Real.pi (fun _ => 0))
      (HeroBackground3D.construct { HeroBackground3D.defaultConfig with helixParticleCount := 4 }
        { rectWidth := 1280, rectHeight := 720, devicePixelRatio := 1, innerWidth := 1280 })
      (DNAVisualization.construct { DNAVisualization.defaultConfig with particleCount := 4 })
      (by norm_num [HeroBackground3D.construct]) rfl).1
    have k2 := congrArg (List.map Prod.fst) key
    simp only [List.map_map, List.map_cons, List.map_nil] at k2
    have k3 : (HeroBackground3D.createHelixParticles (JSMath.mk Real.sin Real.cos Real.sqrt Real.pi (fun _ => 0))
        (HeroBackground3D.construct
          { HeroBackground3D.defaultConfig with helixParticleCount := 4 }
          { rectWidth := 1280, rectHeight := 720, devicePixelRatio := 1,
            innerWidth := 1280 })).particles.map (fun p => p.strand) = [0, 1, 0, 1, 0, 1, 0, 1] := k2
    rw [k3]
    rfl

/-- C3: in `drawParticles` / `drawHelixParticles` the canvas calls are those
of the entries of the sorted array, one block of calls per entry, in the order
of that array; the sorted array is a permutation of the particle array (each
entry keeps its particle, its array index and its projected position), ordered
by non-decreasing projected `z`, and stable: entries with equal `z` stay in
array-index order.  In MolecularVisualization the entries with `z < -300` are
skipped, which under the default radius 60 never happens. -/
theorem draw_order_sorted_stable :
    (∀ (M : JSMath α) (s : DNAVisualization.State α),
      ((DNAVisualization.sortedParticles M s).map (fun e => (e.index, e.particle))).Perm s.particles.enum ∧
      (∀ e ∈ DNAVisualization.sortedParticles M s, e.pos = DNAVisualization.getParticlePosition M s e.particle) ∧
      (DNAVisualization.sortedParticles M s).Pairwise (fun a b => a.pos.z ≤ b.pos.z) ∧
      (DNAVisualization.sortedParticles M s).Pairwise (fun a b => a.pos.z = b.pos.z → a.index < b.index) ∧
      DNAVisualization.drawParticles M s =
        (DNAVisualization.sortedParticles M s).flatMap (fun e =>
          [ DrawOp.createRadialGradient e.pos.x e.pos.y 0 e.pos.x e.pos.y
              ((e.particle.size * e.pos.scale * (M.sin (s.time * 3 + e.particle.pulseOffset) * (3 / 10) + 1)) * 3),
            DrawOp.beginPath,
            DrawOp.arc e.pos.x e.pos.y
              ((e.particle.size * e.pos.scale * (M.sin (s.time * 3 + e.particle.pulseOffset) * (3 / 10) + 1)) * 3),
            DrawOp.fill, DrawOp.beginPath,
            DrawOp.arc e.pos.x e.pos.y
              (e.particle.size * e.pos.scale * (M.sin (s.time * 3 + e.particle.pulseOffset) * (3 / 10) + 1)),
            DrawOp.fill ])) ∧
    (∀ (M : JSMath α) (s : HeroBackground3D.State α),
      ((HeroBackground3D.sortedParticles M s).map (fun e => (e.index, e.particle))).Perm s.particles.enum ∧
      (∀ e ∈ HeroBackground3D.sortedParticles M s, e.pos = HeroBackground3D.getHelixPosition M s e.particle) ∧
      (HeroBackground3D.sortedParticles M s).Pairwise (fun a b => a.pos.z ≤ b.pos.z) ∧
      (HeroBackground3D.sortedParticles M s).Pairwise (fun a b => a.pos.z = b.pos.z → a.index < b.index) ∧
      HeroBackground3D.drawHelixParticles M s =
        (HeroBackground3D.sortedParticles M s).flatMap (fun e =>
          [ DrawOp.createRadialGradient e.pos.x e.pos.y 0 e.pos.x e.pos.y
              ((e.particle.size * e.pos.scale * (M.sin (s.time * 4 + e.particle.pulseOffset) * (3 / 10) + 1)) * 4),
            DrawOp.beginPath,
            DrawOp.arc e.pos.x e.pos.y
              ((e.particle.size * e.pos.scale * (M.sin (s.time * 4 + e.particle.pulseOffset) * (3 / 10) + 1)) * 4),
            DrawOp.fill, DrawOp.beginPath,
            DrawOp.arc e.pos.x e.pos.y
              (e.particle.size * e.pos.scale * (M.sin (s.time * 4 + e.particle.pulseOffset) * (3 / 10) + 1)),
            DrawOp.fill ])) ∧
    (∀ (M : JSMath α) (s : MolecularVisualization.State α),
      ((MolecularVisualization.sortedParticles M s).map (fun e => (e.index, e.particle))).Perm s.particles.enum ∧
      (∀ e ∈ MolecularVisualization.sortedParticles M s, e.pos = MolecularVisualization.getHelixPosition M s e.particle) ∧
      (MolecularVisualization.sortedParticles M s).Pairwise (fun a b => a.pos.z ≤ b.pos.z) ∧
      (MolecularVisualization.sortedParticles M s).Pairwise (fun a b => a.pos.z = b.pos.z → a.index < b.index) ∧
      MolecularVisualization.drawHelixParticles M s =
        ((MolecularVisualization.sortedParticles M s).filter
          (fun e => !decide (e.pos.z < -300))).flatMap (fun e =>
          [ DrawOp.createRadialGradient e.pos.x e.pos.y 0 e.pos.x e.pos.y
              ((e.particle.size * e.pos.scale * (M.sin (s.time * 3 + e.particle.pulseOffset) * (3 / 10) + 1)) * 3),
            DrawOp.fillRect
              (e.pos.x - (e.particle.size * e.pos.scale * (M.sin (s.time * 3 + e.particle.pulseOffset) * (3 / 10) + 1)) * 3)
              (e.pos.y - (e.particle.size * e.pos.scale * (M.sin (s.time * 3 + e.particle.pulseOffset) * (3 / 10) + 1)) * 3)
              ((e.particle.size * e.pos.scale * (M.sin (s.time * 3 + e.particle.pulseOffset) * (3 / 10) + 1)) * 6)
              ((e.particle.size * e.pos.scale * (M.sin (s.time * 3 + e.particle.pulseOffset) * (3 / 10) + 1)) * 6),
            DrawOp.beginPath,
            DrawOp.arc e.pos.x e.pos.y
              (e.particle.size * e.pos.scale * (M.sin (s.time * 3 + e.particle.pulseOffset) * (3 / 10) + 1)),
            DrawOp.fill ]) ∧
      (M.Lawful → s.config.helixRadius = 60 →
        MolecularVisualization.drawHelixParticles M s =
          (MolecularVisualization.sortedParticles M s).flatMap (fun e =>
          [ DrawOp.createRadialGradient e.pos.x e.pos.y 0 e.pos.x e.pos.y
              ((e.particle.size * e.pos.scale * (M.sin (s.time * 3 + e.particle.pulseOffset) * (3 / 10) + 1)) * 3),
            DrawOp.fillRect
              (e.pos.x - (e.particle.size * e.pos.scale * (M.sin (s.time * 3 + e.particle.pulseOffset) * (3 / 10) + 1)) * 3)
              (e.pos.y - (e.particle.size * e.pos.scale * (M.sin (s.time * 3 + e.particle.pulseOffset) * (3 / 10) + 1)) * 3)
              ((e.particle.size * e.pos.scale * (M.sin (s.time * 3 + e.particle.pulseOffset) * (3 / 10) + 1)) * 6)
              ((e.particle.size * e.pos.scale * (M.sin (s.time * 3 + e.particle.pulseOffset) * (3 / 10) + 1)) * 6),
            DrawOp.beginPath,
            DrawOp.arc e.pos.x e.pos.y
              (e.particle.size * e.pos.scale * (M.sin (s.time * 3 + e.particle.pulseOffset) * (3 / 10) + 1)),
            DrawOp.fill ]))) := by
  refine ⟨?_, ?_, ?_⟩
  · intro M s
    have hperm := jsSort_perm (fun a b : DNAVisualization.Projected α => a.pos.z - b.pos.z)
      (s.particles.enum.map (fun ip =>
        ({ particle := ip.2, index := ip.1, pos := DNAVisualization.getParticlePosition M s ip.2 } :
          DNAVisualization.Projected α)))
    have hst := jsSort_sorted_stable (fun e : DNAVisualization.Projected α => e.pos.z) (fun e => e.index)
      (s.particles.enum.map (fun ip =>
        ({ particle := ip.2, index := ip.1, pos := DNAVisualization.getParticlePosition M s ip.2 } :
          DNAVisualization.Projected α)))
      (enum_map_pairwise_index _ _ _ (fun _ => rfl))
    have h1 : ((DNAVisualization.sortedParticles M s).map (fun e => (e.index, e.particle))).Perm
        s.particles.enum := by
      have h := hperm.map (fun e : DNAVisualization.Projected α => (e.index, e.particle))
      simpa [DNAVisualization.sortedParticles, Function.comp_def] using h
    have h2 : ∀ e ∈ DNAVisualization.sortedParticles M s, e.pos = DNAVisualization.getParticlePosition M s e.particle := by
      intro e he
      obtain ⟨ip, -, rfl⟩ := List.mem_map.mp (hperm.mem_iff.mp he)
      rfl
    exact ⟨h1, h2, hst.imp (fun h => h.1), hst.imp (fun h => h.2), rfl⟩
  · intro M s
    have hperm := jsSort_perm (fun a b : HeroBackground3D.Projected α => a.pos.z - b.pos.z)
      (s.particles.enum.map (fun ip =>
        ({ particle := ip.2, index := ip.1, pos := HeroBackground3D.getHelixPosition M s ip.2 } :
          HeroBackground3D.Projected α)))
    have hst := jsSort_sorted_stable (fun e : HeroBackground3D.Projected α => e.pos.z) (fun e => e.index)
      (s.particles.enum.map (fun ip =>
        ({ particle := ip.2, index := ip.1, pos := HeroBackground3D.getHelixPosition M s ip.2 } :
          HeroBackground3D.Projected α)))
      (enum_map_pairwise_index _ _ _ (fun _ => rfl))
    have h1 : ((HeroBackground3D.sortedParticles M s).map (fun e => (e.index, e.particle))).Perm
        s.particles.enum := by
      have h := hperm.map (fun e : HeroBackground3D.Projected α => (e.index, e.particle))
      simpa [HeroBackground3D.sortedParticles, Function.comp_def] using h
    have h2 : ∀ e ∈ HeroBackground3D.sortedParticles M s, e.pos = HeroBackground3D.getHelixPosition M s e.particle := by
      intro e he
      obtain ⟨ip, -, rfl⟩ := List.mem_map.mp (hperm.mem_iff.mp he)
      rfl
    exact ⟨h1, h2, hst.imp (fun h => h.1), hst.imp (fun h => h.2), rfl⟩
  · intro M s
    have hperm := jsSort_perm (fun a b : MolecularVisualization.Projected α => a.pos.z - b.pos.z)
      (s.particles.enum.map (fun ip =>
        ({ particle := ip.2, index := ip.1, pos := MolecularVisualization.getHelixPosition M s ip.2 } :
          MolecularVisualization.Projected α)))
    have hst := jsSort_sorted_stable (fun e : MolecularVisualization.Projected α => e.pos.z) (fun e => e.index)
      (s.particles.enum.map (fun ip =>
        ({ particle := ip.2, index := ip.1, pos := MolecularVisualization.getHelixPosition M s ip.2 } :
          MolecularVisualization.Projected α)))
      (enum_map_pairwise_index _ _ _ (fun _ => rfl))
    have h1 : ((MolecularVisualization.sortedParticles M s).map (fun e => (e.index, e.particle))).Perm
        s.particles.enum := by
      have h := hperm.map (fun e : MolecularVisualization.Projected α => (e.index, e.particle))
      simpa [MolecularVisualization.sortedParticles, Function.comp_def] using h
    have h2 : ∀ e ∈ MolecularVisualization.sortedParticles M s, e.pos = MolecularVisualization.getHelixPosition M s e.particle := by
      intro e he
      obtain ⟨ip, -, rfl⟩ := List.mem_map.mp (hperm.mem_iff.mp he)
      rfl
    have h3 : MolecularVisualization.drawHelixParticles M s =
        ((MolecularVisualization.sortedParticles M s).filter
          (fun e => !decide (e.pos.z < -300))).flatMap (fun e =>
          [ DrawOp.createRadialGradient e.pos.x e.pos.y 0 e.pos.x e.pos.y
              ((e.particle.size * e.pos.scale * (M.sin (s.time * 3 + e.particle.pulseOffset) * (3 / 10) + 1)) * 3),
            DrawOp.fillRect
              (e.pos.x - (e.particle.size * e.pos.scale * (M.sin (s.time * 3 + e.particle.pulseOffset) * (3 / 10) + 1)) * 3)
              (e.pos.y - (e.particle.size * e.pos.scale * (M.sin (s.time * 3 + e.particle.pulseOffset) * (3 / 10) + 1)) * 3)
              ((e.particle.size * e.pos.scale * (M.sin (s.time * 3 + e.particle.pulseOffset) * (3 / 10) + 1)) * 6)
              ((e.particle.size * e.pos.scale * (M.sin (s.time * 3 + e.particle.pulseOffset) * (3 / 10) + 1)) * 6),
            DrawOp.beginPath,
            DrawOp.arc e.pos.x e.pos.y
              (e.particle.size * e.pos.scale * (M.sin (s.time * 3 + e.particle.pulseOffset) * (3 / 10) + 1)),
            DrawOp.fill ]) :=
      flatMap_skip (fun e : MolecularVisualization.Projected α => e.pos.z < -300) _ _
    refine ⟨h1, h2, hst.imp (fun h => h.1), hst.imp (fun h => h.2), h3, fun hM hr => ?_⟩
    rw [h3, List.filter_eq_self.mpr]
    intro e he
    have hz := (MolecularVisualization.z_bounds_molecular M hM s e.particle hr).1
    rw [← h2 e he] at hz
    simp only [Bool.not_eq_true', decide_eq_false_iff_not, not_lt]
    linarith

/-- C4 (the code at a failing input): in the first frame of a DNAVisualization
with the default configuration, the particle with array index 1 is drawn before
the particle with array index 0, which has the larger `z`; but the particle
drawn later has the smaller perspective scale (below 1, against above 1), so
the renderer's own projection places it farther from the camera.  The draw
order is therefore not ordered by non-decreasing scale. -/
theorem first_frame_draw_order_front_to_back :
    (∃ a b, [a, b].Sublist
        (DNAVisualization.sortedParticles
          (JSMath.mk Real.sin Real.cos Real.sqrt Real.pi (fun _ => 0))
          (DNAVisualization.init (JSMath.mk Real.sin Real.cos Real.sqrt Real.pi (fun _ => 0))
            { rectWidth := 800, rectHeight := 600, devicePixelRatio := 1, innerWidth := 1280 }
            (DNAVisualization.construct DNAVisualization.defaultConfig))) ∧
      a.index = 1 ∧ b.index = 0 ∧ a.pos.z < 0 ∧ 0 < b.pos.z ∧
      b.pos.scale < 1 ∧ 1 < a.pos.scale) ∧
    ¬ (DNAVisualization.sortedParticles
          (JSMath.mk Real.sin Real.cos Real.sqrt Real.pi (fun _ => 0))
          (DNAVisualization.init (JSMath.mk Real.sin Real.cos Real.sqrt Real.pi (fun _ => 0))
            { rectWidth := 800, rectHeight := 600, devicePixelRatio := 1, innerWidth := 1280 }
            (DNAVisualization.construct DNAVisualization.defaultConfig))).Pairwise
        (fun a b => a.pos.scale ≤ b.pos.scale) := by
  obtain ⟨c, r, hc⟩ := DNAVisualization.createParticles_eq_dna
    (JSMath.mk Real.sin Real.cos Real.sqrt Real.pi (fun _ => 0))
    (DNAVisualization.resize
      { rectWidth := 800, rectHeight := 600, devicePixelRatio := 1, innerWidth := 1280 }
      (DNAVisualization.construct (DNAVisualization.defaultConfig : DNAVisualization.Config ℝ)))
  obtain ⟨g0, g1⟩ := DNAVisualization.created_getElem_dna
    (JSMath.mk Real.sin Real.cos Real.sqrt Real.pi (fun _ => 0))
    (DNAVisualization.resize
      { rectWidth := 800, rectHeight := 600, devicePixelRatio := 1, innerWidth := 1280 }
      (DNAVisualization.construct (DNAVisualization.defaultConfig : DNAVisualization.Config ℝ)))
    0 (by decide)
  generalize hM : (JSMath.mk Real.sin Real.cos Real.sqrt Real.pi (fun _ => 0) : JSMath ℝ) = M
    at *
  have hL : M.Lawful := by
    rw [← hM]; exact real_lawful _ (fun _ => le_refl 0) (fun _ => zero_lt_one)
  generalize hs : DNAVisualization.init M
    { rectWidth := 800, rectHeight := 600, devicePixelRatio := 1, innerWidth := 1280 }
    (DNAVisualization.construct DNAVisualization.defaultConfig) = s
  have hs' : s = { (DNAVisualization.createParticles M (DNAVisualization.resize
      { rectWidth := 800, rectHeight := 600, devicePixelRatio := 1, innerWidth := 1280 }
      (DNAVisualization.construct DNAVisualization.defaultConfig))) with
      time := 0 + 8 / 1000, mouseX := lerp 0 0 (1 / 10), mouseY := lerp 0 0 (1 / 10) } := by
    rw [← hs, DNAVisualization.init, DNAVisualization.animate_running_dna _ _ (by rw [hc]; rfl), hc]
    rfl
  have htime : s.time = 0 + 8 / 1000 := by rw [hs']
  have hcfg : s.config = DNAVisualization.defaultConfig := by rw [hs', hc]; rfl
  have hparts : s.particles = (DNAVisualization.createParticles M (DNAVisualization.resize
      { rectWidth := 800, rectHeight := 600, devicePixelRatio := 1, innerWidth := 1280 }
      (DNAVisualization.construct DNAVisualization.defaultConfig))).particles := by rw [hs']
  rw [← hparts] at g0 g1
  have hMsin : M.sin = Real.sin := by rw [← hM]
  have hMpi : M.PI = Real.pi := by rw [← hM]
  obtain ⟨p0, g0, a0, y0⟩ : ∃ p : DNAVisualization.Particle ℝ,
      s.particles[0]? = some p ∧ p.baseAngle = 0 ∧ p.baseY = -200 :=
    ⟨_, g0, by show ((0 : ℕ) : ℝ) / _ * _ * 6 = 0; simp,
      by show (((0 : ℕ) : ℝ) / ((60 : ℕ) : ℝ) - 1 / 2) * 400 = -200; norm_num⟩
  obtain ⟨p1, g1, a1, y1⟩ :
      ∃ p : DNAVisualization.Particle ℝ,
        s.particles[1]? = some p ∧ p.baseAngle = Real.pi ∧ p.baseY = -200 :=
    ⟨_, g1, by show ((0 : ℕ) : ℝ) / _ * M.PI * 6 + M.PI = Real.pi; rw [hMpi]; simp,
      by show (((0 : ℕ) : ℝ) / ((60 : ℕ) : ℝ) - 1 / 2) * 400 = -200; norm_num⟩
  clear hc hparts hs' hs
  obtain ⟨hpos, hsorted, hmem⟩ := DNAVisualization.sortedParticles_spec_dna M s
  have m0 := hmem 0 p0 g0
  have m1 := hmem 1 p1 g1
  have hsin : 0 < Real.sin (8 / 1000) :=
    Real.sin_pos_of_pos_of_lt_pi (by norm_num) (by linarith [Real.pi_gt_three])
  have hw := Real.neg_one_le_sin (-200 * (5 / 100) + (0 + 8 / 1000) * 2)
  have hamp : 0 < 80 + Real.sin (-200 * (5 / 100) + (0 + 8 / 1000) * 2) * 20 := by linarith
  have z0 : 0 < (DNAVisualization.getParticlePosition M s p0).z := by
    simp only [DNAVisualization.getParticlePosition, hcfg, htime, hMsin, a0, y0,
      DNAVisualization.defaultConfig]
    have e : (0 : ℝ) + (0 + 8 / 1000) = 8 / 1000 := by norm_num
    rw [e]
    exact mul_pos hsin hamp
  have z1 : (DNAVisualization.getParticlePosition M s p1).z < 0 := by
    simp only [DNAVisualization.getParticlePosition, hcfg, htime, hMsin, a1, y1,
      DNAVisualization.defaultConfig]
    have e : Real.pi + (0 + 8 / 1000) = 8 / 1000 + Real.pi := by ring
    rw [e, Real.sin_add_pi]
    have := mul_pos hsin hamp
    linarith
  have hr : s.config.helixRadius = 80 := by rw [hcfg]; rfl
  have hwv : s.config.waveAmplitude = 20 := by rw [hcfg]; rfl
  have hz1 := (DNAVisualization.z_bounds_dna M hL s p1 hr hwv).1
  have key : ∃ a b, [a, b].Sublist (DNAVisualization.sortedParticles M s) ∧
      a.index = 1 ∧ b.index = 0 ∧ a.pos.z < 0 ∧ 0 < b.pos.z ∧
      b.pos.scale < 1 ∧ 1 < a.pos.scale := by
    refine ⟨_, _, pair_sublist_of_pairwise hsorted m1 m0 ?_ ?_, rfl, rfl, z1, z0, ?_, ?_⟩
    · intro h
      have := congrArg DNAVisualization.Projected.index h
      simp at this
    · show ¬ (DNAVisualization.getParticlePosition M s p0).z ≤
        (DNAVisualization.getParticlePosition M s p1).z
      linarith
    · show (DNAVisualization.getParticlePosition M s p0).scale < 1
      rw [DNAVisualization.scale_eq_dna, projectionScale, div_lt_one (by linarith)]
      linarith
    · show 1 < (DNAVisualization.getParticlePosition M s p1).scale
      rw [DNAVisualization.scale_eq_dna, projectionScale, one_lt_div (by linarith)]
      linarith
  refine ⟨key, fun hp => ?_⟩
  obtain ⟨a, b, hsub, -, -, -, -, hb, ha⟩ := key
  have := List.pairwise_pair.mp (hp.sublist hsub)
  linarith

/-- C8 (as stated, refuted): after the resize handler of a DNAVisualization
that was initialised with the default configuration, the helix particle array
is the array created at construction, not a freshly generated one: with the
random stream `k / (k + 1)` a regenerated set would differ from it. -/
theorem resize_does_not_regenerate_helix :
    (DNAVisualization.onResize
        ({ rectWidth := 1024, rectHeight := 768, devicePixelRatio := 1, innerWidth := 1024 } :
          Viewport ℝ)
        (DNAVisualization.init
          (JSMath.mk Real.sin Real.cos Real.sqrt Real.pi (fun k => (k : ℝ) / ((k : ℝ) + 1)) : JSMath ℝ)
          ({ rectWidth := 800, rectHeight := 600, devicePixelRatio := 1, innerWidth := 1280 } :
          Viewport ℝ)
          (DNAVisualization.construct DNAVisualization.defaultConfig))).particles ≠
      (DNAVisualization.createParticles
        (JSMath.mk Real.sin Real.cos Real.sqrt Real.pi (fun k => (k : ℝ) / ((k : ℝ) + 1)) : JSMath ℝ)
        (DNAVisualization.onResize
          ({ rectWidth := 1024, rectHeight := 768, devicePixelRatio := 1, innerWidth := 1024 } :
          Viewport ℝ)
          (DNAVisualization.init
            (JSMath.mk Real.sin Real.cos Real.sqrt Real.pi (fun k => (k : ℝ) / ((k : ℝ) + 1)) : JSMath ℝ)
            ({ rectWidth := 800, rectHeight := 600, devicePixelRatio := 1, innerWidth := 1280 } :
          Viewport ℝ)
            (DNAVisualization.construct DNAVisualization.defaultConfig)))).particles := by
  generalize hM : (JSMath.mk Real.sin Real.cos Real.sqrt Real.pi
    (fun k => (k : ℝ) / ((k : ℝ) + 1)) : JSMath ℝ) = M
  have hrand : ∀ k : ℕ, M.random k = (k : ℝ) / ((k : ℝ) + 1) := fun k => by rw [← hM]
  generalize hs0 : DNAVisualization.resize
    ({ rectWidth := 800, rectHeight := 600, devicePixelRatio := 1, innerWidth := 1280 } :
          Viewport ℝ)
    (DNAVisualization.construct (DNAVisualization.defaultConfig : DNAVisualization.Config ℝ)) = s0
  have hcfg0 : s0.config = DNAVisualization.defaultConfig := by rw [← hs0]; rfl
  have hrng0 : s0.rng = 0 := by rw [← hs0]; rfl
  generalize hs : DNAVisualization.onResize
    ({ rectWidth := 1024, rectHeight := 768, devicePixelRatio := 1, innerWidth := 1024 } :
          Viewport ℝ)
    (DNAVisualization.init M
      ({ rectWidth := 800, rectHeight := 600, devicePixelRatio := 1, innerWidth := 1280 } :
          Viewport ℝ)
      (DNAVisualization.construct DNAVisualization.defaultConfig)) = s
  obtain ⟨hp, -, hc, hr⟩ := DNAVisualization.animate_preserves_dna M
    (DNAVisualization.createParticles M s0)
  have hs1 : s = DNAVisualization.resize
      ({ rectWidth := 1024, rectHeight := 768, devicePixelRatio := 1, innerWidth := 1024 } :
          Viewport ℝ)
      (DNAVisualization.animate M (DNAVisualization.createParticles M s0)).1 := by
    rw [← hs, ← hs0, DNAVisualization.onResize, DNAVisualization.init]
  have hf := DNAVisualization.resize_fields_dna
    ({ rectWidth := 1024, rectHeight := 768, devicePixelRatio := 1, innerWidth := 1024 } :
      Viewport ℝ)
    (DNAVisualization.animate M (DNAVisualization.createParticles M s0)).1
  have hparts : s.particles = (DNAVisualization.createParticles M s0).particles := by
    rw [hs1, hf.1, hp]
  have hcfg : s.config = DNAVisualization.defaultConfig := by
    obtain ⟨c, r, h⟩ := DNAVisualization.createParticles_eq_dna M s0
    rw [hs1, hf.2.1, hc, h]
    exact hcfg0
  have hrng : s.rng = 260 := by
    rw [hs1, hf.2.2, hr, DNAVisualization.createParticles_rng_dna,
      hcfg0, hrng0]
    rfl
  have g0 := (DNAVisualization.created_getElem_dna M s0 0 (by rw [hcfg0]; decide)).1
  have g1 := (DNAVisualization.created_getElem_dna M s 0 (by rw [hcfg]; decide)).1
  rw [← hparts] at g0
  intro h
  rw [← h, g0] at g1
  have hsize := congrArg DNAVisualization.Particle.size (Option.some.inj g1)
  simp only [DNAVisualization.randomRange, hcfg, hcfg0, hrng, hrng0, hrand,
    DNAVisualization.defaultConfig] at hsize
  norm_num at hsize

/-- C8 (amended): the resize handler does not rebuild the helix particle set.
In each renderer it leaves the particle array, the connector array and the
configuration exactly as they were and recomputes the canvas size and centre
from the container (in DNAVisualization the size is the one read back from the
canvas, the integer part of the container size, and the centre is half of it);
in HeroBackground3D it also regenerates the floating particles.  An array
created by construction therefore still holds, after a resize, twice the
configured count with the base angles it was created with: `i / n` of the
fixed span (6 pi, 8 pi, 6 pi) on strand 0 and that plus pi on strand 1. -/
theorem resize_keeps_helix_particles [FloorRing α] (M : JSMath α) (v : Viewport α) :
    (∀ s : DNAVisualization.State α,
      (DNAVisualization.onResize v s).particles = s.particles ∧
      (DNAVisualization.onResize v s).connections = s.connections ∧
      (DNAVisualization.onResize v s).config = s.config ∧
      (DNAVisualization.onResize v s).rng = s.rng ∧
      (DNAVisualization.onResize v s).canvasWidth = ((canvasDimension 300 v.rectWidth : Int) : α) ∧
      (DNAVisualization.onResize v s).canvasHeight = ((canvasDimension 150 v.rectHeight : Int) : α) ∧
      (0 ≤ v.rectWidth → v.rectWidth < 2147483648 →
        (DNAVisualization.onResize v s).canvasWidth = ((Int.floor v.rectWidth : Int) : α)) ∧
      (0 ≤ v.rectHeight → v.rectHeight < 2147483648 →
        (DNAVisualization.onResize v s).canvasHeight = ((Int.floor v.rectHeight : Int) : α)) ∧
      (DNAVisualization.onResize v s).centerX = (DNAVisualization.onResize v s).canvasWidth / 2 ∧
      (DNAVisualization.onResize v s).centerY = (DNAVisualization.onResize v s).canvasHeight / 2 ∧
      (∀ i : Nat, i < s.config.particleCount →
        ((DNAVisualization.onResize v (DNAVisualization.createParticles M s)).particles[2 * i]?).map (fun p => p.baseAngle)
          = some ((i : α) / (s.config.particleCount : α) * M.PI * 6) ∧
        ((DNAVisualization.onResize v (DNAVisualization.createParticles M s)).particles[2 * i + 1]?).map (fun p => p.baseAngle)
          = some ((i : α) / (s.config.particleCount : α) * M.PI * 6 + M.PI)) ∧
      (DNAVisualization.onResize v (DNAVisualization.createParticles M s)).particles.length
        = 2 * s.config.particleCount) ∧
    (∀ s : HeroBackground3D.State α,
      (HeroBackground3D.onResize M v s).particles = s.particles ∧
      (HeroBackground3D.onResize M v s).connections = s.connections ∧
      (HeroBackground3D.onResize M v s).config = s.config ∧
      (HeroBackground3D.onResize M v s).width = v.rectWidth ∧
      (HeroBackground3D.onResize M v s).height = v.rectHeight ∧
      (HeroBackground3D.onResize M v s).floatingParticles =
        (HeroBackground3D.createFloatingParticles M (HeroBackground3D.resize v s)).floatingParticles ∧
      (HeroBackground3D.onResize M v s).floatingParticles.length = s.config.floatingCount ∧
      (∀ i : Nat, i < s.config.helixParticleCount →
        ((HeroBackground3D.onResize M v (HeroBackground3D.createHelixParticles M s)).particles[2 * i]?).map (fun p => p.baseAngle)
          = some ((i : α) / (s.config.helixParticleCount : α) * M.PI * 8) ∧
        ((HeroBackground3D.onResize M v (HeroBackground3D.createHelixParticles M s)).particles[2 * i + 1]?).map (fun p => p.baseAngle)
          = some ((i : α) / (s.config.helixParticleCount : α) * M.PI * 8 + M.PI)) ∧
      (HeroBackground3D.onResize M v
        (HeroBackground3D.createHelixParticles M s)).particles.length
        = 2 * s.config.helixParticleCount) ∧
    (∀ s : MolecularVisualization.State α,
      (MolecularVisualization.onResize v s).particles = s.particles ∧
      (MolecularVisualization.onResize v s).connections = s.connections ∧
      (MolecularVisualization.onResize v s).floatingParticles = s.floatingParticles ∧
      (MolecularVisualization.onResize v s).config = s.config ∧
      (MolecularVisualization.onResize v s).rng = s.rng ∧
      (MolecularVisualization.onResize v s).width = v.rectWidth ∧
      (MolecularVisualization.onResize v s).height = v.rectHeight ∧
      (∀ i : Nat, i < s.config.helixParticleCount →
        ((MolecularVisualization.onResize v (MolecularVisualization.createHelixParticles M s)).particles[2 * i]?).map (fun p => p.baseAngle)
          = some ((i : α) / (s.config.helixParticleCount : α) * M.PI * 6) ∧
        ((MolecularVisualization.onResize v (MolecularVisualization.createHelixParticles M s)).particles[2 * i + 1]?).map (fun p => p.baseAngle)
          = some ((i : α) / (s.config.helixParticleCount : α) * M.PI * 6 + M.PI)) ∧
      (MolecularVisualization.onResize v
        (MolecularVisualization.createHelixParticles M s)).particles.length
        = 2 * s.config.helixParticleCount) := by
  refine ⟨fun s => ⟨rfl, rfl, rfl, rfl, rfl, rfl, fun h0 h1 => ?_, fun h0 h1 => ?_, rfl, rfl,
      fun i hi => ?_, ?_⟩,
    fun s => ?_, fun s => ⟨rfl, rfl, rfl, rfl, rfl, rfl, rfl, fun i hi => ?_, ?_⟩⟩
  · show ((canvasDimension 300 v.rectWidth : Int) : α) = _
    rw [canvasDimension_of_range 300 v.rectWidth h0 h1]
  · show ((canvasDimension 150 v.rectHeight : Int) : α) = _
    rw [canvasDimension_of_range 150 v.rectHeight h0 h1]
  · obtain ⟨g0, g1⟩ := DNAVisualization.created_getElem_dna M s i hi
    constructor
    · show ((DNAVisualization.createParticles M s).particles[2 * i]?).map _ = _
      rw [g0]; rfl
    · show ((DNAVisualization.createParticles M s).particles[2 * i + 1]?).map _ = _
      rw [g1]; rfl
  · show (DNAVisualization.createParticles M s).particles.length = _
    rw [DNAVisualization.created_particles_dna]
    exact length_flatMap_pairs _ (fun _ => by rfl) _
  · obtain ⟨hp, hc, hcfg, hw, hh, hlen⟩ := HeroBackground3D.createFloatingParticles_spec_hero M
      (HeroBackground3D.resize v s)
    have hp' : (HeroBackground3D.onResize M v
        (HeroBackground3D.createHelixParticles M s)).particles =
        (HeroBackground3D.createHelixParticles M s).particles :=
      (HeroBackground3D.createFloatingParticles_spec_hero M
        (HeroBackground3D.resize v (HeroBackground3D.createHelixParticles M s))).1
    refine ⟨hp, hc, hcfg, hw, hh, rfl, hlen, fun i hi => ?_, ?_⟩
    · obtain ⟨g0, g1⟩ := HeroBackground3D.created_getElem_hero M s i hi
      rw [hp', g0, g1]
      exact ⟨rfl, rfl⟩
    · rw [hp', HeroBackground3D.created_particles_hero]
      exact length_flatMap_pairs _ (fun _ => by rfl) _
  · obtain ⟨g0, g1⟩ := MolecularVisualization.created_getElem_molecular M s i hi
    constructor
    · show ((MolecularVisualization.createHelixParticles M s).particles[2 * i]?).map _ = _
      rw [g0]; rfl
    · show ((MolecularVisualization.createHelixParticles M s).particles[2 * i + 1]?).map _ = _
      rw [g1]; rfl
  · show (MolecularVisualization.createHelixParticles M s).particles.length = _
    rw [MolecularVisualization.created_particles_molecular]
    exact length_flatMap_pairs _ (fun _ => by rfl) _

/-- An instance of the amended C8 at a container of 801.5 by 600.75: the sizes
read back from the canvas are 801 and 600, and the centre is (400.5, 300). -/
theorem resize_keeps_helix_particles_witness :
    (DNAVisualization.onResize
        ({ rectWidth := 1603 / 2, rectHeight := 2403 / 4, devicePixelRatio := 1,
           innerWidth := 1280 } : Viewport ℝ)
        (DNAVisualization.construct DNAVisualization.defaultConfig)).canvasWidth = 801 ∧
    (DNAVisualization.onResize
        ({ rectWidth := 1603 / 2, rectHeight := 2403 / 4, devicePixelRatio := 1,
           innerWidth := 1280 } : Viewport ℝ)
        (DNAVisualization.construct DNAVisualization.defaultConfig)).canvasHeight = 600 ∧
    (DNAVisualization.onResize
        ({ rectWidth := 1603 / 2, rectHeight := 2403 / 4, devicePixelRatio := 1,
           innerWidth := 1280 } : Viewport ℝ)
        (DNAVisualization.construct DNAVisualization.defaultConfig)).centerX = 801 / 2 ∧
    (DNAVisualization.onResize
        ({ rectWidth := 1603 / 2, rectHeight := 2403 / 4, devicePixelRatio := 1,
           innerWidth := 1280 } : Viewport ℝ)
        (DNAVisualization.construct DNAVisualization.defaultConfig)).centerY = 300 := by
  obtain ⟨-, -, -, -, -, -, hw, hh, hx, hy, -, -⟩ :=
    (resize_keeps_helix_particles
      (JSMath.mk Real.sin Real.cos Real.sqrt Real.pi (fun _ => 0))
      ({ rectWidth := 1603 / 2, rectHeight := 2403 / 4, devicePixelRatio := 1,
         innerWidth := 1280 } : Viewport ℝ)).1
      (DNAVisualization.construct DNAVisualization.defaultConfig)
  have fw : Int.floor ((1603 : ℝ) / 2) = 801 := by
    rw [Int.floor_eq_iff]; constructor <;> norm_num
  have fh : Int.floor ((2403 : ℝ) / 4) = 600 := by
    rw [Int.floor_eq_iff]; constructor <;> norm_num
  have hw' := hw (by norm_num) (by norm_num)
  have hh' := hh (by norm_num) (by norm_num)
  rw [fw] at hw'
  rw [fh] at hh'
  refine ⟨by rw [hw']; norm_num, by rw [hh']; norm_num, by rw [hx, hw']; norm_num,
    by rw [hy, hh']; norm_num⟩

/-- C11: in `drawConnections` of every helix renderer a connector whose
`index1` or `index2` is at or beyond the particle array length issues no canvas
call, and the connectors before and after it are processed as if it were not
there; the function is total, so no error is raised. -/
theorem dangling_connector_skipped (M : JSMath α) (conn : Connection α) :
    (∀ s : DNAVisualization.State α,
      (s.particles.length ≤ conn.index1 ∨ s.particles.length ≤ conn.index2) →
      DNAVisualization.drawConnection M s conn = [] ∧
      ∀ before after : List (Connection α), s.connections = before ++ conn :: after →
        DNAVisualization.drawConnections M s =
          before.flatMap (DNAVisualization.drawConnection M s) ++ after.flatMap (DNAVisualization.drawConnection M s)) ∧
    (∀ s : HeroBackground3D.State α,
      (s.particles.length ≤ conn.index1 ∨ s.particles.length ≤ conn.index2) →
      HeroBackground3D.drawConnection M s conn = [] ∧
      ∀ before after : List (Connection α), s.connections = before ++ conn :: after →
        HeroBackground3D.drawConnections M s =
          before.flatMap (HeroBackground3D.drawConnection M s) ++ after.flatMap (HeroBackground3D.drawConnection M s)) ∧
    (∀ s : MolecularVisualization.State α,
      (s.particles.length ≤ conn.index1 ∨ s.particles.length ≤ conn.index2) →
      MolecularVisualization.drawConnection M s conn = [] ∧
      ∀ before after : List (Connection α), s.connections = before ++ conn :: after →
        MolecularVisualization.drawConnections M s =
          before.flatMap (MolecularVisualization.drawConnection M s) ++ after.flatMap (MolecularVisualization.drawConnection M s)) := by
  refine ⟨?_, ?_, ?_⟩
  · intro s h
    have h0 : DNAVisualization.drawConnection M s conn = [] := by
      unfold DNAVisualization.drawConnection
      rcases h with h | h
      · rw [List.getElem?_eq_none h]
      · rw [List.getElem?_eq_none h]
        cases s.particles[conn.index1]? <;> rfl
    refine ⟨h0, fun before after hc => ?_⟩
    unfold DNAVisualization.drawConnections
    rw [hc, List.flatMap_append, List.flatMap_cons, h0, List.nil_append]
  · intro s h
    have h0 : HeroBackground3D.drawConnection M s conn = [] := by
      unfold HeroBackground3D.drawConnection
      rcases h with h | h
      · rw [List.getElem?_eq_none h]
      · rw [List.getElem?_eq_none h]
        cases s.particles[conn.index1]? <;> rfl
    refine ⟨h0, fun before after hc => ?_⟩
    unfold HeroBackground3D.drawConnections
    rw [hc, List.flatMap_append, List.flatMap_cons, h0, List.nil_append]
  · intro s h
    have h0 : MolecularVisualization.drawConnection M s conn = [] := by
      unfold MolecularVisualization.drawConnection
      rcases h with h | h
      · rw [List.getElem?_eq_none h]
      · rw [List.getElem?_eq_none h]
        cases s.particles[conn.index1]? <;> rfl
    refine ⟨h0, fun before after hc => ?_⟩
    unfold MolecularVisualization.drawConnections
    rw [hc, List.flatMap_append, List.flatMap_cons, h0, List.nil_append]

/-- A witness of C11: a freshly constructed DNAVisualization has no particles,
so the connector (0, 1) draws nothing. -/
theorem dangling_connector_skipped_witness :
    DNAVisualization.drawConnection (JSMath.mk Real.sin Real.cos Real.sqrt Real.pi (fun _ => 0))
      (DNAVisualization.construct DNAVisualization.defaultConfig)
      { index1 := 0, index2 := 1, opacity := 1 / 2 } = [] :=
  ((dangling_connector_skipped (JSMath.mk Real.sin Real.cos Real.sqrt Real.pi (fun _ => 0))
    { index1 := 0, index2 := 1, opacity := 1 / 2 }).1
    (DNAVisualization.construct DNAVisualization.defaultConfig) (Or.inl (Nat.le_refl 0))).1

/-- C13: a connector of the connector array whose two endpoints exist is
skipped by `drawConnections` (it contributes no canvas call) if and only if the
projected `z` of at least one endpoint is strictly below the threshold (-100 in
DNAVisualization, -200 in HeroBackground3D and MolecularVisualization); with
both at or above the threshold `drawConnections` issues for it, between the
calls of the connectors before and after it, one line from the first projected
endpoint to the second. -/
theorem connector_culling (M : JSMath α) :
    (∀ (s : DNAVisualization.State α) (before after : List (Connection α)) (conn : Connection α)
        (p1 p2 : DNAVisualization.Particle α),
      s.connections = before ++ conn :: after →
      s.particles[conn.index1]? = some p1 → s.particles[conn.index2]? = some p2 →
      (DNAVisualization.drawConnection M s conn = [] ↔
        (DNAVisualization.getParticlePosition M s p1).z < -100 ∨ (DNAVisualization.getParticlePosition M s p2).z < -100) ∧
      (DNAVisualization.drawConnections M s =
          before.flatMap (DNAVisualization.drawConnection M s) ++ after.flatMap (DNAVisualization.drawConnection M s) ↔
        (DNAVisualization.getParticlePosition M s p1).z < -100 ∨ (DNAVisualization.getParticlePosition M s p2).z < -100) ∧
      (-100 ≤ (DNAVisualization.getParticlePosition M s p1).z → -100 ≤ (DNAVisualization.getParticlePosition M s p2).z →
        DNAVisualization.drawConnection M s conn =
          [ DrawOp.createLinearGradient (DNAVisualization.getParticlePosition M s p1).x (DNAVisualization.getParticlePosition M s p1).y
              (DNAVisualization.getParticlePosition M s p2).x (DNAVisualization.getParticlePosition M s p2).y,
            DrawOp.beginPath,
            DrawOp.moveTo (DNAVisualization.getParticlePosition M s p1).x (DNAVisualization.getParticlePosition M s p1).y,
            DrawOp.lineTo (DNAVisualization.getParticlePosition M s p2).x (DNAVisualization.getParticlePosition M s p2).y,
            DrawOp.stroke ] ∧
        DNAVisualization.drawConnections M s =
          before.flatMap (DNAVisualization.drawConnection M s) ++
          [ DrawOp.createLinearGradient (DNAVisualization.getParticlePosition M s p1).x (DNAVisualization.getParticlePosition M s p1).y
              (DNAVisualization.getParticlePosition M s p2).x (DNAVisualization.getParticlePosition M s p2).y,
            DrawOp.beginPath,
            DrawOp.moveTo (DNAVisualization.getParticlePosition M s p1).x (DNAVisualization.getParticlePosition M s p1).y,
            DrawOp.lineTo (DNAVisualization.getParticlePosition M s p2).x (DNAVisualization.getParticlePosition M s p2).y,
            DrawOp.stroke ] ++
          after.flatMap (DNAVisualization.drawConnection M s))) ∧
    (∀ (s : HeroBackground3D.State α) (before after : List (Connection α)) (conn : Connection α)
        (p1 p2 : HeroBackground3D.Particle α),
      s.connections = before ++ conn :: after →
      s.particles[conn.index1]? = some p1 → s.particles[conn.index2]? = some p2 →
      (HeroBackground3D.drawConnection M s conn = [] ↔
        (HeroBackground3D.getHelixPosition M s p1).z < -200 ∨ (HeroBackground3D.getHelixPosition M s p2).z < -200) ∧
      (HeroBackground3D.drawConnections M s =
          before.flatMap (HeroBackground3D.drawConnection M s) ++ after.flatMap (HeroBackground3D.drawConnection M s) ↔
        (HeroBackground3D.getHelixPosition M s p1).z < -200 ∨ (HeroBackground3D.getHelixPosition M s p2).z < -200) ∧
      (-200 ≤ (HeroBackground3D.getHelixPosition M s p1).z → -200 ≤ (HeroBackground3D.getHelixPosition M s p2).z →
        HeroBackground3D.drawConnection M s conn =
          [ DrawOp.beginPath,
            DrawOp.moveTo (HeroBackground3D.getHelixPosition M s p1).x (HeroBackground3D.getHelixPosition M s p1).y,
            DrawOp.lineTo (HeroBackground3D.getHelixPosition M s p2).x (HeroBackground3D.getHelixPosition M s p2).y,
            DrawOp.stroke ] ∧
        HeroBackground3D.drawConnections M s =
          before.flatMap (HeroBackground3D.drawConnection M s) ++
          [ DrawOp.beginPath,
            DrawOp.moveTo (HeroBackground3D.getHelixPosition M s p1).x (HeroBackground3D.getHelixPosition M s p1).y,
            DrawOp.lineTo (HeroBackground3D.getHelixPosition M s p2).x (HeroBackground3D.getHelixPosition M s p2).y,
            DrawOp.stroke ] ++
          after.flatMap (HeroBackground3D.drawConnection M s))) ∧
    (∀ (s : MolecularVisualization.State α) (before after : List (Connection α)) (conn : Connection α)
        (p1 p2 : MolecularVisualization.Particle α),
      s.connections = before ++ conn :: after →
      s.particles[conn.index1]? = some p1 → s.particles[conn.index2]? = some p2 →
      (MolecularVisualization.drawConnection M s conn = [] ↔
        (MolecularVisualization.getHelixPosition M s p1).z < -200 ∨ (MolecularVisualization.getHelixPosition M s p2).z < -200) ∧
      (MolecularVisualization.drawConnections M s =
          before.flatMap (MolecularVisualization.drawConnection M s) ++ after.flatMap (MolecularVisualization.drawConnection M s) ↔
        (MolecularVisualization.getHelixPosition M s p1).z < -200 ∨ (MolecularVisualization.getHelixPosition M s p2).z < -200) ∧
      (-200 ≤ (MolecularVisualization.getHelixPosition M s p1).z → -200 ≤ (MolecularVisualization.getHelixPosition M s p2).z →
        MolecularVisualization.drawConnection M s conn =
          [ DrawOp.beginPath,
            DrawOp.moveTo (MolecularVisualization.getHelixPosition M s p1).x (MolecularVisualization.getHelixPosition M s p1).y,
            DrawOp.lineTo (MolecularVisualization.getHelixPosition M s p2).x (MolecularVisualization.getHelixPosition M s p2).y,
            DrawOp.stroke ] ∧
        MolecularVisualization.drawConnections M s =
          before.flatMap (MolecularVisualization.drawConnection M s) ++
          [ DrawOp.beginPath,
            DrawOp.moveTo (MolecularVisualization.getHelixPosition M s p1).x (MolecularVisualization.getHelixPosition M s p1).y,
            DrawOp.lineTo (MolecularVisualization.getHelixPosition M s p2).x (MolecularVisualization.getHelixPosition M s p2).y,
            DrawOp.stroke ] ++
          after.flatMap (MolecularVisualization.drawConnection M s))) := by
  refine ⟨?_, ?_, ?_⟩
  · intro s before after conn p1 p2 hc h1 h2
    have hsplit : DNAVisualization.drawConnections M s =
        before.flatMap (DNAVisualization.drawConnection M s) ++ DNAVisualization.drawConnection M s conn ++
          after.flatMap (DNAVisualization.drawConnection M s) := by
      unfold DNAVisualization.drawConnections
      rw [hc, List.flatMap_append, List.flatMap_cons, List.append_assoc]
    have hiff : DNAVisualization.drawConnection M s conn = [] ↔
        (DNAVisualization.getParticlePosition M s p1).z < -100 ∨ (DNAVisualization.getParticlePosition M s p2).z < -100 := by
      unfold DNAVisualization.drawConnection
      rw [h1, h2]
      constructor
      · intro h
        by_contra hn
        simp [hn] at h
      · intro h
        simp [h]
    refine ⟨hiff, ?_, fun hz1 hz2 => ?_⟩
    · rw [← hiff, hsplit]
      constructor
      · intro h
        rw [List.append_assoc] at h
        have h' := List.append_cancel_left h
        exact List.append_left_eq_self.mp h'
      · intro h
        rw [h, List.append_nil]
    · have hn : ¬ ((DNAVisualization.getParticlePosition M s p1).z < -100 ∨ (DNAVisualization.getParticlePosition M s p2).z < -100) := by
        rintro (h | h) <;> linarith
      have hd : DNAVisualization.drawConnection M s conn =
          [ DrawOp.createLinearGradient (DNAVisualization.getParticlePosition M s p1).x (DNAVisualization.getParticlePosition M s p1).y
              (DNAVisualization.getParticlePosition M s p2).x (DNAVisualization.getParticlePosition M s p2).y,
            DrawOp.beginPath,
            DrawOp.moveTo (DNAVisualization.getParticlePosition M s p1).x (DNAVisualization.getParticlePosition M s p1).y,
            DrawOp.lineTo (DNAVisualization.getParticlePosition M s p2).x (DNAVisualization.getParticlePosition M s p2).y,
            DrawOp.stroke ] := by
        unfold DNAVisualization.drawConnection
        rw [h1, h2]
        simp only [hn, if_false]
      exact ⟨hd, by rw [hsplit, hd]⟩
  · intro s before after conn p1 p2 hc h1 h2
    have hsplit : HeroBackground3D.drawConnections M s =
        before.flatMap (HeroBackground3D.drawConnection M s) ++ HeroBackground3D.drawConnection M s conn ++
          after.flatMap (HeroBackground3D.drawConnection M s) := by
      unfold HeroBackground3D.drawConnections
      rw [hc, List.flatMap_append, List.flatMap_cons, List.append_assoc]
    have hiff : HeroBackground3D.drawConnection M s conn = [] ↔
        (HeroBackground3D.getHelixPosition M s p1).z < -200 ∨ (HeroBackground3D.getHelixPosition M s p2).z < -200 := by
      unfold HeroBackground3D.drawConnection
      rw [h1, h2]
      constructor
      · intro h
        by_contra hn
        simp [hn] at h
      · intro h
        simp [h]
    refine ⟨hiff, ?_, fun hz1 hz2 => ?_⟩
    · rw [← hiff, hsplit]
      constructor
      · intro h
        rw [List.append_assoc] at h
        have h' := List.append_cancel_left h
        exact List.append_left_eq_self.mp h'
      · intro h
        rw [h, List.append_nil]
    · have hn : ¬ ((HeroBackground3D.getHelixPosition M s p1).z < -200 ∨ (HeroBackground3D.getHelixPosition M s p2).z < -200) := by
        rintro (h | h) <;> linarith
      have hd : HeroBackground3D.drawConnection M s conn =
          [ DrawOp.beginPath,
            DrawOp.moveTo (HeroBackground3D.getHelixPosition M s p1).x (HeroBackground3D.getHelixPosition M s p1).y,
            DrawOp.lineTo (HeroBackground3D.getHelixPosition M s p2).x (HeroBackground3D.getHelixPosition M s p2).y,
            DrawOp.stroke ] := by
        unfold HeroBackground3D.drawConnection
        rw [h1, h2]
        simp only [hn, if_false]
      exact ⟨hd, by rw [hsplit, hd]⟩
  · intro s before after conn p1 p2 hc h1 h2
    have hsplit : MolecularVisualization.drawConnections M s =
        before.flatMap (MolecularVisualization.drawConnection M s) ++ MolecularVisualization.drawConnection M s conn ++
          after.flatMap (MolecularVisualization.drawConnection M s) := by
      unfold MolecularVisualization.drawConnections
      rw [hc, List.flatMap_append, List.flatMap_cons, List.append_assoc]
    have hiff : MolecularVisualization.drawConnection M s conn = [] ↔
        (MolecularVisualization.getHelixPosition M s p1).z < -200 ∨ (MolecularVisualization.getHelixPosition M s p2).z < -200 := by
      unfold MolecularVisualization.drawConnection
      rw [h1, h2]
      constructor
      · intro h
        by_contra hn
        simp [hn] at h
      · intro h
        simp [h]
    refine ⟨hiff, ?_, fun hz1 hz2 => ?_⟩
    · rw [← hiff, hsplit]
      constructor
      · intro h
        rw [List.append_assoc] at h
        have h' := List.append_cancel_left h
        exact List.append_left_eq_self.mp h'
      · intro h
        rw [h, List.append_nil]
    · have hn : ¬ ((MolecularVisualization.getHelixPosition M s p1).z < -200 ∨ (MolecularVisualization.getHelixPosition M s p2).z < -200) := by
        rintro (h | h) <;> linarith
      have hd : MolecularVisualization.drawConnection M s conn =
          [ DrawOp.beginPath,
            DrawOp.moveTo (MolecularVisualization.getHelixPosition M s p1).x (MolecularVisualization.getHelixPosition M s p1).y,
            DrawOp.lineTo (MolecularVisualization.getHelixPosition M s p2).x (MolecularVisualization.getHelixPosition M s p2).y,
            DrawOp.stroke ] := by
        unfold MolecularVisualization.drawConnection
        rw [h1, h2]
        simp only [hn, if_false]
      exact ⟨hd, by rw [hsplit, hd]⟩

/-- C12: after creation from a state without connectors (as left by the
constructor) with particle count `n`, there are exactly `ceil(n / step)`
connectors (step 3 in DNAVisualization and MolecularVisualization, 4 in
HeroBackground3D) and each is a valid rung: `index1 = 2i`, `index2 = 2i + 1`
for some `i < n` that is a multiple of the step, both below the particle array
length `2n`, `index1` a strand-0 particle and `index2` the strand-1 particle
with the same base height and a base angle larger by pi. -/
theorem connectors_are_valid_rungs (M : JSMath α) (n : Nat) (hn : 0 < n) :
    (∀ s : DNAVisualization.State α, s.connections = [] → s.config.particleCount = n →
      (DNAVisualization.createParticles M s).connections.length = (n + 2) / 3 ∧
      ∀ conn ∈ (DNAVisualization.createParticles M s).connections, ∃ i,
        i < n ∧ i % 3 = 0 ∧ conn.index1 = 2 * i ∧ conn.index2 = 2 * i + 1 ∧
        conn.index1 < (DNAVisualization.createParticles M s).particles.length ∧
        conn.index2 < (DNAVisualization.createParticles M s).particles.length ∧
        (DNAVisualization.createParticles M s).particles.length = 2 * n ∧
        ∃ p q, (DNAVisualization.createParticles M s).particles[conn.index1]? = some p ∧
          (DNAVisualization.createParticles M s).particles[conn.index2]? = some q ∧
          p.strand = 0 ∧ q.strand = 1 ∧ q.baseY = p.baseY ∧
          q.baseAngle = p.baseAngle + M.PI) ∧
    (∀ s : HeroBackground3D.State α, s.connections = [] → s.config.helixParticleCount = n →
      (HeroBackground3D.createHelixParticles M s).connections.length = (n + 3) / 4 ∧
      ∀ conn ∈ (HeroBackground3D.createHelixParticles M s).connections, ∃ i,
        i < n ∧ i % 4 = 0 ∧ conn.index1 = 2 * i ∧ conn.index2 = 2 * i + 1 ∧
        conn.index1 < (HeroBackground3D.createHelixParticles M s).particles.length ∧
        conn.index2 < (HeroBackground3D.createHelixParticles M s).particles.length ∧
        (HeroBackground3D.createHelixParticles M s).particles.length = 2 * n ∧
        ∃ p q, (HeroBackground3D.createHelixParticles M s).particles[conn.index1]? = some p ∧
          (HeroBackground3D.createHelixParticles M s).particles[conn.index2]? = some q ∧
          p.strand = 0 ∧ q.strand = 1 ∧ q.baseY = p.baseY ∧
          q.baseAngle = p.baseAngle + M.PI) ∧
    (∀ s : MolecularVisualization.State α, s.connections = [] → s.config.helixParticleCount = n →
      (MolecularVisualization.createHelixParticles M s).connections.length = (n + 2) / 3 ∧
      ∀ conn ∈ (MolecularVisualization.createHelixParticles M s).connections, ∃ i,
        i < n ∧ i % 3 = 0 ∧ conn.index1 = 2 * i ∧ conn.index2 = 2 * i + 1 ∧
        conn.index1 < (MolecularVisualization.createHelixParticles M s).particles.length ∧
        conn.index2 < (MolecularVisualization.createHelixParticles M s).particles.length ∧
        (MolecularVisualization.createHelixParticles M s).particles.length = 2 * n ∧
        ∃ p q, (MolecularVisualization.createHelixParticles M s).particles[conn.index1]? = some p ∧
          (MolecularVisualization.createHelixParticles M s).particles[conn.index2]? = some q ∧
          p.strand = 0 ∧ q.strand = 1 ∧ q.baseY = p.baseY ∧
          q.baseAngle = p.baseAngle + M.PI) := by
  refine ⟨?_, ?_, ?_⟩
  · intro s hc hs
    subst hs
    have hmap := DNAVisualization.created_connections_dna M s hc
    have hlen : (DNAVisualization.createParticles M s).particles.length = 2 * s.config.particleCount := by
      rw [DNAVisualization.created_particles_dna]
      exact length_flatMap_pairs _ (fun _ => by rfl) _
    refine ⟨?_, fun conn hconn => ?_⟩
    · have h := congrArg List.length hmap
      rw [List.length_map, List.length_map, length_steps_three] at h
      exact h
    · have hm : (conn.index1, conn.index2) ∈
          (DNAVisualization.createParticles M s).connections.map (fun c => (c.index1, c.index2)) :=
        List.mem_map.mpr ⟨conn, hconn, rfl⟩
      rw [hmap] at hm
      obtain ⟨i, hi, he⟩ := List.mem_map.mp hm
      obtain ⟨hin, himod⟩ := mem_steps hi
      have e1 : conn.index1 = 2 * i := by
        have := congrArg Prod.fst he
        simp only at this
        omega
      have e2 : conn.index2 = 2 * i + 1 := by
        have := congrArg Prod.snd he
        simp only at this
        omega
      obtain ⟨g1, g2⟩ := DNAVisualization.created_getElem_dna M s i hin
      refine ⟨i, hin, himod, e1, e2, by omega, by omega, hlen, ?_⟩
      rw [e1, e2]
      exact ⟨_, _, g1, g2, rfl, rfl, rfl, rfl⟩
  · intro s hc hs
    subst hs
    have hmap := HeroBackground3D.created_connections_hero M s hc
    have hlen : (HeroBackground3D.createHelixParticles M s).particles.length = 2 * s.config.helixParticleCount := by
      rw [HeroBackground3D.created_particles_hero]
      exact length_flatMap_pairs _ (fun _ => by rfl) _
    refine ⟨?_, fun conn hconn => ?_⟩
    · have h := congrArg List.length hmap
      rw [List.length_map, List.length_map, length_steps_four] at h
      exact h
    · have hm : (conn.index1, conn.index2) ∈
          (HeroBackground3D.createHelixParticles M s).connections.map (fun c => (c.index1, c.index2)) :=
        List.mem_map.mpr ⟨conn, hconn, rfl⟩
      rw [hmap] at hm
      obtain ⟨i, hi, he⟩ := List.mem_map.mp hm
      obtain ⟨hin, himod⟩ := mem_steps hi
      have e1 : conn.index1 = 2 * i := by
        have := congrArg Prod.fst he
        simp only at this
        omega
      have e2 : conn.index2 = 2 * i + 1 := by
        have := congrArg Prod.snd he
        simp only at this
        omega
      obtain ⟨g1, g2⟩ := HeroBackground3D.created_getElem_hero M s i hin
      refine ⟨i, hin, himod, e1, e2, by omega, by omega, hlen, ?_⟩
      rw [e1, e2]
      exact ⟨_, _, g1, g2, rfl, rfl, rfl, rfl⟩
  · intro s hc hs
    subst hs
    have hmap := MolecularVisualization.created_connections_molecular M s
    have hlen : (MolecularVisualization.createHelixParticles M s).particles.length = 2 * s.config.helixParticleCount := by
      rw [MolecularVisualization.created_particles_molecular]
      exact length_flatMap_pairs _ (fun _ => by rfl) _
    refine ⟨?_, fun conn hconn => ?_⟩
    · have h := congrArg List.length hmap
      rw [List.length_map, List.length_map, length_steps_three] at h
      exact h
    · have hm : (conn.index1, conn.index2) ∈
          (MolecularVisualization.createHelixParticles M s).connections.map (fun c => (c.index1, c.index2)) :=
        List.mem_map.mpr ⟨conn, hconn, rfl⟩
      rw [hmap] at hm
      obtain ⟨i, hi, he⟩ := List.mem_map.mp hm
      obtain ⟨hin, himod⟩ := mem_steps hi
      have e1 : conn.index1 = 2 * i := by
        have := congrArg Prod.fst he
        simp only at this
        omega
      have e2 : conn.index2 = 2 * i + 1 := by
        have := congrArg Prod.snd he
        simp only at this
        omega
      obtain ⟨g1, g2⟩ := MolecularVisualization.created_getElem_molecular M s i hin
      refine ⟨i, hin, himod, e1, e2, by omega, by omega, hlen, ?_⟩
      rw [e1, e2]
      exact ⟨_, _, g1, g2, rfl, rfl, rfl, rfl⟩

/-- A witness of C12: the DNAVisualization constructor state with the default
count of 60 gets 20 connectors. -/
theorem connectors_are_valid_rungs_witness :
    (DNAVisualization.createParticles (JSMath.mk Real.sin Real.cos Real.sqrt Real.pi (fun _ => 0))
      (DNAVisualization.construct DNAVisualization.defaultConfig)).connections.length
      = (60 + 2) / 3 :=
  ((connectors_are_valid_rungs (JSMath.mk Real.sin Real.cos Real.sqrt Real.pi (fun _ => 0)) 60
    (by decide)).1 (DNAVisualization.construct DNAVisualization.defaultConfig) rfl rfl).1

/-- C14 (as stated, refuted): there is no single dampening function applied to
the pointer offset on both axes.  For a particle at base height 0 the
horizontal offset is multiplied by 1 while the vertical offset is multiplied
by 0.3 in DNAVisualization and by 0.5 in HeroBackground3D. -/
theorem no_common_dampening :
    (¬ ∃ d : ℝ → ℝ, ∀ (s : DNAVisualization.State ℝ) (p : DNAVisualization.Particle ℝ),
      (DNAVisualization.getParticlePosition
          (JSMath.mk Real.sin Real.cos Real.sqrt Real.pi (fun _ => 0)) s p).x =
        s.centerX + (Real.cos (p.baseAngle + s.time) *
            (s.config.helixRadius +
              Real.sin (p.baseY * s.config.waveFrequency + s.time * 2) * s.config.waveAmplitude)
          + s.mouseX / 5 * d p.baseY) *
          (DNAVisualization.getParticlePosition
            (JSMath.mk Real.sin Real.cos Real.sqrt Real.pi (fun _ => 0)) s p).scale ∧
      (DNAVisualization.getParticlePosition
          (JSMath.mk Real.sin Real.cos Real.sqrt Real.pi (fun _ => 0)) s p).y =
        s.centerY + (p.baseY + s.mouseY / 5 * d p.baseY) *
          (DNAVisualization.getParticlePosition
            (JSMath.mk Real.sin Real.cos Real.sqrt Real.pi (fun _ => 0)) s p).scale) ∧
    (¬ ∃ d : ℝ → ℝ, ∀ (s : HeroBackground3D.State ℝ) (p : HeroBackground3D.Particle ℝ),
      (HeroBackground3D.getHelixPosition
          (JSMath.mk Real.sin Real.cos Real.sqrt Real.pi (fun _ => 0)) s p).x =
        s.helixOffsetX + (Real.cos (p.baseAngle + s.time) *
            (s.config.helixRadius +
              Real.sin (p.baseY * s.config.waveFrequency + s.time * 2) * s.config.waveAmplitude)
          + s.mouse.x * (s.config.mouseInfluence * 100) * d p.baseY) *
          (HeroBackground3D.getHelixPosition
            (JSMath.mk Real.sin Real.cos Real.sqrt Real.pi (fun _ => 0)) s p).scale ∧
      (HeroBackground3D.getHelixPosition
          (JSMath.mk Real.sin Real.cos Real.sqrt Real.pi (fun _ => 0)) s p).y =
        s.helixOffsetY + (p.baseY + s.mouse.y * (s.config.mouseInfluence * 100) * d p.baseY) *
          (HeroBackground3D.getHelixPosition
            (JSMath.mk Real.sin Real.cos Real.sqrt Real.pi (fun _ => 0)) s p).scale) := by
  constructor
  · rintro ⟨d, h⟩
    obtain ⟨hx, hy⟩ := h
      { DNAVisualization.construct (DNAVisualization.defaultConfig : DNAVisualization.Config ℝ) with
        mouseX := 5, mouseY := 5 }
      { baseAngle := 0, baseY := 0, strand := 0, size := 2, pulseOffset := 0, color := "#00d4ff" }
    simp only [DNAVisualization.getParticlePosition, DNAVisualization.construct,
      DNAVisualization.defaultConfig, projectionScale] at hx hy
    norm_num at hx hy
    linarith
  · rintro ⟨d, h⟩
    obtain ⟨hx, hy⟩ := h
      { HeroBackground3D.construct (HeroBackground3D.defaultConfig : HeroBackground3D.Config ℝ)
          ({ rectWidth := 1280, rectHeight := 720, devicePixelRatio := 1, innerWidth := 1280 } :
            Viewport ℝ) with
        mouse := { x := 1, y := 1, targetX := 1, targetY := 1 } }
      { baseAngle := 0, baseY := 0, strand := 0, size := 2, pulseOffset := 0, brightness := 1 }
    simp only [HeroBackground3D.getHelixPosition, HeroBackground3D.construct,
      HeroBackground3D.defaultConfig, projectionScale] at hx hy
    norm_num at hx hy
    linarith

/-- C14 (amended): the pointer offset enters the horizontal coordinate through
the height-dependent factor `1 - |y0| / 200` (DNAVisualization) or
`1 - |y0| / 300` (HeroBackground3D) and the vertical coordinate through a
constant factor, 0.3 or 0.5, that does not depend on the height. -/
theorem pointer_offset_per_axis (M : JSMath α) :
    (∀ (s : DNAVisualization.State α) (p : DNAVisualization.Particle α),
      (DNAVisualization.getParticlePosition M s p).x =
        s.centerX + (M.cos (p.baseAngle + s.time) *
            (s.config.helixRadius +
              M.sin (p.baseY * s.config.waveFrequency + s.time * 2) * s.config.waveAmplitude)
          + s.mouseX / 5 * (1 - |p.baseY| / 200)) *
          (DNAVisualization.getParticlePosition M s p).scale ∧
      (DNAVisualization.getParticlePosition M s p).y =
        s.centerY + (p.baseY + s.mouseY / 5 * (3 / 10)) *
          (DNAVisualization.getParticlePosition M s p).scale) ∧
    (∀ (s : HeroBackground3D.State α) (p : HeroBackground3D.Particle α),
      (HeroBackground3D.getHelixPosition M s p).x =
        s.helixOffsetX + (M.cos (p.baseAngle + s.time) *
            (s.config.helixRadius +
              M.sin (p.baseY * s.config.waveFrequency + s.time * 2) * s.config.waveAmplitude)
          + s.mouse.x * (s.config.mouseInfluence * 100) * (1 - |p.baseY| / 300)) *
          (HeroBackground3D.getHelixPosition M s p).scale ∧
      (HeroBackground3D.getHelixPosition M s p).y =
        s.helixOffsetY + (p.baseY + s.mouse.y * (s.config.mouseInfluence * 100) * (1 / 2)) *
          (HeroBackground3D.getHelixPosition M s p).scale) :=
  ⟨fun _ _ => ⟨rfl, rfl⟩, fun _ _ => ⟨rfl, rfl⟩⟩

/-- C15: for every particle produced by creation with the default helix height
(400 in DNAVisualization, 600 in HeroBackground3D) the horizontal pointer
factor `1 - |y0| / 200`, respectively `1 - |y0| / 300`, which multiplies the
pointer offset in the projection, lies in `[0, 1]` and equals 1 only at
`y0 = 0`; the factor is non-increasing in `|y0|`. -/
theorem horizontal_dampening_range (M : JSMath α) :
    (∀ (s : DNAVisualization.State α), s.config.helixHeight = 400 →
      ∀ p ∈ (DNAVisualization.createParticles M s).particles,
        0 ≤ 1 - |p.baseY| / 200 ∧ 1 - |p.baseY| / 200 ≤ 1 ∧
        (1 - |p.baseY| / 200 = 1 ↔ p.baseY = 0) ∧
        ∀ t : DNAVisualization.State α, (DNAVisualization.getParticlePosition M t p).x =
          t.centerX + (M.cos (p.baseAngle + t.time) *
              (t.config.helixRadius +
                M.sin (p.baseY * t.config.waveFrequency + t.time * 2) * t.config.waveAmplitude)
            + t.mouseX / 5 * (1 - |p.baseY| / 200)) *
            (DNAVisualization.getParticlePosition M t p).scale) ∧
    (∀ (s : HeroBackground3D.State α), s.config.helixHeight = 600 →
      ∀ p ∈ (HeroBackground3D.createHelixParticles M s).particles,
        0 ≤ 1 - |p.baseY| / 300 ∧ 1 - |p.baseY| / 300 ≤ 1 ∧
        (1 - |p.baseY| / 300 = 1 ↔ p.baseY = 0) ∧
        ∀ t : HeroBackground3D.State α, (HeroBackground3D.getHelixPosition M t p).x =
          t.helixOffsetX + (M.cos (p.baseAngle + t.time) *
              (t.config.helixRadius +
                M.sin (p.baseY * t.config.waveFrequency + t.time * 2) * t.config.waveAmplitude)
            + t.mouse.x * (t.config.mouseInfluence * 100) * (1 - |p.baseY| / 300)) *
            (HeroBackground3D.getHelixPosition M t p).scale) ∧
    (∀ y y' : α, |y| ≤ |y'| →
      1 - |y'| / 200 ≤ 1 - |y| / 200 ∧ 1 - |y'| / 300 ≤ 1 - |y| / 300) := by
  refine ⟨fun s hH p hp => ?_, fun s hH p hp => ?_, fun y y' h => ?_⟩
  · obtain ⟨i, hi, hy⟩ := DNAVisualization.created_baseY_dna M s p hp
    have hb := abs_centered_le (by norm_num : (0 : α) ≤ 400) i _ hi
    rw [hH] at hy
    rw [← hy] at hb
    have h0 := abs_nonneg p.baseY
    refine ⟨by linarith, by linarith, ⟨fun h => ?_, fun h => by rw [h]; simp⟩, fun _ => rfl⟩
    exact abs_eq_zero.mp (by linarith)
  · obtain ⟨i, hi, hy⟩ := HeroBackground3D.created_baseY_hero M s p hp
    have hb := abs_centered_le (by norm_num : (0 : α) ≤ 600) i _ hi
    rw [hH] at hy
    rw [← hy] at hb
    have h0 := abs_nonneg p.baseY
    refine ⟨by linarith, by linarith, ⟨fun h => ?_, fun h => by rw [h]; simp⟩, fun _ => rfl⟩
    exact abs_eq_zero.mp (by linarith)
  · constructor <;> linarith

/-- A witness of C15: the first particle created by the default
DNAVisualization has a factor of at least 0. -/
theorem horizontal_dampening_range_witness :
    ∃ p ∈ (DNAVisualization.createParticles
        (JSMath.mk Real.sin Real.cos Real.sqrt Real.pi (fun _ => 0))
        (DNAVisualization.construct DNAVisualization.defaultConfig)).particles,
      0 ≤ 1 - |p.baseY| / 200 := by
  obtain ⟨g, -⟩ := DNAVisualization.created_getElem_dna
    (JSMath.mk Real.sin Real.cos Real.sqrt Real.pi (fun _ => 0))
    (DNAVisualization.construct (DNAVisualization.defaultConfig : DNAVisualization.Config ℝ))
    0 (by decide)
  have hm := List.getElem?_mem g
  exact ⟨_, hm, ((horizontal_dampening_range
    (JSMath.mk Real.sin Real.cos Real.sqrt Real.pi (fun _ => 0))).1
    (DNAVisualization.construct DNAVisualization.defaultConfig) rfl _ hm).1⟩

/-- C16: a frame tick leaves the helix particle array and the connector array
of every helix renderer exactly as they were (same elements in the same
order, hence the same fields), together with the configuration; a running
tick changes only the time value, the smoothed pointer and, in
HeroBackground3D and MolecularVisualization, the floating particles. -/
theorem frame_tick_keeps_helix_arrays (M : JSMath α) :
    (∀ s : DNAVisualization.State α,
      (DNAVisualization.animate M s).1.particles = s.particles ∧
      (DNAVisualization.animate M s).1.connections = s.connections ∧
      (DNAVisualization.animate M s).1.config = s.config ∧
      (s.isRunning = true → (DNAVisualization.animate M s).1 =
        { s with
          time := s.time + s.config.rotationSpeed
          mouseX := lerp s.mouseX s.targetMouseX (1 / 10)
          mouseY := lerp s.mouseY s.targetMouseY (1 / 10) })) ∧
    (∀ s : HeroBackground3D.State α,
      (HeroBackground3D.animate M s).1.particles = s.particles ∧
      (HeroBackground3D.animate M s).1.connections = s.connections ∧
      (HeroBackground3D.animate M s).1.config = s.config ∧
      (s.isRunning = true → (HeroBackground3D.animate M s).1 =
        { s with
          time := s.time + s.config.rotationSpeed
          mouse := { s.mouse with
            x := lerp s.mouse.x s.mouse.targetX s.config.mouseLerp
            y := lerp s.mouse.y s.mouse.targetY s.config.mouseLerp }
          floatingParticles := (HeroBackground3D.animate M s).1.floatingParticles })) ∧
    (∀ s : MolecularVisualization.State α,
      (MolecularVisualization.animate M s).1.particles = s.particles ∧
      (MolecularVisualization.animate M s).1.connections = s.connections ∧
      (MolecularVisualization.animate M s).1.config = s.config ∧
      (s.isRunning = true → (MolecularVisualization.animate M s).1 =
        { s with
          time := s.time + 16 / 1000
          mouse := { s.mouse with
            x := s.mouse.x + (s.mouse.targetX - s.mouse.x) * s.config.mouseLerp
            y := s.mouse.y + (s.mouse.targetY - s.mouse.y) * s.config.mouseLerp }
          floatingParticles := (MolecularVisualization.animate M s).1.floatingParticles })) := by
  refine ⟨fun s => ?_, fun s => ?_, fun s => ?_⟩
  · refine ⟨?_, ?_, ?_, fun h => DNAVisualization.animate_running_dna M s h⟩ <;>
      (unfold DNAVisualization.animate; split <;> rfl)
  · refine ⟨?_, ?_, ?_, fun h => ?_⟩
    · unfold HeroBackground3D.animate; split <;> rfl
    · unfold HeroBackground3D.animate; split <;> rfl
    · unfold HeroBackground3D.animate; split <;> rfl
    · simp [HeroBackground3D.animate, HeroBackground3D.drawFloatingParticles, h]
  · refine ⟨?_, ?_, ?_, fun h => ?_⟩
    · unfold MolecularVisualization.animate; split <;> rfl
    · unfold MolecularVisualization.animate; split <;> rfl
    · unfold MolecularVisualization.animate; split <;> rfl
    · simp [MolecularVisualization.animate, MolecularVisualization.drawFloatingParticles, h]

/-- A witness of C16: one frame of the freshly constructed DNAVisualization
moves only the time (the pointer is at its target). -/
theorem frame_tick_keeps_helix_arrays_witness :
    (DNAVisualization.animate (JSMath.mk Real.sin Real.cos Real.sqrt Real.pi (fun _ => 0))
      (DNAVisualization.construct DNAVisualization.defaultConfig)).1 =
      { DNAVisualization.construct DNAVisualization.defaultConfig with
        time := 0 + 8 / 1000
        mouseX := lerp 0 0 (1 / 10)
        mouseY := lerp 0 0 (1 / 10) } :=
  ((frame_tick_keeps_helix_arrays (JSMath.mk Real.sin Real.cos Real.sqrt Real.pi (fun _ => 0))).1
    (DNAVisualization.construct DNAVisualization.defaultConfig)).2.2.2 rfl

/-- C17: after a page-visibility event the `isRunning` flag equals the
negation of `document.hidden`, and a frame tick taken while `isRunning` is
false returns the state unchanged and issues no canvas call. -/
theorem paused_tick_is_noop (M : JSMath α) (hidden : Bool) :
    (∀ s : DNAVisualization.State α,
      (DNAVisualization.onVisibilityChange hidden s).isRunning = !hidden ∧
      (s.isRunning = false → DNAVisualization.animate M s = (s, []))) ∧
    (∀ s : HeroBackground3D.State α,
      (HeroBackground3D.onVisibilityChange hidden s).isRunning = !hidden ∧
      (s.isRunning = false → HeroBackground3D.animate M s = (s, []))) ∧
    (∀ s : MolecularVisualization.State α,
      (MolecularVisualization.onVisibilityChange M hidden s).1.isRunning = !hidden ∧
      (hidden = true → MolecularVisualization.onVisibilityChange M hidden s =
        ({ s with isRunning := false }, [])) ∧
      (s.isRunning = false → MolecularVisualization.animate M s = (s, []))) := by
  refine ⟨fun s => ⟨rfl, fun h => ?_⟩, fun s => ⟨rfl, fun h => ?_⟩,
    fun s => ⟨?_, fun h => ?_, fun h => ?_⟩⟩
  · simp [DNAVisualization.animate, h]
  · simp [HeroBackground3D.animate, h]
  · cases hidden <;>
      simp [MolecularVisualization.onVisibilityChange, MolecularVisualization.animate,
        MolecularVisualization.drawFloatingParticles]
  · subst h
    simp [MolecularVisualization.onVisibilityChange]
  · simp [MolecularVisualization.animate, h]

/-- A witness of C17: hiding the page pauses a DNAVisualization, and the next
tick leaves it untouched. -/
theorem paused_tick_is_noop_witness :
    DNAVisualization.animate (JSMath.mk Real.sin Real.cos Real.sqrt Real.pi (fun _ => 0))
      (DNAVisualization.onVisibilityChange true
        (DNAVisualization.construct DNAVisualization.defaultConfig)) =
      (DNAVisualization.onVisibilityChange true
        (DNAVisualization.construct DNAVisualization.defaultConfig), []) :=
  ((paused_tick_is_noop (JSMath.mk Real.sin Real.cos Real.sqrt Real.pi (fun _ => 0)) true).1
    (DNAVisualization.onVisibilityChange true
      (DNAVisualization.construct DNAVisualization.defaultConfig))).2 rfl

/-- C18: a DNAAnalysisBox whose container has no canvas element initialises
without raising and without creating particles or drawing; every later
`animate` call returns the state unchanged with no canvas call; the resize
listener does not call `resize()` (which would raise) and changes nothing;
a visibility change only sets the flag. -/
theorem missing_canvas_skips_draw (M : JSMath α) (v : Viewport α) :
    (∀ contextOk, DNAAnalysisBox.init M v contextOk (DNAAnalysisBox.construct false) =
      some (DNAAnalysisBox.construct false, [])) ∧
    (DNAAnalysisBox.construct false : DNAAnalysisBox.State α).particles = [] ∧
    (DNAAnalysisBox.construct false : DNAAnalysisBox.State α).hasCtx = false ∧
    (∀ s : DNAAnalysisBox.State α, s.hasCtx = false → DNAAnalysisBox.animate M s = (s, [])) ∧
    (∀ s : DNAAnalysisBox.State α, s.hasCanvas = false →
      DNAAnalysisBox.onResize v s = some s ∧ DNAAnalysisBox.resize v s = none) ∧
    (∀ (s : DNAAnalysisBox.State α) (hidden : Bool), s.hasCtx = false →
      DNAAnalysisBox.onVisibilityChange M hidden s = ({ s with isRunning := !hidden }, [])) := by
  refine ⟨fun _ => rfl, rfl, rfl, fun s h => ?_, fun s h => ⟨?_, ?_⟩, fun s hidden h => ?_⟩
  · simp [DNAAnalysisBox.animate, h]
  · simp [DNAAnalysisBox.onResize, h]
  · simp [DNAAnalysisBox.resize, h]
  · cases hidden <;> simp [DNAAnalysisBox.onVisibilityChange, DNAAnalysisBox.animate, h]

/-- A witness of C18: the box constructed without a canvas is unchanged by a
frame tick. -/
theorem missing_canvas_skips_draw_witness :
    DNAAnalysisBox.animate (JSMath.mk Real.sin Real.cos Real.sqrt Real.pi (fun _ => 0))
      (DNAAnalysisBox.construct false) = (DNAAnalysisBox.construct false, []) :=
  (missing_canvas_skips_draw (JSMath.mk Real.sin Real.cos Real.sqrt Real.pi (fun _ => 0))
    { rectWidth := 800, rectHeight := 600, devicePixelRatio := 1, innerWidth := 1280 }).2.2.2.1
    (DNAAnalysisBox.construct false) rfl

/-- C19 (the code at a failing input): for a form without a submit control
`handleSubmit` raises a `TypeError`, both when its only input is invalid (a
required field left empty) and when it is valid. -/
theorem handleSubmit_raises_without_submit_control :
    FormValidation.handleSubmit
      { inputs := [{ required := true, value := "", type := "text", wrapper := 0 }]
        wrappers := [{ classList := [], errorMessages := [] }]
        submitBtn := none
        defaultPrevented := false } =
      Except.error "TypeError: Cannot read properties of null (reading 'classList')" ∧
    FormValidation.handleSubmit
      { inputs := [{ required := true, value := "Ana", type := "text", wrapper := 0 }]
        wrappers := [{ classList := [], errorMessages := [] }]
        submitBtn := none
        defaultPrevented := false } =
      Except.error "TypeError: Cannot read properties of null (reading 'classList')" ∧
    (FormValidation.validateInput
      { inputs := [{ required := true, value := "", type := "text", wrapper := 0 }]
        wrappers := [{ classList := [], errorMessages := [] }]
        submitBtn := none
        defaultPrevented := false }
      { required := true, value := "", type := "text", wrapper := 0 }).2 = false ∧
    (FormValidation.validateInput
      { inputs := [{ required := true, value := "Ana", type := "text", wrapper := 0 }]
        wrappers := [{ classList := [], errorMessages := [] }]
        submitBtn := none
        defaultPrevented := false }
      { required := true, value := "Ana", type := "text", wrapper := 0 }).2 = true :=
  ⟨FormValidation.handleSubmit_raises_of_no_button _ rfl,
    FormValidation.handleSubmit_raises_of_no_button _ rfl, by decide, by decide⟩

/-- C20: for a target `>= 0`, a duration `> 0` and elapsed times
`0 <= e1 <= e2`, the value computed by `updateCounter`,
`target * ease(min(e / duration, 1))` with `ease(p) = 1 - 2^(-10 p)` for
`p < 1` and `ease(1) = 1`, satisfies
`0 = value(0) <= value(e1) <= value(e2) <= target`; for `e >= duration` the
value is exactly the target and no further frame is requested, and for
`e < duration` another frame is requested. -/
theorem counter_monotone_and_lands (c : AnimatedCounter.State ℝ) (start e1 e2 : ℝ)
    (ht : 0 ≤ c.target) (hd : 0 < c.duration) (h1 : 0 ≤ e1) (h12 : e1 ≤ e2) :
    (AnimatedCounter.updateCounter (fun x y : ℝ => x ^ y) c start (start + 0)).1 = 0 ∧
    0 ≤ (AnimatedCounter.updateCounter (fun x y : ℝ => x ^ y) c start (start + e1)).1 ∧
    (AnimatedCounter.updateCounter (fun x y : ℝ => x ^ y) c start (start + e1)).1 ≤
      (AnimatedCounter.updateCounter (fun x y : ℝ => x ^ y) c start (start + e2)).1 ∧
    (AnimatedCounter.updateCounter (fun x y : ℝ => x ^ y) c start (start + e2)).1 ≤ c.target ∧
    (∀ e, c.duration ≤ e →
      (AnimatedCounter.updateCounter (fun x y : ℝ => x ^ y) c start (start + e)).1 = c.target ∧
      (AnimatedCounter.updateCounter (fun x y : ℝ => x ^ y) c start (start + e)).2 = false) ∧
    (∀ e, e < c.duration →
      (AnimatedCounter.updateCounter (fun x y : ℝ => x ^ y) c start (start + e)).2 = true) ∧
    (∀ e, (AnimatedCounter.updateCounter (fun x y : ℝ => x ^ y) c start (start + e)).1 =
      c.target * AnimatedCounter.easeOutExpo (fun x y : ℝ => x ^ y) (min (e / c.duration) 1)) ∧
    (∀ p : ℝ, p < 1 →
      AnimatedCounter.easeOutExpo (fun x y : ℝ => x ^ y) p = 1 - (2 : ℝ) ^ (-10 * p)) ∧
    AnimatedCounter.easeOutExpo (fun x y : ℝ => x ^ y) 1 = 1 := by
  have hp1 : 0 ≤ min (e1 / c.duration) 1 := le_min (div_nonneg h1 hd.le) zero_le_one
  have hp12 : min (e1 / c.duration) 1 ≤ min (e2 / c.duration) 1 :=
    min_le_min (div_le_div_of_nonneg_right h12 hd.le) le_rfl
  refine ⟨?_, ?_, ?_, ?_, fun e he => ⟨?_, ?_⟩, fun e he => ?_,
    fun e => (AnimatedCounter.updateCounter_value c start e).1,
    fun p hp => AnimatedCounter.ease_of_ne_one p (ne_of_lt hp), AnimatedCounter.ease_one⟩
  · rw [(AnimatedCounter.updateCounter_value c start 0).1, zero_div,
      min_eq_left (zero_le_one), AnimatedCounter.ease_zero, mul_zero]
  · rw [(AnimatedCounter.updateCounter_value c start e1).1]
    exact mul_nonneg ht (AnimatedCounter.ease_bounds _ hp1).1
  · rw [(AnimatedCounter.updateCounter_value c start e1).1,
      (AnimatedCounter.updateCounter_value c start e2).1]
    exact mul_le_mul_of_nonneg_left
      (AnimatedCounter.ease_mono _ _ hp1 hp12 (min_le_right _ _)) ht
  · rw [(AnimatedCounter.updateCounter_value c start e2).1]
    exact mul_le_of_le_one_right ht (AnimatedCounter.ease_bounds _ (le_trans hp1 hp12)).2
  · have hm : min (e / c.duration) 1 = 1 := min_eq_right ((one_le_div hd).mpr he)
    rw [(AnimatedCounter.updateCounter_value c start e).1, hm, AnimatedCounter.ease_one, mul_one]
  · have hm : min (e / c.duration) 1 = 1 := min_eq_right ((one_le_div hd).mpr he)
    have h := (AnimatedCounter.updateCounter_value c start e).2
    rw [hm] at h
    cases hb : (AnimatedCounter.updateCounter (fun x y : ℝ => x ^ y) c start (start + e)).2
    · rfl
    · exact absurd (h.mp hb) (lt_irrefl 1)
  · apply (AnimatedCounter.updateCounter_value c start e).2.mpr
    exact lt_of_le_of_lt (min_le_left _ _) ((div_lt_one hd).mpr he)

/-- A witness of C20: a counter to 100 over 2000 ms shows at most 100 after
2000 ms. -/
theorem counter_monotone_and_lands_witness :
    (AnimatedCounter.updateCounter (fun x y : ℝ => x ^ y)
      (AnimatedCounter.construct 100 2000 0) 0 (0 + 2000)).1 ≤
      (AnimatedCounter.construct (100 : ℝ) 2000 0).target :=
  (counter_monotone_and_lands (AnimatedCounter.construct 100 2000 0) 0 0 2000
    (by norm_num [AnimatedCounter.construct]) (by norm_num [AnimatedCounter.construct])
    le_rfl (by norm_num)).2.2.2.1

/-- C21: after a click on a wired trigger at most one item is active; a click
on a closed item leaves exactly that item active, with its content opened to
its scroll height, and every other content at max-height 0; a click on the
open item leaves no item active. -/
theorem accordion_at_most_one_open (items : List FAQAccordion.Item) (k : Nat)
    (item : FAQAccordion.Item) (hk : items[k]? = some item)
    (hw : FAQAccordion.isWired item = true) :
    (FAQAccordion.onClick items k).countP (fun it => it.active) ≤ 1 ∧
    (FAQAccordion.onClick items k).length = items.length ∧
    (item.active = false →
      (FAQAccordion.onClick items k)[k]? =
        some (FAQAccordion.openItem (FAQAccordion.closeItem item)) ∧
      (FAQAccordion.openItem (FAQAccordion.closeItem item)).active = true ∧
      (∀ j other, j ≠ k → items[j]? = some other →
        (FAQAccordion.onClick items k)[j]? = some (FAQAccordion.closeItem other) ∧
        (FAQAccordion.closeItem other).active = false ∧
        ∀ c, (FAQAccordion.closeItem other).content = some c → c.maxHeight = some "0") ∧
      (FAQAccordion.onClick items k).countP (fun it => it.active) = 1) ∧
    (item.active = true →
      (∀ it ∈ FAQAccordion.onClick items k, it.active = false) ∧
      ∀ it ∈ FAQAccordion.onClick items k, ∀ c, it.content = some c → c.maxHeight = some "0") := by
  have hlt : k < items.length := by
    rcases Nat.lt_or_ge k items.length with h | h
    · exact h
    · rw [List.getElem?_eq_none h] at hk; cases hk
  have hclosedContent : ∀ other : FAQAccordion.Item, ∀ c,
      (FAQAccordion.closeItem other).content = some c → c.maxHeight = some "0" := by
    intro other c hc
    simp only [FAQAccordion.closeItem, Option.map_eq_some'] at hc
    obtain ⟨a, -, rfl⟩ := hc
    rfl
  have hone : item.active = false →
      (FAQAccordion.onClick items k).countP (fun it => it.active) = 1 := by
    intro ha
    rw [FAQAccordion.onClick_closed items k item hk hw ha,
      List.modify_eq_take_cons_drop (by simpa using hlt), List.countP_append, List.countP_cons,
      countP_le_of_sublist_zero _ _ _ (List.take_sublist _ _) (FAQAccordion.countP_closed items),
      countP_le_of_sublist_zero _ _ _ (List.drop_sublist _ _) (FAQAccordion.countP_closed items)]
    simp [FAQAccordion.openItem]
  refine ⟨?_, ?_, fun ha => ⟨?_, rfl, fun j other hj hjo => ⟨?_, rfl, hclosedContent other⟩,
    hone ha⟩, fun ha => ⟨fun it hit => ?_, fun it hit c hc => ?_⟩⟩
  · cases ha : item.active
    · exact (hone ha).le
    · rw [FAQAccordion.onClick_open items k item hk hw ha, FAQAccordion.countP_closed]
      exact Nat.zero_le 1
  · cases ha : item.active
    · rw [FAQAccordion.onClick_closed items k item hk hw ha]; simp
    · rw [FAQAccordion.onClick_open items k item hk hw ha]; simp
  · rw [FAQAccordion.onClick_closed items k item hk hw ha, List.getElem?_modify_eq,
      List.getElem?_map, hk]
    rfl
  · rw [FAQAccordion.onClick_closed items k item hk hw ha,
      List.getElem?_modify_ne _ _ (Ne.symm hj), List.getElem?_map, hjo]
    rfl
  · rw [FAQAccordion.onClick_open items k item hk hw ha] at hit
    obtain ⟨a, -, rfl⟩ := List.mem_map.mp hit
    rfl
  · rw [FAQAccordion.onClick_open items k item hk hw ha] at hit
    obtain ⟨a, -, rfl⟩ := List.mem_map.mp hit
    exact hclosedContent a c hc

/-- A witness of C21: of three items with the first two open, a click on the
closed third one leaves one item active. -/
theorem accordion_at_most_one_open_witness :
    (FAQAccordion.onClick
      [ { active := true, hasTrigger := true, content := some { scrollHeight := 10, maxHeight := none } },
        { active := true, hasTrigger := true, content := some { scrollHeight := 20, maxHeight := none } },
        { active := false, hasTrigger := true,
          content := some { scrollHeight := 30, maxHeight := none } } ] 2).countP
      (fun it => it.active) ≤ 1 :=
  (accordion_at_most_one_open _ 2
    { active := false, hasTrigger := true, content := some { scrollHeight := 30, maxHeight := none } }
    rfl rfl).1

/-- C22 (as stated, refuted): for a wrapper that holds two `.error-message`
elements, `validateInput` on a valid input returns true and removes only the
first of them, so the wrapper still holds an error-message element. -/
theorem valid_input_can_keep_error_message :
    (FormValidation.validateInput
      { inputs := [{ required := true, value := "Ana", type := "text", wrapper := 0 }]
        wrappers := [{ classList := ["error"], errorMessages := ["Email inválido", "Este campo es requerido"] }]
        submitBtn := none
        defaultPrevented := false }
      { required := true, value := "Ana", type := "text", wrapper := 0 }).2 = true ∧
    (FormValidation.validateInput
      { inputs := [{ required := true, value := "Ana", type := "text", wrapper := 0 }]
        wrappers := [{ classList := ["error"], errorMessages := ["Email inválido", "Este campo es requerido"] }]
        submitBtn := none
        defaultPrevented := false }
      { required := true, value := "Ana", type := "text", wrapper := 0 }).1.wrappers.map
        (fun w => w.errorMessages) = [["Este campo es requerido"]] := by
  decide

/-- C22 (amended): `validateInput` returns false exactly when the input is
required and blank after trimming, or is of type `email`, non-empty and does
not match the pattern; then its wrapper ends with class `error`, without
`success` and with an error-message element.  When it returns true the wrapper
ends with `success`, without `error`, and with its first error-message element
removed: with none at all if it held at most one before the call. -/
theorem validateInput_outcome (s : FormValidation.State) (input : FormValidation.Input)
    (w : FormValidation.Wrapper) (hw : s.wrappers[input.wrapper]? = some w) :
    ((FormValidation.validateInput s input).2 = false ↔
      (input.required = true ∧ input.value.toList.all FormValidation.isWhiteSpace = true) ∨
      (input.type = "email" ∧ input.value.isEmpty = false ∧
        FormValidation.emailRegexTest input.value.toList = false)) ∧
    ((FormValidation.validateInput s input).2 = false →
      ∃ w', (FormValidation.validateInput s input).1.wrappers[input.wrapper]? = some w' ∧
        "error" ∈ w'.classList ∧ "success" ∉ w'.classList ∧ w'.errorMessages ≠ []) ∧
    ((FormValidation.validateInput s input).2 = true →
      ∃ w', (FormValidation.validateInput s input).1.wrappers[input.wrapper]? = some w' ∧
        "success" ∈ w'.classList ∧ "error" ∉ w'.classList ∧
        w'.errorMessages = w.errorMessages.tail ∧
        (w.errorMessages.length ≤ 1 → w'.errorMessages = [])) := by
  obtain ⟨hf, ht⟩ := FormValidation.validateInput_wrapper s input w hw
  refine ⟨FormValidation.validateInput_result s input, fun h => ?_, fun h => ?_⟩
  · obtain ⟨message, hm⟩ := hf h
    refine ⟨_, hm, ?_, ?_, ?_⟩
    · unfold FormValidation.showError
      split <;> exact FormValidation.mem_classListAdd _ _
    · unfold FormValidation.showError
      split <;> exact FormValidation.not_mem_add_remove _ _ _ (by decide)
    · unfold FormValidation.showError
      split <;> simp
  · refine ⟨_, ht h, FormValidation.mem_classListAdd _ _,
      FormValidation.not_mem_add_remove _ _ _ (by decide), rfl, fun hl => ?_⟩
    show w.errorMessages.tail = []
    match hm : w.errorMessages, hl with
    | [], _ => rfl
    | [_], _ => rfl
    | _ :: _ :: _, hl => simp at hl

/-- A witness of the amended C22: a required empty field is rejected. -/
theorem validateInput_outcome_witness :
    (FormValidation.validateInput
      { inputs := [{ required := true, value := "", type := "text", wrapper := 0 }]
        wrappers := [{ classList := [], errorMessages := [] }]
        submitBtn := none
        defaultPrevented := false }
      { required := true, value := "", type := "text", wrapper := 0 }).2 = false ↔
      ((true = true ∧ "".toList.all FormValidation.isWhiteSpace = true) ∨
        ("text" = "email" ∧ "".isEmpty = false ∧
          FormValidation.emailRegexTest "".toList = false)) :=
  (validateInput_outcome
    { inputs := [{ required := true, value := "", type := "text", wrapper := 0 }]
      wrappers := [{ classList := [], errorMessages := [] }]
      submitBtn := none
      defaultPrevented := false }
    { required := true, value := "", type := "text", wrapper := 0 }
    { classList := [], errorMessages := [] } rfl).1

/-- C23 (the code at a failing input): in the first frame (time 0.004) of a
HeroBackground3D of 800 by 600 whose pointer has not moved, a floating
particle with base position (380, 280), angle 0, speed 0 and orbit radius 20
is moved to `(380 + cos(0) * 20 + sin(0) * 20, 280 + sin(0) * 20 + cos(0) * 20)`,
which is the pointer position (400, 300); so `dx = dy = 0` and
`dist = 0 < 150`, the repulsion block is entered, `dx / dist` and `dy / dist`
are `0 / 0`, and both coordinates of the particle become `NaN`; the `arc` call
of the particle then draws nothing. -/
theorem repulsion_divides_by_zero :
    (HeroBackground3D.stepFloating (JSMath.mk Real.sin Real.cos Real.sqrt Real.pi (fun _ => 0))
        { HeroBackground3D.resize
            ({ rectWidth := 800, rectHeight := 600, devicePixelRatio := 1, innerWidth := 1280 } :
              Viewport ℝ)
            (HeroBackground3D.construct HeroBackground3D.defaultConfig
              { rectWidth := 800, rectHeight := 600, devicePixelRatio := 1, innerWidth := 1280 }) with
          time := 4 / 1000 } 0
        { x := JSNumber.finite 0, y := JSNumber.finite 0, baseX := 380, baseY := 280,
          vx := 0, vy := 0, size := 1, opacity := 1 / 10, speed := 0, angle := 0,
          orbitRadius := 20 }).1.x = JSNumber.nan ∧
    (HeroBackground3D.stepFloating (JSMath.mk Real.sin Real.cos Real.sqrt Real.pi (fun _ => 0))
        { HeroBackground3D.resize
            ({ rectWidth := 800, rectHeight := 600, devicePixelRatio := 1, innerWidth := 1280 } :
              Viewport ℝ)
            (HeroBackground3D.construct HeroBackground3D.defaultConfig
              { rectWidth := 800, rectHeight := 600, devicePixelRatio := 1, innerWidth := 1280 }) with
          time := 4 / 1000 } 0
        { x := JSNumber.finite 0, y := JSNumber.finite 0, baseX := 380, baseY := 280,
          vx := 0, vy := 0, size := 1, opacity := 1 / 10, speed := 0, angle := 0,
          orbitRadius := 20 }).1.y = JSNumber.nan ∧
    (HeroBackground3D.stepFloating (JSMath.mk Real.sin Real.cos Real.sqrt Real.pi (fun _ => 0))
        { HeroBackground3D.resize
            ({ rectWidth := 800, rectHeight := 600, devicePixelRatio := 1, innerWidth := 1280 } :
              Viewport ℝ)
            (HeroBackground3D.construct HeroBackground3D.defaultConfig
              { rectWidth := 800, rectHeight := 600, devicePixelRatio := 1, innerWidth := 1280 }) with
          time := 4 / 1000 } 0
        { x := JSNumber.finite 0, y := JSNumber.finite 0, baseX := 380, baseY := 280,
          vx := 0, vy := 0, size := 1, opacity := 1 / 10, speed := 0, angle := 0,
          orbitRadius := 20 }).2 = [DrawOp.beginPath, DrawOp.fill] :=
  HeroBackground3D.stepFloating_nan_of_coincide (JSMath.mk Real.sin Real.cos Real.sqrt Real.pi (fun _ => 0))
    { HeroBackground3D.resize
            ({ rectWidth := 800, rectHeight := 600, devicePixelRatio := 1, innerWidth := 1280 } :
              Viewport ℝ)
            (HeroBackground3D.construct HeroBackground3D.defaultConfig
              { rectWidth := 800, rectHeight := 600, devicePixelRatio := 1, innerWidth := 1280 }) with
          time := 4 / 1000 } 0
    { x := JSNumber.finite 0, y := JSNumber.finite 0, baseX := 380, baseY := 280,
          vx := 0, vy := 0, size := 1, opacity := 1 / 10, speed := 0, angle := 0,
          orbitRadius := 20 }
    Real.sqrt_zero
    (by
      show (380 : ℝ) + Real.cos (0 + 0 * (1 / 100)) * 20 + Real.sin (4 / 1000 * 0) * 20
        = 0 * 800 / 2 + 800 / 2
      norm_num)
    (by
      show (280 : ℝ) + Real.sin ((0 + 0 * (1 / 100)) * (7 / 10)) * 20
        + Real.cos (4 / 1000 * 0 * (1 / 2)) * 20 = 0 * 600 / 2 + 600 / 2
      norm_num)

/-- C24: under the default radius and wave amplitude the depth culls never
fire: the projected `z` is at least -100 in DNAVisualization, -180 in
HeroBackground3D and -60 in MolecularVisualization, so the connector-skip
conditions (`z < -100`, `z < -200`, `z < -200`) and the particle-skip
condition of MolecularVisualization (`z < -300`) are false.  Hence
`drawConnections` issues the line of every connector whose endpoints exist
(as they do for every connector made by the creation routine),
the particle drawing routine issues the calls of every entry of the sorted
array (a permutation of the particle array), and the canvas calls of every
frame of a running instance contain both sequences, computed at the state of
that frame. -/
theorem depth_culls_never_fire (M : JSMath α) (hM : M.Lawful) :
    (∀ (s : DNAVisualization.State α), s.config.helixRadius = 80 → s.config.waveAmplitude = 20 →
      (∀ p : DNAVisualization.Particle α, -100 ≤ (DNAVisualization.getParticlePosition M s p).z ∧
        ¬ (DNAVisualization.getParticlePosition M s p).z < -100) ∧
      (∀ (before after : List (Connection α)) (conn : Connection α) (p1 p2 : DNAVisualization.Particle α),
        s.connections = before ++ conn :: after →
        s.particles[conn.index1]? = some p1 → s.particles[conn.index2]? = some p2 →
        DNAVisualization.drawConnections M s =
          before.flatMap (DNAVisualization.drawConnection M s) ++
          [ DrawOp.createLinearGradient (DNAVisualization.getParticlePosition M s p1).x (DNAVisualization.getParticlePosition M s p1).y
              (DNAVisualization.getParticlePosition M s p2).x (DNAVisualization.getParticlePosition M s p2).y,
            DrawOp.beginPath,
            DrawOp.moveTo (DNAVisualization.getParticlePosition M s p1).x (DNAVisualization.getParticlePosition M s p1).y,
            DrawOp.lineTo (DNAVisualization.getParticlePosition M s p2).x (DNAVisualization.getParticlePosition M s p2).y,
            DrawOp.stroke ] ++
          after.flatMap (DNAVisualization.drawConnection M s)) ∧
      DNAVisualization.drawParticles M s =
        (DNAVisualization.sortedParticles M s).flatMap (fun e =>
          [ DrawOp.createRadialGradient e.pos.x e.pos.y 0 e.pos.x e.pos.y
              ((e.particle.size * e.pos.scale * (M.sin (s.time * 3 + e.particle.pulseOffset) * (3 / 10) + 1)) * 3),
            DrawOp.beginPath,
            DrawOp.arc e.pos.x e.pos.y
              ((e.particle.size * e.pos.scale * (M.sin (s.time * 3 + e.particle.pulseOffset) * (3 / 10) + 1)) * 3),
            DrawOp.fill, DrawOp.beginPath,
            DrawOp.arc e.pos.x e.pos.y
              (e.particle.size * e.pos.scale * (M.sin (s.time * 3 + e.particle.pulseOffset) * (3 / 10) + 1)),
            DrawOp.fill ]) ∧
      (∀ (s0 : DNAVisualization.State α) (conn : Connection α), s0.connections = [] →
        conn ∈ (DNAVisualization.createParticles M s0).connections →
        ∃ p1 p2, (DNAVisualization.createParticles M s0).particles[conn.index1]? = some p1 ∧
          (DNAVisualization.createParticles M s0).particles[conn.index2]? = some p2) ∧
      ((DNAVisualization.sortedParticles M s).map (fun e => (e.index, e.particle))).Perm s.particles.enum ∧
      (s.isRunning = true →
        (DNAVisualization.animate M s).1.config = s.config ∧
        (DNAVisualization.animate M s).1.particles = s.particles ∧
        (DNAVisualization.animate M s).1.connections = s.connections ∧
        (DNAVisualization.animate M s).2 =
          DNAVisualization.clear (DNAVisualization.animate M s).1 ++
          DNAVisualization.drawConnections M (DNAVisualization.animate M s).1 ++
          DNAVisualization.drawParticles M (DNAVisualization.animate M s).1 ++
          DNAVisualization.drawFloatingParticles M (DNAVisualization.animate M s).1)) ∧
    (∀ (s : HeroBackground3D.State α), s.config.helixRadius = 150 → s.config.waveAmplitude = 30 →
      (∀ p : HeroBackground3D.Particle α, -180 ≤ (HeroBackground3D.getHelixPosition M s p).z ∧
        ¬ (HeroBackground3D.getHelixPosition M s p).z < -200) ∧
      (∀ (before after : List (Connection α)) (conn : Connection α) (p1 p2 : HeroBackground3D.Particle α),
        s.connections = before ++ conn :: after →
        s.particles[conn.index1]? = some p1 → s.particles[conn.index2]? = some p2 →
        HeroBackground3D.drawConnections M s =
          before.flatMap (HeroBackground3D.drawConnection M s) ++
          [ DrawOp.beginPath,
            DrawOp.moveTo (HeroBackground3D.getHelixPosition M s p1).x (HeroBackground3D.getHelixPosition M s p1).y,
            DrawOp.lineTo (HeroBackground3D.getHelixPosition M s p2).x (HeroBackground3D.getHelixPosition M s p2).y,
            DrawOp.stroke ] ++
          after.flatMap (HeroBackground3D.drawConnection M s)) ∧
      HeroBackground3D.drawHelixParticles M s =
        (HeroBackground3D.sortedParticles M s).flatMap (fun e =>
          [ DrawOp.createRadialGradient e.pos.x e.pos.y 0 e.pos.x e.pos.y
              ((e.particle.size * e.pos.scale * (M.sin (s.time * 4 + e.particle.pulseOffset) * (3 / 10) + 1)) * 4),
            DrawOp.beginPath,
            DrawOp.arc e.pos.x e.pos.y
              ((e.particle.size * e.pos.scale * (M.sin (s.time * 4 + e.particle.pulseOffset) * (3 / 10) + 1)) * 4),
            DrawOp.fill, DrawOp.beginPath,
            DrawOp.arc e.pos.x e.pos.y
              (e.particle.size * e.pos.scale * (M.sin (s.time * 4 + e.particle.pulseOffset) * (3 / 10) + 1)),
            DrawOp.fill ]) ∧
      (∀ (s0 : HeroBackground3D.State α) (conn : Connection α), s0.connections = [] →
        conn ∈ (HeroBackground3D.createHelixParticles M s0).connections →
        ∃ p1 p2, (HeroBackground3D.createHelixParticles M s0).particles[conn.index1]? = some p1 ∧
          (HeroBackground3D.createHelixParticles M s0).particles[conn.index2]? = some p2) ∧
      ((HeroBackground3D.sortedParticles M s).map (fun e => (e.index, e.particle))).Perm s.particles.enum ∧
      (s.isRunning = true →
        (HeroBackground3D.animate M s).1.config = s.config ∧
        (HeroBackground3D.animate M s).1.particles = s.particles ∧
        (HeroBackground3D.animate M s).1.connections = s.connections ∧
        ∃ floating : List (DrawOp α), (HeroBackground3D.animate M s).2 =
          HeroBackground3D.clear (HeroBackground3D.animate M s).1 ++
          HeroBackground3D.drawGlow (HeroBackground3D.animate M s).1 ++ floating ++
          HeroBackground3D.drawConnections M (HeroBackground3D.animate M s).1 ++
          HeroBackground3D.drawHelixParticles M (HeroBackground3D.animate M s).1)) ∧
    (∀ (s : MolecularVisualization.State α), s.config.helixRadius = 60 →
      (∀ p : MolecularVisualization.Particle α, -60 ≤ (MolecularVisualization.getHelixPosition M s p).z ∧
        ¬ (MolecularVisualization.getHelixPosition M s p).z < -200 ∧
        ¬ (MolecularVisualization.getHelixPosition M s p).z < -300) ∧
      (∀ (before after : List (Connection α)) (conn : Connection α) (p1 p2 : MolecularVisualization.Particle α),
        s.connections = before ++ conn :: after →
        s.particles[conn.index1]? = some p1 → s.particles[conn.index2]? = some p2 →
        MolecularVisualization.drawConnections M s =
          before.flatMap (MolecularVisualization.drawConnection M s) ++
          [ DrawOp.beginPath,
            DrawOp.moveTo (MolecularVisualization.getHelixPosition M s p1).x (MolecularVisualization.getHelixPosition M s p1).y,
            DrawOp.lineTo (MolecularVisualization.getHelixPosition M s p2).x (MolecularVisualization.getHelixPosition M s p2).y,
            DrawOp.stroke ] ++
          after.flatMap (MolecularVisualization.drawConnection M s)) ∧
      MolecularVisualization.drawHelixParticles M s =
        (MolecularVisualization.sortedParticles M s).flatMap (fun e =>
          [ DrawOp.createRadialGradient e.pos.x e.pos.y 0 e.pos.x e.pos.y
              ((e.particle.size * e.pos.scale * (M.sin (s.time * 3 + e.particle.pulseOffset) * (3 / 10) + 1)) * 3),
            DrawOp.fillRect
              (e.pos.x - (e.particle.size * e.pos.scale * (M.sin (s.time * 3 + e.particle.pulseOffset) * (3 / 10) + 1)) * 3)
              (e.pos.y - (e.particle.size * e.pos.scale * (M.sin (s.time * 3 + e.particle.pulseOffset) * (3 / 10) + 1)) * 3)
              ((e.particle.size * e.pos.scale * (M.sin (s.time * 3 + e.particle.pulseOffset) * (3 / 10) + 1)) * 6)
              ((e.particle.size * e.pos.scale * (M.sin (s.time * 3 + e.particle.pulseOffset) * (3 / 10) + 1)) * 6),
            DrawOp.beginPath,
            DrawOp.arc e.pos.x e.pos.y
              (e.particle.size * e.pos.scale * (M.sin (s.time * 3 + e.particle.pulseOffset) * (3 / 10) + 1)),
            DrawOp.fill ]) ∧
      (∀ (s0 : MolecularVisualization.State α) (conn : Connection α),
        conn ∈ (MolecularVisualization.createHelixParticles M s0).connections →
        ∃ p1 p2, (MolecularVisualization.createHelixParticles M s0).particles[conn.index1]? = some p1 ∧
          (MolecularVisualization.createHelixParticles M s0).particles[conn.index2]? = some p2) ∧
      ((MolecularVisualization.sortedParticles M s).map (fun e => (e.index, e.particle))).Perm s.particles.enum ∧
      (s.isRunning = true →
        (MolecularVisualization.animate M s).1.config = s.config ∧
        (MolecularVisualization.animate M s).1.particles = s.particles ∧
        (MolecularVisualization.animate M s).1.connections = s.connections ∧
        ∃ floating : List (DrawOp α), (MolecularVisualization.animate M s).2 =
          [DrawOp.clearRect 0 0 s.width s.height] ++
          MolecularVisualization.drawGlow (MolecularVisualization.animate M s).1 ++
          MolecularVisualization.drawHelixParticles M (MolecularVisualization.animate M s).1 ++
          MolecularVisualization.drawConnections M (MolecularVisualization.animate M s).1 ++ floating)) := by
  refine ⟨?_, ?_, ?_⟩
  · intro s hr hw
    have hz : ∀ p : DNAVisualization.Particle α, ¬ (DNAVisualization.getParticlePosition M s p).z < -100 := fun p => by
      have := (DNAVisualization.z_bounds_dna M hM s p hr hw).1
      intro h; linarith
    have hconn : ∀ (before after : List (Connection α)) (conn : Connection α)
        (p1 p2 : DNAVisualization.Particle α),
        s.connections = before ++ conn :: after →
        s.particles[conn.index1]? = some p1 → s.particles[conn.index2]? = some p2 →
        DNAVisualization.drawConnections M s =
          before.flatMap (DNAVisualization.drawConnection M s) ++
          [ DrawOp.createLinearGradient (DNAVisualization.getParticlePosition M s p1).x (DNAVisualization.getParticlePosition M s p1).y
              (DNAVisualization.getParticlePosition M s p2).x (DNAVisualization.getParticlePosition M s p2).y,
            DrawOp.beginPath,
            DrawOp.moveTo (DNAVisualization.getParticlePosition M s p1).x (DNAVisualization.getParticlePosition M s p1).y,
            DrawOp.lineTo (DNAVisualization.getParticlePosition M s p2).x (DNAVisualization.getParticlePosition M s p2).y,
            DrawOp.stroke ] ++
          after.flatMap (DNAVisualization.drawConnection M s) := by
      intro before after conn p1 p2 hc h1 h2
      have hn : ¬ ((DNAVisualization.getParticlePosition M s p1).z < -100 ∨ (DNAVisualization.getParticlePosition M s p2).z < -100) := by
        rintro (h | h)
        · exact hz p1 h
        · exact hz p2 h
      have hd : DNAVisualization.drawConnection M s conn =
          [ DrawOp.createLinearGradient (DNAVisualization.getParticlePosition M s p1).x (DNAVisualization.getParticlePosition M s p1).y
              (DNAVisualization.getParticlePosition M s p2).x (DNAVisualization.getParticlePosition M s p2).y,
            DrawOp.beginPath,
            DrawOp.moveTo (DNAVisualization.getParticlePosition M s p1).x (DNAVisualization.getParticlePosition M s p1).y,
            DrawOp.lineTo (DNAVisualization.getParticlePosition M s p2).x (DNAVisualization.getParticlePosition M s p2).y,
            DrawOp.stroke ] := by
        unfold DNAVisualization.drawConnection
        rw [h1, h2]
        simp only [hn, if_false]
      unfold DNAVisualization.drawConnections
      rw [hc, List.flatMap_append, List.flatMap_cons, hd, List.append_assoc]
    have hperm : ((DNAVisualization.sortedParticles M s).map (fun e => (e.index, e.particle))).Perm
        s.particles.enum := by
      have h := (jsSort_perm (fun a b : DNAVisualization.Projected α => a.pos.z - b.pos.z)
        (s.particles.enum.map (fun ip =>
          ({ particle := ip.2, index := ip.1, pos := DNAVisualization.getParticlePosition M s ip.2 } :
            DNAVisualization.Projected α)))).map (fun e : DNAVisualization.Projected α => (e.index, e.particle))
      simpa [DNAVisualization.sortedParticles, Function.comp_def] using h
    refine ⟨fun p => ⟨(DNAVisualization.z_bounds_dna M hM s p hr hw).1, hz p⟩, hconn, rfl,
      fun s0 conn h0 hc => DNAVisualization.created_endpoints_dna M s0 h0 conn hc, hperm,
      fun hrun => ?_⟩
    unfold DNAVisualization.animate
    rw [if_neg (by simp [hrun])]
    exact ⟨rfl, rfl, rfl, rfl⟩
  · intro s hr hw
    have hz : ∀ p : HeroBackground3D.Particle α, ¬ (HeroBackground3D.getHelixPosition M s p).z < -200 := fun p => by
      have := (HeroBackground3D.z_bounds_hero M hM s p hr hw).1
      intro h; linarith
    have hconn : ∀ (before after : List (Connection α)) (conn : Connection α)
        (p1 p2 : HeroBackground3D.Particle α),
        s.connections = before ++ conn :: after →
        s.particles[conn.index1]? = some p1 → s.particles[conn.index2]? = some p2 →
        HeroBackground3D.drawConnections M s =
          before.flatMap (HeroBackground3D.drawConnection M s) ++
          [ DrawOp.beginPath,
            DrawOp.moveTo (HeroBackground3D.getHelixPosition M s p1).x (HeroBackground3D.getHelixPosition M s p1).y,
            DrawOp.lineTo (HeroBackground3D.getHelixPosition M s p2).x (HeroBackground3D.getHelixPosition M s p2).y,
            DrawOp.stroke ] ++
          after.flatMap (HeroBackground3D.drawConnection M s) := by
      intro before after conn p1 p2 hc h1 h2
      have hn : ¬ ((HeroBackground3D.getHelixPosition M s p1).z < -200 ∨ (HeroBackground3D.getHelixPosition M s p2).z < -200) := by
        rintro (h | h)
        · exact hz p1 h
        · exact hz p2 h
      have hd : HeroBackground3D.drawConnection M s conn =
          [ DrawOp.beginPath,
            DrawOp.moveTo (HeroBackground3D.getHelixPosition M s p1).x (HeroBackground3D.getHelixPosition M s p1).y,
            DrawOp.lineTo (HeroBackground3D.getHelixPosition M s p2).x (HeroBackground3D.getHelixPosition M s p2).y,
            DrawOp.stroke ] := by
        unfold HeroBackground3D.drawConnection
        rw [h1, h2]
        simp only [hn, if_false]
      unfold HeroBackground3D.drawConnections
      rw [hc, List.flatMap_append, List.flatMap_cons, hd, List.append_assoc]
    have hperm : ((HeroBackground3D.sortedParticles M s).map (fun e => (e.index, e.particle))).Perm
        s.particles.enum := by
      have h := (jsSort_perm (fun a b : HeroBackground3D.Projected α => a.pos.z - b.pos.z)
        (s.particles.enum.map (fun ip =>
          ({ particle := ip.2, index := ip.1, pos := HeroBackground3D.getHelixPosition M s ip.2 } :
            HeroBackground3D.Projected α)))).map (fun e : HeroBackground3D.Projected α => (e.index, e.particle))
      simpa [HeroBackground3D.sortedParticles, Function.comp_def] using h
    refine ⟨fun p => ⟨(HeroBackground3D.z_bounds_hero M hM s p hr hw).1, hz p⟩, hconn, rfl,
      fun s0 conn h0 hc => HeroBackground3D.created_endpoints_hero M s0 h0 conn hc, hperm,
      fun hrun => ?_⟩
    unfold HeroBackground3D.animate
    rw [if_neg (by simp [hrun])]
    exact ⟨rfl, rfl, rfl, _, rfl⟩
  · intro s hr
    have hz : ∀ p : MolecularVisualization.Particle α, ¬ (MolecularVisualization.getHelixPosition M s p).z < -200 := fun p => by
      have := (MolecularVisualization.z_bounds_molecular M hM s p hr).1
      intro h; linarith
    have hz3 : ∀ p : MolecularVisualization.Particle α, ¬ (MolecularVisualization.getHelixPosition M s p).z < -300 := fun p => by
      have := (MolecularVisualization.z_bounds_molecular M hM s p hr).1
      intro h; linarith
    have hconn : ∀ (before after : List (Connection α)) (conn : Connection α)
        (p1 p2 : MolecularVisualization.Particle α),
        s.connections = before ++ conn :: after →
        s.particles[conn.index1]? = some p1 → s.particles[conn.index2]? = some p2 →
        MolecularVisualization.drawConnections M s =
          before.flatMap (MolecularVisualization.drawConnection M s) ++
          [ DrawOp.beginPath,
            DrawOp.moveTo (MolecularVisualization.getHelixPosition M s p1).x (MolecularVisualization.getHelixPosition M s p1).y,
            DrawOp.lineTo (MolecularVisualization.getHelixPosition M s p2).x (MolecularVisualization.getHelixPosition M s p2).y,
            DrawOp.stroke ] ++
          after.flatMap (MolecularVisualization.drawConnection M s) := by
      intro before after conn p1 p2 hc h1 h2
      have hn : ¬ ((MolecularVisualization.getHelixPosition M s p1).z < -200 ∨ (MolecularVisualization.getHelixPosition M s p2).z < -200) := by
        rintro (h | h)
        · exact hz p1 h
        · exact hz p2 h
      have hd : MolecularVisualization.drawConnection M s conn =
          [ DrawOp.beginPath,
            DrawOp.moveTo (MolecularVisualization.getHelixPosition M s p1).x (MolecularVisualization.getHelixPosition M s p1).y,
            DrawOp.lineTo (MolecularVisualization.getHelixPosition M s p2).x (MolecularVisualization.getHelixPosition M s p2).y,
            DrawOp.stroke ] := by
        unfold MolecularVisualization.drawConnection
        rw [h1, h2]
        simp only [hn, if_false]
      unfold MolecularVisualization.drawConnections
      rw [hc, List.flatMap_append, List.flatMap_cons, hd, List.append_assoc]
    have hperm : ((MolecularVisualization.sortedParticles M s).map (fun e => (e.index, e.particle))).Perm
        s.particles.enum := by
      have h := (jsSort_perm (fun a b : MolecularVisualization.Projected α => a.pos.z - b.pos.z)
        (s.particles.enum.map (fun ip =>
          ({ particle := ip.2, index := ip.1, pos := MolecularVisualization.getHelixPosition M s ip.2 } :
            MolecularVisualization.Projected α)))).map (fun e : MolecularVisualization.Projected α => (e.index, e.particle))
      simpa [MolecularVisualization.sortedParticles, Function.comp_def] using h
    have hdraw : MolecularVisualization.drawHelixParticles M s =
        (MolecularVisualization.sortedParticles M s).flatMap (fun e =>
          [ DrawOp.createRadialGradient e.pos.x e.pos.y 0 e.pos.x e.pos.y
              ((e.particle.size * e.pos.scale * (M.sin (s.time * 3 + e.particle.pulseOffset) * (3 / 10) + 1)) * 3),
            DrawOp.fillRect
              (e.pos.x - (e.particle.size * e.pos.scale * (M.sin (s.time * 3 + e.particle.pulseOffset) * (3 / 10) + 1)) * 3)
              (e.pos.y - (e.particle.size * e.pos.scale * (M.sin (s.time * 3 + e.particle.pulseOffset) * (3 / 10) + 1)) * 3)
              ((e.particle.size * e.pos.scale * (M.sin (s.time * 3 + e.particle.pulseOffset) * (3 / 10) + 1)) * 6)
              ((e.particle.size * e.pos.scale * (M.sin (s.time * 3 + e.particle.pulseOffset) * (3 / 10) + 1)) * 6),
            DrawOp.beginPath,
            DrawOp.arc e.pos.x e.pos.y
              (e.particle.size * e.pos.scale * (M.sin (s.time * 3 + e.particle.pulseOffset) * (3 / 10) + 1)),
            DrawOp.fill ]) := by
      have h3 : MolecularVisualization.drawHelixParticles M s =
          ((MolecularVisualization.sortedParticles M s).filter
            (fun e => !decide (e.pos.z < -300))).flatMap (fun e =>
          [ DrawOp.createRadialGradient e.pos.x e.pos.y 0 e.pos.x e.pos.y
              ((e.particle.size * e.pos.scale * (M.sin (s.time * 3 + e.particle.pulseOffset) * (3 / 10) + 1)) * 3),
            DrawOp.fillRect
              (e.pos.x - (e.particle.size * e.pos.scale * (M.sin (s.time * 3 + e.particle.pulseOffset) * (3 / 10) + 1)) * 3)
              (e.pos.y - (e.particle.size * e.pos.scale * (M.sin (s.time * 3 + e.particle.pulseOffset) * (3 / 10) + 1)) * 3)
              ((e.particle.size * e.pos.scale * (M.sin (s.time * 3 + e.particle.pulseOffset) * (3 / 10) + 1)) * 6)
              ((e.particle.size * e.pos.scale * (M.sin (s.time * 3 + e.particle.pulseOffset) * (3 / 10) + 1)) * 6),
            DrawOp.beginPath,
            DrawOp.arc e.pos.x e.pos.y
              (e.particle.size * e.pos.scale * (M.sin (s.time * 3 + e.particle.pulseOffset) * (3 / 10) + 1)),
            DrawOp.fill ]) :=
        flatMap_skip (fun e : MolecularVisualization.Projected α => e.pos.z < -300) _ _
      rw [h3, List.filter_eq_self.mpr]
      intro e he
      obtain ⟨ip, -, rfl⟩ := List.mem_map.mp
        ((jsSort_perm (fun a b : MolecularVisualization.Projected α => a.pos.z - b.pos.z) _).mem_iff.mp he)
      have := hz3 ip.2
      simp only [Bool.not_eq_true', decide_eq_false_iff_not]
      exact this
    refine ⟨fun p => ⟨(MolecularVisualization.z_bounds_molecular M hM s p hr).1, hz p, hz3 p⟩, hconn, hdraw,
      fun s0 conn hc => MolecularVisualization.created_endpoints_molecular M s0 conn hc, hperm,
      fun hrun => ?_⟩
    unfold MolecularVisualization.animate
    rw [if_neg (by simp [hrun])]
    exact ⟨rfl, rfl, rfl, _, rfl⟩

/-- A witness of C24: in the freshly constructed DNAVisualization a particle at
base angle 0 and height 0 has `z` at least -100. -/
theorem depth_culls_never_fire_witness :
    (-100 : ℝ) ≤ (DNAVisualization.getParticlePosition
          (JSMath.mk Real.sin Real.cos Real.sqrt Real.pi (fun _ => 0))
          (DNAVisualization.construct DNAVisualization.defaultConfig)
          { baseAngle := 0, baseY := 0, strand := 0, size := 2, pulseOffset := 0,
            color := "#00d4ff" }).z :=
  ((((depth_culls_never_fire
      (JSMath.mk Real.sin Real.cos Real.sqrt Real.pi (fun _ => 0))
      (real_lawful _ (fun _ => le_refl 0) (fun _ => zero_lt_one))).1
    (DNAVisualization.construct DNAVisualization.defaultConfig) rfl rfl).1) _).1

/-- C25 (amended): for every created particle (its size is at least 2), every time
value and every pointer state under the default radius, wave amplitude and
perspective, the pulse `1 + 0.3 sin(...)` lies in `[0.7, 1.3]`, the scale is
positive, and `size = particle.size * scale * pulse` and its multiple
`size * 3` (`size * 4` in HeroBackground3D) are positive; hence every `arc`
radius and every end radius of a radial gradient issued for the particle is
strictly positive (the start radius of each gradient is the literal 0). -/
theorem helix_radii_positive (M : JSMath α) (hM : M.Lawful) :
    (∀ (s0 s : DNAVisualization.State α) (p : DNAVisualization.Particle α) (i : Nat),
      s0.config.particleSizeMin = 2 → s0.config.particleSizeMax = 6 →
      p ∈ (DNAVisualization.createParticles M s0).particles →
      s.config.helixRadius = 80 → s.config.waveAmplitude = 20 →
      2 ≤ p.size ∧ 0 < (DNAVisualization.getParticlePosition M s p).scale ∧
      7 / 10 ≤ M.sin (s.time * 3 + p.pulseOffset) * (3 / 10) + 1 ∧
      M.sin (s.time * 3 + p.pulseOffset) * (3 / 10) + 1 ≤ 13 / 10 ∧
      0 < p.size * (DNAVisualization.getParticlePosition M s p).scale * (M.sin (s.time * 3 + p.pulseOffset) * (3 / 10) + 1) ∧
      0 < p.size * (DNAVisualization.getParticlePosition M s p).scale * (M.sin (s.time * 3 + p.pulseOffset) * (3 / 10) + 1) * 3 ∧
      ∀ op ∈ DNAVisualization.drawParticle M s
          { particle := p, index := i, pos := DNAVisualization.getParticlePosition M s p },
        (∀ x y r, op = DrawOp.arc x y r → 0 < r) ∧
        (∀ x0 y0 r0 x1 y1 r1, op = DrawOp.createRadialGradient x0 y0 r0 x1 y1 r1 →
          r0 = 0 ∧ 0 < r1)) ∧
    (∀ (s0 s : HeroBackground3D.State α) (p : HeroBackground3D.Particle α) (i : Nat),
      p ∈ (HeroBackground3D.createHelixParticles M s0).particles →
      s.config.helixRadius = 150 → s.config.waveAmplitude = 30 →
      2 ≤ p.size ∧ 0 < (HeroBackground3D.getHelixPosition M s p).scale ∧
      7 / 10 ≤ M.sin (s.time * 4 + p.pulseOffset) * (3 / 10) + 1 ∧
      M.sin (s.time * 4 + p.pulseOffset) * (3 / 10) + 1 ≤ 13 / 10 ∧
      0 < p.size * (HeroBackground3D.getHelixPosition M s p).scale * (M.sin (s.time * 4 + p.pulseOffset) * (3 / 10) + 1) ∧
      0 < p.size * (HeroBackground3D.getHelixPosition M s p).scale * (M.sin (s.time * 4 + p.pulseOffset) * (3 / 10) + 1) * 4 ∧
      ∀ op ∈ HeroBackground3D.drawHelixParticle M s
          { particle := p, index := i, pos := HeroBackground3D.getHelixPosition M s p },
        (∀ x y r, op = DrawOp.arc x y r → 0 < r) ∧
        (∀ x0 y0 r0 x1 y1 r1, op = DrawOp.createRadialGradient x0 y0 r0 x1 y1 r1 →
          r0 = 0 ∧ 0 < r1)) ∧
    (∀ (s0 s : MolecularVisualization.State α) (p : MolecularVisualization.Particle α) (i : Nat),
      p ∈ (MolecularVisualization.createHelixParticles M s0).particles →
      s.config.helixRadius = 60 → s.config.perspective = 400 →
      2 ≤ p.size ∧ 0 < (MolecularVisualization.getHelixPosition M s p).scale ∧
      7 / 10 ≤ M.sin (s.time * 3 + p.pulseOffset) * (3 / 10) + 1 ∧
      M.sin (s.time * 3 + p.pulseOffset) * (3 / 10) + 1 ≤ 13 / 10 ∧
      0 < p.size * (MolecularVisualization.getHelixPosition M s p).scale * (M.sin (s.time * 3 + p.pulseOffset) * (3 / 10) + 1) ∧
      0 < p.size * (MolecularVisualization.getHelixPosition M s p).scale * (M.sin (s.time * 3 + p.pulseOffset) * (3 / 10) + 1) * 3 ∧
      ∀ op ∈ MolecularVisualization.drawHelixParticle M s
          { particle := p, index := i, pos := MolecularVisualization.getHelixPosition M s p },
        (∀ x y r, op = DrawOp.arc x y r → 0 < r) ∧
        (∀ x0 y0 r0 x1 y1 r1, op = DrawOp.createRadialGradient x0 y0 r0 x1 y1 r1 →
          r0 = 0 ∧ 0 < r1)) := by
  refine ⟨?_, ?_, ?_⟩
  · intro s0 s p i hmin hmax hp hr hw
    have h2 : 2 ≤ p.size := DNAVisualization.created_size_dna M hM s0 hmin hmax p hp
    have hz := (DNAVisualization.z_bounds_dna M hM s p hr hw).1
    have hsc : 0 < (DNAVisualization.getParticlePosition M s p).scale := by
      rw [DNAVisualization.scale_eq_dna]
      exact projectionScale_pos (by norm_num) (by linarith)
    have hp1 := hM.sin_ge (s.time * 3 + p.pulseOffset)
    have hp2 := hM.sin_le (s.time * 3 + p.pulseOffset)
    have hpulse : 0 < M.sin (s.time * 3 + p.pulseOffset) * (3 / 10) + 1 := by linarith
    have hsize : 0 < p.size * (DNAVisualization.getParticlePosition M s p).scale *
        (M.sin (s.time * 3 + p.pulseOffset) * (3 / 10) + 1) :=
      mul_pos (mul_pos (by linarith) hsc) hpulse
    have hsize3 : 0 < p.size * (DNAVisualization.getParticlePosition M s p).scale *
        (M.sin (s.time * 3 + p.pulseOffset) * (3 / 10) + 1) * 3 := by linarith
    refine ⟨h2, hsc, by linarith, by linarith, hsize, hsize3, fun op hop => ?_⟩
    simp only [DNAVisualization.drawParticle, List.mem_cons, List.mem_singleton, List.not_mem_nil,
      or_false] at hop
    rcases hop with rfl | rfl | rfl | rfl | rfl | rfl | rfl
    all_goals
      refine ⟨fun x y r h => ?_, fun x0 y0 r0 x1 y1 r1 h => ?_⟩
    all_goals first
      | (cases h; exact hsize)
      | (cases h; exact hsize3)
      | (cases h; exact ⟨rfl, hsize3⟩)
      | cases h
  · intro s0 s p i hp hr hw
    have h2 : 2 ≤ p.size := HeroBackground3D.created_size_hero M hM s0 p hp
    have hz := (HeroBackground3D.z_bounds_hero M hM s p hr hw).1
    have hsc : 0 < (HeroBackground3D.getHelixPosition M s p).scale := by
      rw [HeroBackground3D.scale_eq_hero]
      exact projectionScale_pos (by norm_num) (by linarith)
    have hp1 := hM.sin_ge (s.time * 4 + p.pulseOffset)
    have hp2 := hM.sin_le (s.time * 4 + p.pulseOffset)
    have hpulse : 0 < M.sin (s.time * 4 + p.pulseOffset) * (3 / 10) + 1 := by linarith
    have hsize : 0 < p.size * (HeroBackground3D.getHelixPosition M s p).scale *
        (M.sin (s.time * 4 + p.pulseOffset) * (3 / 10) + 1) :=
      mul_pos (mul_pos (by linarith) hsc) hpulse
    have hsize3 : 0 < p.size * (HeroBackground3D.getHelixPosition M s p).scale *
        (M.sin (s.time * 4 + p.pulseOffset) * (3 / 10) + 1) * 4 := by linarith
    refine ⟨h2, hsc, by linarith, by linarith, hsize, hsize3, fun op hop => ?_⟩
    simp only [HeroBackground3D.drawHelixParticle, List.mem_cons, List.mem_singleton, List.not_mem_nil,
      or_false] at hop
    rcases hop with rfl | rfl | rfl | rfl | rfl | rfl | rfl
    all_goals
      refine ⟨fun x y r h => ?_, fun x0 y0 r0 x1 y1 r1 h => ?_⟩
    all_goals first
      | (cases h; exact hsize)
      | (cases h; exact hsize3)
      | (cases h; exact ⟨rfl, hsize3⟩)
      | cases h
  · intro s0 s p i hp hr hP
    have h2 : 2 ≤ p.size := MolecularVisualization.created_size_molecular M hM s0 p hp
    have hz := (MolecularVisualization.z_bounds_molecular M hM s p hr).1
    have hsc : 0 < (MolecularVisualization.getHelixPosition M s p).scale := by
      rw [MolecularVisualization.scale_eq_molecular]
      exact projectionScale_pos (by rw [hP]; norm_num) (by rw [hP]; linarith)
    have hp1 := hM.sin_ge (s.time * 3 + p.pulseOffset)
    have hp2 := hM.sin_le (s.time * 3 + p.pulseOffset)
    have hpulse : 0 < M.sin (s.time * 3 + p.pulseOffset) * (3 / 10) + 1 := by linarith
    have hsize : 0 < p.size * (MolecularVisualization.getHelixPosition M s p).scale *
        (M.sin (s.time * 3 + p.pulseOffset) * (3 / 10) + 1) :=
      mul_pos (mul_pos (by linarith) hsc) hpulse
    have hsize3 : 0 < p.size * (MolecularVisualization.getHelixPosition M s p).scale *
        (M.sin (s.time * 3 + p.pulseOffset) * (3 / 10) + 1) * 3 := by linarith
    refine ⟨h2, hsc, by linarith, by linarith, hsize, hsize3, fun op hop => ?_⟩
    simp only [MolecularVisualization.drawHelixParticle] at hop
    split_ifs at hop
    · exact absurd hop (List.not_mem_nil _)
    · simp only [List.mem_cons, List.mem_singleton, List.not_mem_nil, or_false] at hop
      rcases hop with rfl | rfl | rfl | rfl | rfl
      all_goals
        refine ⟨fun x y r h => ?_, fun x0 y0 r0 x1 y1 r1 h => ?_⟩
      all_goals first
        | (cases h; exact hsize)
        | (cases h; exact ⟨rfl, hsize3⟩)
        | cases h

/-- A witness of the amended C25: the particles created by the default
DNAVisualization have a size of at least 2. -/
theorem helix_radii_positive_witness :
    ∃ p ∈ (DNAVisualization.createParticles (JSMath.mk Real.sin Real.cos Real.sqrt Real.pi (fun _ => 0))
        (DNAVisualization.construct DNAVisualization.defaultConfig)).particles,
      (2 : ℝ) ≤ p.size := by
  obtain ⟨g, -⟩ := DNAVisualization.created_getElem_dna (JSMath.mk Real.sin Real.cos Real.sqrt Real.pi (fun _ => 0))
    (DNAVisualization.construct (DNAVisualization.defaultConfig : DNAVisualization.Config ℝ))
    0 (by decide)
  have hm := List.getElem?_mem g
  exact ⟨_, hm, ((helix_radii_positive (JSMath.mk Real.sin Real.cos Real.sqrt Real.pi (fun _ => 0))
    (real_lawful _ (fun _ => le_refl 0) (fun _ => zero_lt_one))).1
    (DNAVisualization.construct DNAVisualization.defaultConfig)
    (DNAVisualization.construct DNAVisualization.defaultConfig) _ 0 rfl rfl hm rfl rfl).1⟩

/-- C25 (as stated, refuted): not every radius passed to the canvas is
strictly positive.  The radial gradient created for a particle starts at
radius 0: the first canvas call for a particle of the freshly constructed
DNAVisualization is `createRadialGradient(x, y, 0, x, y, size * 3)`. -/
theorem gradient_start_radius_is_zero :
    ∃ x y r, (DNAVisualization.drawParticle (JSMath.mk Real.sin Real.cos Real.sqrt Real.pi (fun _ => 0))
        (DNAVisualization.construct DNAVisualization.defaultConfig)
        { particle := { baseAngle := 0, baseY := 0, strand := 0, size := 2, pulseOffset := 0,
                        color := "#00d4ff" }
          index := 0
          pos := DNAVisualization.getParticlePosition (JSMath.mk Real.sin Real.cos Real.sqrt Real.pi (fun _ => 0))
            (DNAVisualization.construct DNAVisualization.defaultConfig)
            { baseAngle := 0, baseY := 0, strand := 0, size := 2, pulseOffset := 0,
              color := "#00d4ff" } })[0]? =
        some (DrawOp.createRadialGradient x y 0 x y r) ∧ ¬ ((0 : ℝ) < 0) :=
  ⟨_, _, _, rfl, lt_irrefl 0⟩

/-- C26 (the code at a failing input): a MolecularVisualization starts with
one pending frame callback; when the page is hidden and shown again before
that callback has run, the visibility listener calls `animate()` itself and
two callbacks are pending; each of them re-registers itself, so two remain
pending after any number of frames. -/
theorem hide_show_doubles_animation_loop :
    (MolecularVisualization.start (JSMath.mk Real.sin Real.cos Real.sqrt Real.pi (fun _ => 0))
        ({ rectWidth := 800, rectHeight := 600, devicePixelRatio := 1, innerWidth := 1280 } :
          Viewport ℝ)
        MolecularVisualization.defaultConfig).pendingFrames = 1 ∧
    (MolecularVisualization.start (JSMath.mk Real.sin Real.cos Real.sqrt Real.pi (fun _ => 0))
        ({ rectWidth := 800, rectHeight := 600, devicePixelRatio := 1, innerWidth := 1280 } :
          Viewport ℝ)
        MolecularVisualization.defaultConfig).state.isRunning = true ∧
    (MolecularVisualization.visibilityChange (JSMath.mk Real.sin Real.cos Real.sqrt Real.pi (fun _ => 0)) true
      (MolecularVisualization.start (JSMath.mk Real.sin Real.cos Real.sqrt Real.pi (fun _ => 0))
        ({ rectWidth := 800, rectHeight := 600, devicePixelRatio := 1, innerWidth := 1280 } :
          Viewport ℝ)
        MolecularVisualization.defaultConfig)).pendingFrames = 1 ∧
    (MolecularVisualization.visibilityChange (JSMath.mk Real.sin Real.cos Real.sqrt Real.pi (fun _ => 0)) false
      (MolecularVisualization.visibilityChange (JSMath.mk Real.sin Real.cos Real.sqrt Real.pi (fun _ => 0)) true
        (MolecularVisualization.start (JSMath.mk Real.sin Real.cos Real.sqrt Real.pi (fun _ => 0))
        ({ rectWidth := 800, rectHeight := 600, devicePixelRatio := 1, innerWidth := 1280 } :
          Viewport ℝ)
        MolecularVisualization.defaultConfig))).pendingFrames = 2 ∧
    (MolecularVisualization.frameCallback (JSMath.mk Real.sin Real.cos Real.sqrt Real.pi (fun _ => 0))
      (MolecularVisualization.frameCallback (JSMath.mk Real.sin Real.cos Real.sqrt Real.pi (fun _ => 0))
        (MolecularVisualization.visibilityChange (JSMath.mk Real.sin Real.cos Real.sqrt Real.pi (fun _ => 0)) false
          (MolecularVisualization.visibilityChange (JSMath.mk Real.sin Real.cos Real.sqrt Real.pi (fun _ => 0)) true
            (MolecularVisualization.start (JSMath.mk Real.sin Real.cos Real.sqrt Real.pi (fun _ => 0))
        ({ rectWidth := 800, rectHeight := 600, devicePixelRatio := 1, innerWidth := 1280 } :
          Viewport ℝ)
        MolecularVisualization.defaultConfig))))).pendingFrames = 2 := by
  obtain ⟨h0, hr⟩ := MolecularVisualization.start_fields (JSMath.mk Real.sin Real.cos Real.sqrt Real.pi (fun _ => 0))
    ({ rectWidth := 800, rectHeight := 600, devicePixelRatio := 1, innerWidth := 1280 } :
          Viewport ℝ) MolecularVisualization.defaultConfig
  obtain ⟨h1, h2, -, h4⟩ := MolecularVisualization.hide_show_adds_loop (JSMath.mk Real.sin Real.cos Real.sqrt Real.pi (fun _ => 0))
    (MolecularVisualization.start (JSMath.mk Real.sin Real.cos Real.sqrt Real.pi (fun _ => 0))
        ({ rectWidth := 800, rectHeight := 600, devicePixelRatio := 1, innerWidth := 1280 } :
          Viewport ℝ)
        MolecularVisualization.defaultConfig)
  rw [h0] at h1 h2 h4
  exact ⟨h0, hr, h1, h2, h4⟩

/-- C27 (the code at a failing input): with the texts `["", "ADN"]` the first
call of `type()` leaves the character index at 1, above the length 0 of the
current text, and the state never starts deleting: after `n` calls the index
is `n` and the current text is still the first one. -/
theorem typing_overruns_empty_text :
    HeroTyping.typeSteps 1 (HeroTyping.construct [[], ['A', 'D', 'N']]) =
      some { HeroTyping.construct [[], ['A', 'D', 'N']] with charIndex := 1, delay := 100 } ∧
    (HeroTyping.construct [[], ['A', 'D', 'N']]).texts[0]? = some [] ∧
    ¬ ((1 : Int) ≤ (([] : List Char).length : Int)) ∧
    ∀ n : Nat, ∃ s', HeroTyping.typeSteps n (HeroTyping.construct [[], ['A', 'D', 'N']]) = some s' ∧
      s'.currentIndex = 0 ∧ s'.isDeleting = false ∧ s'.charIndex = (n : Int) := by
  refine ⟨rfl, rfl, by decide, fun n => ?_⟩
  obtain ⟨s', h, -, e2, e3, e4⟩ := HeroTyping.stuck_on_empty_text n
    (HeroTyping.construct [[], ['A', 'D', 'N']]) rfl rfl (le_refl 0)
  exact ⟨s', h, e2, e3, by rw [e4]; show (0 : Int) + n = n; simp⟩

/-- C28: from a state with character index 0 that is not deleting and whose
current text has length `L >= 1`, exactly `L` calls of `type()` show the
whole text and leave the state deleting with the pause time (2000 ms in the
constructor) as delay, and exactly `2L` calls show the empty text with
character index 0, not deleting, and the current index advanced to
`(k + 1) mod n`. -/
theorem typing_cycle (s : HeroTyping.State) (t : List Char)
    (ht : s.texts[s.currentIndex]? = some t) (hc : s.charIndex = 0)
    (hd : s.isDeleting = false) (hL : 1 ≤ t.length) :
    HeroTyping.typeSteps t.length s = some
      { s with
        textContent := t
        charIndex := (t.length : Int)
        delay := s.pauseTime
        isDeleting := true } ∧
    HeroTyping.typeSteps (2 * t.length) s = some
      { s with
        textContent := []
        charIndex := 0
        isDeleting := false
        currentIndex := (s.currentIndex + 1) % s.texts.length
        delay := 500 } ∧
    (∀ texts, (HeroTyping.construct texts).pauseTime = 2000 ∧
      (HeroTyping.construct texts).charIndex = 0 ∧
      (HeroTyping.construct texts).isDeleting = false ∧
      (HeroTyping.construct texts).currentIndex = 0) := by
  obtain ⟨m, hm⟩ : ∃ m, t.length = m + 1 := ⟨t.length - 1, by omega⟩
  have h1 : HeroTyping.typeSteps t.length s = some
      { s with
        textContent := t
        charIndex := (t.length : Int)
        delay := s.pauseTime
        isDeleting := true } := by
    have := HeroTyping.typing_phase m s t ht hd (by rw [hc]) (by rw [hc, hm]; simp)
    rw [hm]
    rw [this, hm]
  refine ⟨h1, ?_, fun _ => ⟨rfl, rfl, rfl, rfl⟩⟩
  have h2 := HeroTyping.deleting_phase m
    { s with
      textContent := t
      charIndex := (t.length : Int)
      delay := s.pauseTime
      isDeleting := true } t ht rfl (by show (t.length : Int) = _; rw [hm])
  rw [two_mul, HeroTyping.typeSteps_add, h1, Option.some_bind]
  rw [hm] at h2 ⊢
  rw [h2]

/-- A witness of C28: with the texts `["ab", "c"]` two calls show "ab" and
four calls lead to the second text. -/
theorem typing_cycle_witness :
    HeroTyping.typeSteps (2 * ['a', 'b'].length) (HeroTyping.construct [['a', 'b'], ['c']]) = some
      { HeroTyping.construct [['a', 'b'], ['c']] with
        textContent := []
        charIndex := 0
        isDeleting := false
        currentIndex := (0 + 1) % 2
        delay := 500 } :=
  (typing_cycle (HeroTyping.construct [['a', 'b'], ['c']]) ['a', 'b'] rfl rfl rfl
    (by decide)).2.1

end Claims

end Oncologia
